import Mathlib

/-!
Shallow embedding of the vehicle control logic of the car-ball repository
(class `Vehicle` in the TypeScript source: the methods `updateFromKeyboard`
and `reset`, together with the cannon-es primitives they invoke).

Modelling conventions:
* JavaScript numbers are idealised as exact rationals (`ℚ`); `Date.now()`
  timestamps are integers (milliseconds, `ℤ`).
* `Math.sqrt` (reached through cannon-es `Vec3.length` / `Vec3.unit`) is
  passed in as an explicit function parameter `sqrt : ℚ → ℚ`; theorems that
  depend on the magnitude of a vector assume that `sqrt` is exact at the
  values where the code calls it.
* `this.#lastJumpTime : number | null` becomes `Option ℤ`, and the derived
  `timeSinceLastJump` (which is JavaScript `Infinity` when the timestamp is
  `null`) becomes `Option ℤ` with `none` playing the role of `Infinity` in
  the comparisons `gtTime` / `ltTime`.
* The keyboard input map (`Record<string, KeyboardEventTypes | boolean>`) is
  restricted to the keys the control policy reads; a missing entry (deleted
  by `delete this.#inputMap.x`) is `none`.
* One call of `updateFromKeyboard` additionally returns a `TickLog`
  recording, per call site, the impulses / torques / forces issued to the
  physics body during the tick, and the fire times of self-righting torques
  scheduled with `setTimeout` (the callback reads `this.#forward` when it
  fires, so only the fire time is recorded at scheduling time).
-/

namespace CarBall

/-- Babylon `KeyboardEventTypes` (only the two values stored in the map). -/
inductive KeyboardEventTypes where
  | keydown
  | keyup
deriving DecidableEq, Repr

/-- cannon-es `Vec3`, components idealised as rationals. -/
structure Vec3 where
  x : ℚ
  y : ℚ
  z : ℚ
deriving DecidableEq, Repr

/-- cannon-es `Vec3.vadd`. -/
def Vec3.vadd (a b : Vec3) : Vec3 := ⟨a.x + b.x, a.y + b.y, a.z + b.z⟩

/-- cannon-es `Vec3.scale`. -/
def Vec3.scale (a : Vec3) (c : ℚ) : Vec3 := ⟨a.x * c, a.y * c, a.z * c⟩

/-- Squared euclidean norm; `Vec3.length()` in cannon-es is `Math.sqrt` of this. -/
def Vec3.normSq (a : Vec3) : ℚ := a.x ^ 2 + a.y ^ 2 + a.z ^ 2

/-- cannon-es `Vec3.length`, with `Math.sqrt` abstracted as a parameter. -/
def Vec3.length (sq : ℚ → ℚ) (a : Vec3) : ℚ := sq a.normSq

/-- cannon-es `Vec3.unit`: scales by the inverse length when the computed
length is positive, otherwise returns the default unit vector `(1,0,0)`. -/
def Vec3.unit (sq : ℚ → ℚ) (a : Vec3) : Vec3 :=
  let n := sq a.normSq
  if 0 < n then a.scale (1 / n) else ⟨1, 0, 0⟩

/-- cannon-es `Vec3.cross`. -/
def Vec3.cross (a b : Vec3) : Vec3 :=
  ⟨a.y * b.z - a.z * b.y, a.z * b.x - a.x * b.z, a.x * b.y - a.y * b.x⟩

/-- cannon-es `Vec3.almostEquals`: false when any component differs by more
than the precision. -/
def Vec3.almostEquals (a b : Vec3) (precision : ℚ) : Bool :=
  !(decide (|a.x - b.x| > precision) || decide (|a.y - b.y| > precision) ||
    decide (|a.z - b.z| > precision))

/-- cannon-es `Quaternion` (only stored and copied by the code in scope). -/
structure Quat where
  qx : ℚ
  qy : ℚ
  qz : ℚ
  qw : ℚ
deriving DecidableEq, Repr

/-- The chassis `Body`: the fields of the cannon-es rigid body that the
control code reads or writes, plus the `init*` fields used by `reset`. -/
structure Body where
  position : Vec3
  quaternion : Quat
  velocity : Vec3
  angularVelocity : Vec3
  force : Vec3
  torque : Vec3
  initPosition : Vec3
  initQuaternion : Quat
  initVelocity : Vec3
  initAngularVelocity : Vec3
deriving DecidableEq, Repr

/-- `#mass = 100` of the chassis body. -/
def chassisMass : ℚ := 100

/-- cannon-es `Body.applyForce` at the centre of mass: adds to the force
accumulator (the torque contribution of the zero relative point vanishes). -/
def Body.applyForce (b : Body) (f : Vec3) : Body :=
  { b with force := b.force.vadd f }

/-- cannon-es `Body.applyImpulse` at the centre of mass: adds
`impulse * invMass` to the linear velocity (the chassis inertia is zeroed in
setup, so the angular part is unchanged). -/
def Body.applyImpulse (b : Body) (impulse : Vec3) : Body :=
  { b with velocity := b.velocity.vadd (impulse.scale (1 / chassisMass)) }

/-- cannon-es `Body.applyTorque`: adds to the torque accumulator. -/
def Body.applyTorque (b : Body) (t : Vec3) : Body :=
  { b with torque := b.torque.vadd t }

/-- Per-wheel command state of the cannon-es `RaycastVehicle` wheel infos. -/
structure WheelInfo where
  engineForce : ℚ
  steering : ℚ
  brake : ℚ
deriving DecidableEq, Repr

/-- The cannon-es `RaycastVehicle` as the control code sees it: the chassis
body, the four wheels added in `setupPhysics`, and the number of wheels the
raycast step reported in ground contact. -/
structure RaycastVehicle where
  chassisBody : Body
  wheel0 : WheelInfo
  wheel1 : WheelInfo
  wheel2 : WheelInfo
  wheel3 : WheelInfo
  numWheelsOnGround : ℕ
deriving DecidableEq, Repr

/-- `RaycastVehicle.applyEngineForce(value, wheelIndex)`. -/
def RaycastVehicle.applyEngineForce (pv : RaycastVehicle) (value : ℚ)
    (wheelIndex : ℕ) : RaycastVehicle :=
  match wheelIndex with
  | 0 => { pv with wheel0 := { pv.wheel0 with engineForce := value } }
  | 1 => { pv with wheel1 := { pv.wheel1 with engineForce := value } }
  | 2 => { pv with wheel2 := { pv.wheel2 with engineForce := value } }
  | 3 => { pv with wheel3 := { pv.wheel3 with engineForce := value } }
  | _ => pv

/-- `RaycastVehicle.setSteeringValue(value, wheelIndex)`. -/
def RaycastVehicle.setSteeringValue (pv : RaycastVehicle) (value : ℚ)
    (wheelIndex : ℕ) : RaycastVehicle :=
  match wheelIndex with
  | 0 => { pv with wheel0 := { pv.wheel0 with steering := value } }
  | 1 => { pv with wheel1 := { pv.wheel1 with steering := value } }
  | 2 => { pv with wheel2 := { pv.wheel2 with steering := value } }
  | 3 => { pv with wheel3 := { pv.wheel3 with steering := value } }
  | _ => pv

/-- `RaycastVehicle.setBrake(brake, wheelIndex)`. -/
def RaycastVehicle.setBrake (pv : RaycastVehicle) (brake : ℚ)
    (wheelIndex : ℕ) : RaycastVehicle :=
  match wheelIndex with
  | 0 => { pv with wheel0 := { pv.wheel0 with brake := brake } }
  | 1 => { pv with wheel1 := { pv.wheel1 with brake := brake } }
  | 2 => { pv with wheel2 := { pv.wheel2 with brake := brake } }
  | 3 => { pv with wheel3 := { pv.wheel3 with brake := brake } }
  | _ => pv

/-- The entries of `this.#inputMap` that the control code reads.  `none`
models an absent entry (never written, or removed with `delete`). -/
structure InputMap where
  w : Option KeyboardEventTypes
  s : Option KeyboardEventTypes
  a : Option KeyboardEventTypes
  d : Option KeyboardEventTypes
  space : Option KeyboardEventTypes
  arrowUp : Option KeyboardEventTypes
  arrowDown : Option KeyboardEventTypes
  arrowLeft : Option KeyboardEventTypes
  arrowRight : Option KeyboardEventTypes
  shiftKey : Option Bool
deriving DecidableEq, Repr

/-- The mutable state of the `Vehicle` instance that `updateFromKeyboard`
reads and writes: the input map, the direction frame (recomputed outside
this function by `updateDirectionVectors`), the physics vehicle, and the
jumping/flipping timing state. -/
structure Vehicle where
  inputMap : InputMap
  up : Vec3
  right : Vec3
  forward : Vec3
  physicsVehicle : RaycastVehicle
  lastJumpTime : Option ℤ
  lastFlipTime : Option ℤ
  hasStoppedJumping : Bool
  hasUsedDoubleJump : Bool
  isSelfRighting : Bool
  isJumping : Bool
deriving DecidableEq, Repr

/-! Tuning constants of the `Vehicle` class (readonly fields). -/

def maxSteerValue : ℚ := 3 / 10
def maxEngineForceAmount : ℚ := 1000
def boostForceAmount : ℚ := 8000
def brakeForceAmount : ℚ := 50
def maxAngularVelocity : ℚ := 11 / 2
def maxVelocity : ℚ := 150
def aerialPitchTorque : ℚ := 7000
def aerialYawTorque : ℚ := 7000
def aerialRollTorque : ℚ := 6000
def jumpForceAmount : ℚ := 26000
def maxjumpDurationMilliseconds : ℤ := 110
def doubleJumpForceAmount : ℚ := 1000
def minDoubleJumpDurationMilliseconds : ℤ := 100
def maxDoubleJumpDurationMilliseconds : ℤ := 1500
def selfRightingForceAmount : ℚ := 7000
def selfRightingTorqueAmount : ℚ := 1000000
def selfRightingTorqueDelayAmountMilliseconds : ℤ := 200
def flipTorque : ℚ := 370000
def flipForce : ℚ := 7000
def sideFlipTorque : ℚ := 200000
def sideFlipHorizontalForce : ℚ := 1500
def flipImmobillityDurationMilliseconds : ℤ := 200

/-- `t < c` for an elapsed time where `none` models JavaScript `Infinity`
(the comparison `Infinity < c` is false). -/
def ltTime : Option ℤ → ℤ → Bool
  | none, _ => false
  | some t, c => decide (t < c)

/-- `t > c` for an elapsed time where `none` models JavaScript `Infinity`
(the comparison `Infinity > c` is true). -/
def gtTime : Option ℤ → ℤ → Bool
  | none, _ => true
  | some t, c => decide (c < t)

/-- `numWheelsOnGround === wheelInfos.length` (four wheels are added). -/
def areWheelsOnGround (v : Vehicle) : Bool :=
  decide (v.physicsVehicle.numWheelsOnGround = 4)

/-- `this.#up.almostEquals(new Vec3(0, 1, 0), 0.2)`. -/
def isFacingUpwards (v : Vehicle) : Bool :=
  v.up.almostEquals ⟨0, 1, 0⟩ (1 / 5)

/-- `chassisBody.position.y < 1.5 && this.#up.almostEquals(new Vec3(0, -1, 0), 0.2)`. -/
def isStuckUpsideDown (v : Vehicle) : Bool :=
  decide (v.physicsVehicle.chassisBody.position.y < 3 / 2) &&
    v.up.almostEquals ⟨0, -1, 0⟩ (1 / 5)

/-- `Date.now() - this.#lastJumpTime`, `none` when the timestamp is `null`
(in the source the elapsed time is then `Infinity`). -/
def timeSinceLastJump (v : Vehicle) (now : ℤ) : Option ℤ :=
  v.lastJumpTime.map (fun t => now - t)

/-- `Date.now() - this.#lastFlipTime`, `none` when the timestamp is `null`. -/
def timeSinceLastFlip (v : Vehicle) (now : ℤ) : Option ℤ :=
  v.lastFlipTime.map (fun t => now - t)

/-- The `canDoubleJump` flag computed at the top of `updateFromKeyboard`. -/
def canDoubleJump (v : Vehicle) (now : ℤ) : Bool :=
  !areWheelsOnGround v && !isStuckUpsideDown v && !v.hasUsedDoubleJump &&
    v.hasStoppedJumping &&
    gtTime (timeSinceLastJump v now) minDoubleJumpDurationMilliseconds &&
    ltTime (timeSinceLastJump v now) maxDoubleJumpDurationMilliseconds

/-- The double-jump-and-flip block runs when the jump key edge is `keydown`
and `canDoubleJump` holds. -/
def doubleJumpTriggers (v : Vehicle) (now : ℤ) : Bool :=
  decide (v.inputMap.space = some KeyboardEventTypes.keydown) && canDoubleJump v now

/-- Ghost record of the physics commands issued during one call of
`updateFromKeyboard`, grouped by call site. -/
structure TickLog where
  jumpForces : List Vec3
  aerialTorques : List Vec3
  neutralDoubleJumpImpulses : List Vec3
  flipImpulses : List Vec3
  flipTorques : List Vec3
  selfRightingImpulses : List Vec3
  scheduledSelfRightingTorqueTimes : List ℤ
  boostForces : List Vec3
deriving DecidableEq, Repr

def TickLog.empty : TickLog := ⟨[], [], [], [], [], [], [], []⟩

/-- Source lines 421-439: the accelerate/reverse if-else chain.  Both keys
down cancel to zero engine force; otherwise `w` drives forward (negative
force) and `s` in reverse, on all four wheels. -/
def accelDriveBlock (v : Vehicle) : Vehicle :=
  if v.inputMap.w = some KeyboardEventTypes.keydown ∧
      v.inputMap.s = some KeyboardEventTypes.keydown then
    { v with physicsVehicle :=
        ((((v.physicsVehicle.applyEngineForce 0 0).applyEngineForce 0 1).applyEngineForce
            0 2).applyEngineForce 0 3) }
  else if v.inputMap.w = some KeyboardEventTypes.keydown then
    { v with physicsVehicle :=
        ((((v.physicsVehicle.applyEngineForce (-maxEngineForceAmount) 0).applyEngineForce
            (-maxEngineForceAmount) 1).applyEngineForce (-maxEngineForceAmount)
            2).applyEngineForce (-maxEngineForceAmount) 3) }
  else if v.inputMap.s = some KeyboardEventTypes.keydown then
    { v with physicsVehicle :=
        ((((v.physicsVehicle.applyEngineForce maxEngineForceAmount 0).applyEngineForce
            maxEngineForceAmount 1).applyEngineForce maxEngineForceAmount
            2).applyEngineForce maxEngineForceAmount 3) }
  else v

/-- Source lines 441-450: on the `w` key-up edge, zero the engine force on
all wheels and delete the `w` entry. -/
def accelWKeyupBlock (v : Vehicle) : Vehicle :=
  if v.inputMap.w = some KeyboardEventTypes.keyup then
    { v with
      physicsVehicle :=
        ((((v.physicsVehicle.applyEngineForce 0 0).applyEngineForce 0 1).applyEngineForce
            0 2).applyEngineForce 0 3),
      inputMap := { v.inputMap with w := none } }
  else v

/-- Source lines 452-461: on the `s` key-up edge, zero the engine force on
all wheels and delete the `s` entry. -/
def accelSKeyupBlock (v : Vehicle) : Vehicle :=
  if v.inputMap.s = some KeyboardEventTypes.keyup then
    { v with
      physicsVehicle :=
        ((((v.physicsVehicle.applyEngineForce 0 0).applyEngineForce 0 1).applyEngineForce
            0 2).applyEngineForce 0 3),
      inputMap := { v.inputMap with s := none } }
  else v

/-- Source lines 420-461: accelerating/reversing, in statement order. -/
def accelStep (v : Vehicle) : Vehicle :=
  accelSKeyupBlock (accelWKeyupBlock (accelDriveBlock v))

/-- Source lines 464-476: the steering if-else chain on the two front
wheels. -/
def steerBlock (v : Vehicle) : Vehicle :=
  if v.inputMap.a = some KeyboardEventTypes.keydown ∧
      v.inputMap.d = some KeyboardEventTypes.keydown then
    { v with physicsVehicle :=
        ((v.physicsVehicle.setSteeringValue 0 0).setSteeringValue 0 1) }
  else if v.inputMap.a = some KeyboardEventTypes.keydown then
    { v with physicsVehicle :=
        ((v.physicsVehicle.setSteeringValue (-maxSteerValue) 0).setSteeringValue
          (-maxSteerValue) 1) }
  else if v.inputMap.d = some KeyboardEventTypes.keydown then
    { v with physicsVehicle :=
        ((v.physicsVehicle.setSteeringValue maxSteerValue 0).setSteeringValue
          maxSteerValue 1) }
  else v

/-- Source lines 478-485: on the `a` key-up edge, zero the steering and
delete the `a` entry. -/
def steerAKeyupBlock (v : Vehicle) : Vehicle :=
  if v.inputMap.a = some KeyboardEventTypes.keyup then
    { v with
      physicsVehicle := ((v.physicsVehicle.setSteeringValue 0 0).setSteeringValue 0 1),
      inputMap := { v.inputMap with a := none } }
  else v

/-- Source lines 487-494: on the `d` key-up edge, zero the steering and
delete the `d` entry. -/
def steerDKeyupBlock (v : Vehicle) : Vehicle :=
  if v.inputMap.d = some KeyboardEventTypes.keyup then
    { v with
      physicsVehicle := ((v.physicsVehicle.setSteeringValue 0 0).setSteeringValue 0 1),
      inputMap := { v.inputMap with d := none } }
  else v

/-- Source lines 463-494: steering, in statement order. -/
def steerStep (v : Vehicle) : Vehicle :=
  steerDKeyupBlock (steerAKeyupBlock (steerBlock v))

/-- Source lines 497-502: braking while the shift modifier flag is true. -/
def brakeOnBlock (v : Vehicle) : Vehicle :=
  if v.inputMap.shiftKey = some true then
    { v with physicsVehicle :=
        ((((v.physicsVehicle.setBrake brakeForceAmount 0).setBrake brakeForceAmount
            1).setBrake brakeForceAmount 2).setBrake brakeForceAmount 3) }
  else v

/-- Source lines 504-509: releasing the brakes while the shift modifier flag
is false. -/
def brakeOffBlock (v : Vehicle) : Vehicle :=
  if v.inputMap.shiftKey = some false then
    { v with physicsVehicle :=
        ((((v.physicsVehicle.setBrake 0 0).setBrake 0 1).setBrake 0 2).setBrake 0 3) }
  else v

/-- Source lines 496-509: braking, in statement order. -/
def brakeStep (v : Vehicle) : Vehicle :=
  brakeOffBlock (brakeOnBlock v)

/-- One aerial attitude torque block: apply the torque when the key is held,
not all wheels are grounded, and the flip immobility window has passed. -/
def aerialTorqueIf (p : Vehicle × TickLog) (fire : Prop) [Decidable fire]
    (t : Vec3) : Vehicle × TickLog :=
  if fire then
    ({ p.1 with physicsVehicle := { p.1.physicsVehicle with
        chassisBody := p.1.physicsVehicle.chassisBody.applyTorque t } },
     { p.2 with aerialTorques := p.2.aerialTorques ++ [t] })
  else p

/-- Source lines 511-569: air pitch (`w`/`s`), air yaw (`a`/`d`) and air roll
(`ArrowLeft`/`ArrowRight`), each gated on being airborne and outside the
flip immobility window.  `onGround` and `tsf` are the values computed at the
top of `updateFromKeyboard`; the key edges are read from the current map. -/
def aerialStep (v : Vehicle) (log : TickLog) (onGround : Bool)
    (tsf : Option ℤ) : Vehicle × TickLog :=
  let canAerial := onGround = false ∧
    gtTime tsf flipImmobillityDurationMilliseconds = true
  let p1 := aerialTorqueIf (v, log)
    (v.inputMap.w = some KeyboardEventTypes.keydown ∧ canAerial)
    (v.right.scale aerialPitchTorque)
  let p2 := aerialTorqueIf p1
    (v.inputMap.s = some KeyboardEventTypes.keydown ∧ canAerial)
    (v.right.scale (-aerialPitchTorque))
  let p3 := aerialTorqueIf p2
    (v.inputMap.a = some KeyboardEventTypes.keydown ∧ canAerial)
    (v.up.scale (-aerialYawTorque))
  let p4 := aerialTorqueIf p3
    (v.inputMap.d = some KeyboardEventTypes.keydown ∧ canAerial)
    (v.up.scale aerialYawTorque)
  let p5 := aerialTorqueIf p4
    (v.inputMap.arrowLeft = some KeyboardEventTypes.keydown ∧ canAerial)
    (v.forward.scale aerialRollTorque)
  aerialTorqueIf p5
    (v.inputMap.arrowRight = some KeyboardEventTypes.keydown ∧ canAerial)
    (v.forward.scale (-aerialRollTorque))

/-- Source lines 572-574: all wheels on ground re-arms the double jump. -/
def groundRearmBlock (v : Vehicle) (onGround : Bool) : Vehicle :=
  if onGround then { v with hasUsedDoubleJump := false } else v

/-- Source lines 575-578: the jump-key release re-arms the latch and ends
the jump (the `space` entry itself is left in the map). -/
def spaceKeyupBlock (v : Vehicle) : Vehicle :=
  if v.inputMap.space = some KeyboardEventTypes.keyup then
    { v with hasStoppedJumping := true, isJumping := false }
  else v

/-- Source lines 580-588: the ground jump start — records the jump time and
consumes the latch. -/
def groundJumpBlock (v : Vehicle) (onGround : Bool) (now : ℤ) : Vehicle :=
  if v.inputMap.space = some KeyboardEventTypes.keydown ∧ onGround = true ∧
      v.hasStoppedJumping = true then
    { v with isJumping := true, lastJumpTime := some now, hasStoppedJumping := false }
  else v

/-- Source lines 589-596: the continuous jump force while `isJumping` and
within `maxjumpDurationMilliseconds` of the last jump (as computed at the
top of the tick). -/
def jumpForceBlock (v : Vehicle) (log : TickLog) (tsj : Option ℤ) :
    Vehicle × TickLog :=
  if v.isJumping = true ∧ ltTime tsj maxjumpDurationMilliseconds = true then
    ({ v with physicsVehicle := { v.physicsVehicle with
        chassisBody :=
          v.physicsVehicle.chassisBody.applyForce (v.up.scale jumpForceAmount) } },
     { log with jumpForces := log.jumpForces ++ [v.up.scale jumpForceAmount] })
  else (v, log)

/-- Source lines 571-596: the jumping block, in statement order. -/
def jumpStep (v : Vehicle) (log : TickLog) (onGround : Bool)
    (tsj : Option ℤ) (now : ℤ) : Vehicle × TickLog :=
  jumpForceBlock (groundJumpBlock (spaceKeyupBlock (groundRearmBlock v onGround)) onGround now)
    log tsj

/-- Source lines 602-611: the neutral double-jump impulse, taken when no
directional key is held. -/
def neutralImpulseBlock (p : Vehicle × TickLog) : Vehicle × TickLog :=
  if p.1.inputMap.w ≠ some KeyboardEventTypes.keydown ∧
      p.1.inputMap.s ≠ some KeyboardEventTypes.keydown ∧
      p.1.inputMap.a ≠ some KeyboardEventTypes.keydown ∧
      p.1.inputMap.d ≠ some KeyboardEventTypes.keydown then
    ({ p.1 with physicsVehicle := { p.1.physicsVehicle with
        chassisBody := p.1.physicsVehicle.chassisBody.applyImpulse
          (p.1.up.scale doubleJumpForceAmount) } },
     { p.2 with neutralDoubleJumpImpulses :=
        p.2.neutralDoubleJumpImpulses ++ [p.1.up.scale doubleJumpForceAmount] })
  else p

/-- One flip branch: record `lastFlipTime`, apply the flip impulse and the
flip torque. -/
def flipIf (p : Vehicle × TickLog) (fire : Prop) [Decidable fire]
    (impulse t : Vec3) (now : ℤ) : Vehicle × TickLog :=
  if fire then
    ({ p.1 with
        lastFlipTime := some now,
        physicsVehicle := { p.1.physicsVehicle with
          chassisBody :=
            (p.1.physicsVehicle.chassisBody.applyImpulse impulse).applyTorque t } },
     { p.2 with
        flipImpulses := p.2.flipImpulses ++ [impulse],
        flipTorques := p.2.flipTorques ++ [t] })
  else p

/-- Source lines 599-680, body of the double-jump-and-flip `if`: consume the
double jump, re-arm the latch-clear flag, then the neutral impulse and the
four flip branches, in statement order.  The key edges are read from the
current map; the direction frame is the tick's frame. -/
def doubleJumpBody (sq : ℚ → ℚ) (v : Vehicle) (log : TickLog) (now : ℤ) :
    Vehicle × TickLog :=
  let v1 := { v with hasUsedDoubleJump := true, hasStoppedJumping := false }
  let p1 := neutralImpulseBlock (v1, log)
  let horizontalForward : Vec3 := ⟨v.forward.x, 0, v.forward.z⟩
  let p2 := flipIf p1 (v.inputMap.w = some KeyboardEventTypes.keydown)
    (horizontalForward.scale flipForce) (v.right.scale flipTorque) now
  let p3 := flipIf p2 (v.inputMap.s = some KeyboardEventTypes.keydown)
    (horizontalForward.scale (-flipForce)) (v.right.scale (-flipTorque)) now
  let p4 := flipIf p3 (v.inputMap.a = some KeyboardEventTypes.keydown)
    (((horizontalForward.cross ⟨0, 1, 0⟩).unit sq).scale sideFlipHorizontalForce)
    (v.forward.scale sideFlipTorque) now
  flipIf p4 (v.inputMap.d = some KeyboardEventTypes.keydown)
    (((Vec3.cross ⟨0, 1, 0⟩ horizontalForward).unit sq).scale sideFlipHorizontalForce)
    (v.forward.scale (-sideFlipTorque)) now

/-- Source lines 598-680: the double jump and flip block.  `cdj` is the
`canDoubleJump` flag computed at the top of the tick. -/
def doubleJumpStep (sq : ℚ → ℚ) (v : Vehicle) (log : TickLog) (cdj : Bool)
    (now : ℤ) : Vehicle × TickLog :=
  if v.inputMap.space = some KeyboardEventTypes.keydown ∧ cdj = true then
    doubleJumpBody sq v log now
  else (v, log)

/-- Source lines 683-687: self-righting completion — once facing upwards,
hard-stop the rotation and clear the flag. -/
def selfRightCompletionBlock (v : Vehicle) (facingUp : Bool) : Vehicle :=
  if v.isSelfRighting = true ∧ facingUp = true then
    { v with
      physicsVehicle := { v.physicsVehicle with
        chassisBody := { v.physicsVehicle.chassisBody with
          torque := ⟨0, 0, 0⟩, angularVelocity := ⟨0, 0, 0⟩ } },
      isSelfRighting := false }
  else v

/-- Source lines 688-704: the self-righting trigger.  The delayed torque is
scheduled for `now + selfRightingTorqueDelayAmountMilliseconds`; the
`setTimeout` callback reads `this.#forward` at fire time, so only the fire
time is recorded at scheduling time. -/
def selfRightTriggerBlock (v : Vehicle) (log : TickLog) (stuck : Bool)
    (now : ℤ) : Vehicle × TickLog :=
  if v.inputMap.space = some KeyboardEventTypes.keydown ∧ stuck = true ∧
      v.hasStoppedJumping = true ∧ v.isSelfRighting = false then
    ({ v with
        isSelfRighting := true,
        lastJumpTime := none,
        physicsVehicle := { v.physicsVehicle with
          chassisBody := v.physicsVehicle.chassisBody.applyImpulse
            (v.up.scale selfRightingForceAmount) } },
     { log with
        selfRightingImpulses :=
          log.selfRightingImpulses ++ [v.up.scale selfRightingForceAmount],
        scheduledSelfRightingTorqueTimes :=
          log.scheduledSelfRightingTorqueTimes ++
            [now + selfRightingTorqueDelayAmountMilliseconds] })
  else (v, log)

/-- Source lines 682-704: self-righting, in statement order. -/
def selfRightingStep (v : Vehicle) (log : TickLog) (facingUp stuck : Bool)
    (now : ℤ) : Vehicle × TickLog :=
  selfRightTriggerBlock (selfRightCompletionBlock v facingUp) log stuck now

/-- Source lines 706-711: boosting along the forward axis. -/
def boostStep (v : Vehicle) (log : TickLog) : Vehicle × TickLog :=
  if v.inputMap.arrowUp = some KeyboardEventTypes.keydown then
    ({ v with physicsVehicle := { v.physicsVehicle with
        chassisBody :=
          v.physicsVehicle.chassisBody.applyForce (v.forward.scale boostForceAmount) } },
     { log with boostForces := log.boostForces ++ [v.forward.scale boostForceAmount] })
  else (v, log)

/-- Source lines 713-723: angular velocity limiting. -/
def limitAngularBlock (sq : ℚ → ℚ) (b : Body) : Body :=
  if maxAngularVelocity < b.angularVelocity.length sq then
    { b with angularVelocity := (b.angularVelocity.unit sq).scale maxAngularVelocity }
  else b

/-- Source lines 725-734: linear velocity limiting. -/
def limitLinearBlock (sq : ℚ → ℚ) (b : Body) : Body :=
  if maxVelocity < b.velocity.length sq then
    { b with velocity := (b.velocity.unit sq).scale maxVelocity }
  else b

/-- Source lines 713-735: both velocity limiters, in statement order. -/
def limitStep (sq : ℚ → ℚ) (b : Body) : Body :=
  limitLinearBlock sq (limitAngularBlock sq b)

/-- `Vehicle.updateFromKeyboard` up to, but not including, the velocity
limiting at the end; separated so the limiter input can be named. -/
def updateFromKeyboardPreLimit (sq : ℚ → ℚ) (v : Vehicle) (now : ℤ) :
    Vehicle × TickLog :=
  let onGround := areWheelsOnGround v
  let facingUp := isFacingUpwards v
  let stuck := isStuckUpsideDown v
  let tsf := timeSinceLastFlip v now
  let tsj := timeSinceLastJump v now
  let cdj := canDoubleJump v now
  let v3 := brakeStep (steerStep (accelStep v))
  let p4 := aerialStep v3 TickLog.empty onGround tsf
  let p5 := jumpStep p4.1 p4.2 onGround tsj now
  let p6 := doubleJumpStep sq p5.1 p5.2 cdj now
  let p7 := selfRightingStep p6.1 p6.2 facingUp stuck now
  boostStep p7.1 p7.2

/-- `Vehicle.updateFromKeyboard`, one tick of the control policy: the
derived flags are computed from the entry state, then the blocks run in
source order, ending with the velocity limiters. -/
def updateFromKeyboard (sq : ℚ → ℚ) (v : Vehicle) (now : ℤ) :
    Vehicle × TickLog :=
  let p := updateFromKeyboardPreLimit sq v now
  ({ p.1 with physicsVehicle := { p.1.physicsVehicle with
      chassisBody := limitStep sq p.1.physicsVehicle.chassisBody } },
   p.2)

/-- `Vehicle.reset`: copies the four `init*` fields of the chassis body back
into the live transform and velocities.  Nothing else is touched. -/
def Vehicle.reset (v : Vehicle) : Vehicle :=
  { v with physicsVehicle := { v.physicsVehicle with
      chassisBody := { v.physicsVehicle.chassisBody with
        quaternion := v.physicsVehicle.chassisBody.initQuaternion,
        velocity := v.physicsVehicle.chassisBody.initVelocity,
        angularVelocity := v.physicsVehicle.chassisBody.initAngularVelocity,
        position := v.physicsVehicle.chassisBody.initPosition } } }

/-! Sample concrete states used by the witnesses and counterexamples. -/

def zeroVec : Vec3 := ⟨0, 0, 0⟩

def sampleWheel : WheelInfo := ⟨0, 0, 0⟩

def sampleBody : Body :=
  ⟨⟨0, 15, 0⟩, ⟨0, 0, 0, 1⟩, zeroVec, zeroVec, zeroVec, zeroVec,
   ⟨0, 15 / 4, 0⟩, ⟨0, 0, 0, 1⟩, zeroVec, zeroVec⟩

def sampleInput : InputMap :=
  ⟨none, none, none, none, none, none, none, none, none, none⟩

def samplePV : RaycastVehicle :=
  ⟨sampleBody, sampleWheel, sampleWheel, sampleWheel, sampleWheel, 0⟩

def sampleVehicle : Vehicle :=
  ⟨sampleInput, ⟨0, 1, 0⟩, ⟨1, 0, 0⟩, ⟨0, 0, 1⟩, samplePV, none, none,
   true, false, false, false⟩

/-- Airborne state with a 500ms-old jump: the double-jump window is open. -/
def c1v : Vehicle :=
  { sampleVehicle with
    inputMap := { sampleInput with space := some KeyboardEventTypes.keydown },
    lastJumpTime := some 0 }

/-- State whose jump key is on its `up` edge. -/
def c2v : Vehicle :=
  { sampleVehicle with
    inputMap := { sampleInput with space := some KeyboardEventTypes.keyup } }

/-- Airborne-but-touching state: exactly one wheel reports ground contact,
with the double jump already used. -/
def c4v : Vehicle :=
  { sampleVehicle with
    hasUsedDoubleJump := true,
    physicsVehicle := { samplePV with numWheelsOnGround := 1 } }

/-- Grounded state (all four wheels) with the double jump already used. -/
def c4w : Vehicle :=
  { sampleVehicle with
    hasUsedDoubleJump := true,
    physicsVehicle := { samplePV with numWheelsOnGround := 4 } }

/-- Grounded-and-stuck-upside-down state with the jump key down and the
latch clear: all four of the claim's trigger conditions hold. -/
def c6v : Vehicle :=
  { sampleVehicle with
    inputMap := { sampleInput with space := some KeyboardEventTypes.keydown },
    up := ⟨0, -1, 0⟩,
    physicsVehicle := { samplePV with
      numWheelsOnGround := 4,
      chassisBody := { sampleBody with position := ⟨0, 0, 0⟩ } } }

/-- Airborne stuck-upside-down state with the jump key down and the latch
clear: the self-righting trigger conditions hold with no wheel grounded. -/
def c6w : Vehicle :=
  { sampleVehicle with
    inputMap := { sampleInput with space := some KeyboardEventTypes.keydown },
    up := ⟨0, -1, 0⟩,
    physicsVehicle := { samplePV with
      chassisBody := { sampleBody with position := ⟨0, 0, 0⟩ } } }


/-- Exactness of the abstracted `Math.sqrt` at one argument: the computed
root is nonnegative and squares back to the radicand. -/
def IsSqrtOf (sq : ℚ → ℚ) (q : ℚ) : Prop := 0 ≤ sq q ∧ sq q ^ 2 = q

/-- Square-root oracle that is exact on the two radicands of the witness
state. -/
def c8sq : ℚ → ℚ := fun q => if q = 40000 then 200 else if q = 36 then 6 else 0

/-- Quiescent airborne state whose linear and angular speeds both exceed
their caps. -/
def c8v : Vehicle :=
  { sampleVehicle with
    physicsVehicle := { samplePV with
      chassisBody := { sampleBody with
        velocity := ⟨200, 0, 0⟩,
        angularVelocity := ⟨0, 6, 0⟩ } } }


/-- State with all five control keys on their `up` edge. -/
def c2full : Vehicle :=
  { sampleVehicle with
    inputMap := { sampleInput with
      w := some KeyboardEventTypes.keyup,
      s := some KeyboardEventTypes.keyup,
      a := some KeyboardEventTypes.keyup,
      d := some KeyboardEventTypes.keyup,
      space := some KeyboardEventTypes.keyup } }

/-- Self-righting state that has just realigned, with the jump key still
held and the latch still clear. -/
def c10v : Vehicle :=
  { sampleVehicle with
    isSelfRighting := true,
    inputMap := { sampleInput with space := some KeyboardEventTypes.keydown } }

/-! Preservation lemmas: every block leaves every field it does not write unchanged. -/

theorem accelDriveBlock_imw (v : Vehicle) :
    (accelDriveBlock v).inputMap.w = v.inputMap.w := by
  unfold accelDriveBlock; split_ifs <;> rfl

theorem accelDriveBlock_ims (v : Vehicle) :
    (accelDriveBlock v).inputMap.s = v.inputMap.s := by
  unfold accelDriveBlock; split_ifs <;> rfl

theorem accelDriveBlock_ima (v : Vehicle) :
    (accelDriveBlock v).inputMap.a = v.inputMap.a := by
  unfold accelDriveBlock; split_ifs <;> rfl

theorem accelDriveBlock_imd (v : Vehicle) :
    (accelDriveBlock v).inputMap.d = v.inputMap.d := by
  unfold accelDriveBlock; split_ifs <;> rfl

theorem accelDriveBlock_imspace (v : Vehicle) :
    (accelDriveBlock v).inputMap.space = v.inputMap.space := by
  unfold accelDriveBlock; split_ifs <;> rfl

theorem accelDriveBlock_imshift (v : Vehicle) :
    (accelDriveBlock v).inputMap.shiftKey = v.inputMap.shiftKey := by
  unfold accelDriveBlock; split_ifs <;> rfl

theorem accelDriveBlock_im (v : Vehicle) :
    (accelDriveBlock v).inputMap = v.inputMap := by
  unfold accelDriveBlock; split_ifs <;> rfl

theorem accelDriveBlock_vup (v : Vehicle) :
    (accelDriveBlock v).up = v.up := by
  unfold accelDriveBlock; split_ifs <;> rfl

theorem accelDriveBlock_vright (v : Vehicle) :
    (accelDriveBlock v).right = v.right := by
  unfold accelDriveBlock; split_ifs <;> rfl

theorem accelDriveBlock_vfwd (v : Vehicle) :
    (accelDriveBlock v).forward = v.forward := by
  unfold accelDriveBlock; split_ifs <;> rfl

theorem accelDriveBlock_ljt (v : Vehicle) :
    (accelDriveBlock v).lastJumpTime = v.lastJumpTime := by
  unfold accelDriveBlock; split_ifs <;> rfl

theorem accelDriveBlock_lft (v : Vehicle) :
    (accelDriveBlock v).lastFlipTime = v.lastFlipTime := by
  unfold accelDriveBlock; split_ifs <;> rfl

theorem accelDriveBlock_latch (v : Vehicle) :
    (accelDriveBlock v).hasStoppedJumping = v.hasStoppedJumping := by
  unfold accelDriveBlock; split_ifs <;> rfl

theorem accelDriveBlock_used (v : Vehicle) :
    (accelDriveBlock v).hasUsedDoubleJump = v.hasUsedDoubleJump := by
  unfold accelDriveBlock; split_ifs <;> rfl

theorem accelDriveBlock_selfr (v : Vehicle) :
    (accelDriveBlock v).isSelfRighting = v.isSelfRighting := by
  unfold accelDriveBlock; split_ifs <;> rfl

theorem accelDriveBlock_isj (v : Vehicle) :
    (accelDriveBlock v).isJumping = v.isJumping := by
  unfold accelDriveBlock; split_ifs <;> rfl

theorem accelDriveBlock_numw (v : Vehicle) :
    (accelDriveBlock v).physicsVehicle.numWheelsOnGround = v.physicsVehicle.numWheelsOnGround := by
  unfold accelDriveBlock; split_ifs <;> rfl

theorem accelDriveBlock_bpos (v : Vehicle) :
    (accelDriveBlock v).physicsVehicle.chassisBody.position = v.physicsVehicle.chassisBody.position := by
  unfold accelDriveBlock; split_ifs <;> rfl

theorem accelDriveBlock_bvel (v : Vehicle) :
    (accelDriveBlock v).physicsVehicle.chassisBody.velocity = v.physicsVehicle.chassisBody.velocity := by
  unfold accelDriveBlock; split_ifs <;> rfl

theorem accelDriveBlock_bang (v : Vehicle) :
    (accelDriveBlock v).physicsVehicle.chassisBody.angularVelocity = v.physicsVehicle.chassisBody.angularVelocity := by
  unfold accelDriveBlock; split_ifs <;> rfl

theorem accelDriveBlock_bforce (v : Vehicle) :
    (accelDriveBlock v).physicsVehicle.chassisBody.force = v.physicsVehicle.chassisBody.force := by
  unfold accelDriveBlock; split_ifs <;> rfl

theorem accelDriveBlock_btorque (v : Vehicle) :
    (accelDriveBlock v).physicsVehicle.chassisBody.torque = v.physicsVehicle.chassisBody.torque := by
  unfold accelDriveBlock; split_ifs <;> rfl

theorem accelDriveBlock_st0 (v : Vehicle) :
    (accelDriveBlock v).physicsVehicle.wheel0.steering = v.physicsVehicle.wheel0.steering := by
  unfold accelDriveBlock; split_ifs <;> rfl

theorem accelDriveBlock_st1 (v : Vehicle) :
    (accelDriveBlock v).physicsVehicle.wheel1.steering = v.physicsVehicle.wheel1.steering := by
  unfold accelDriveBlock; split_ifs <;> rfl

theorem accelWKeyupBlock_ims (v : Vehicle) :
    (accelWKeyupBlock v).inputMap.s = v.inputMap.s := by
  unfold accelWKeyupBlock; split_ifs <;> rfl

theorem accelWKeyupBlock_ima (v : Vehicle) :
    (accelWKeyupBlock v).inputMap.a = v.inputMap.a := by
  unfold accelWKeyupBlock; split_ifs <;> rfl

theorem accelWKeyupBlock_imd (v : Vehicle) :
    (accelWKeyupBlock v).inputMap.d = v.inputMap.d := by
  unfold accelWKeyupBlock; split_ifs <;> rfl

theorem accelWKeyupBlock_imspace (v : Vehicle) :
    (accelWKeyupBlock v).inputMap.space = v.inputMap.space := by
  unfold accelWKeyupBlock; split_ifs <;> rfl

theorem accelWKeyupBlock_imshift (v : Vehicle) :
    (accelWKeyupBlock v).inputMap.shiftKey = v.inputMap.shiftKey := by
  unfold accelWKeyupBlock; split_ifs <;> rfl

theorem accelWKeyupBlock_vup (v : Vehicle) :
    (accelWKeyupBlock v).up = v.up := by
  unfold accelWKeyupBlock; split_ifs <;> rfl

theorem accelWKeyupBlock_vright (v : Vehicle) :
    (accelWKeyupBlock v).right = v.right := by
  unfold accelWKeyupBlock; split_ifs <;> rfl

theorem accelWKeyupBlock_vfwd (v : Vehicle) :
    (accelWKeyupBlock v).forward = v.forward := by
  unfold accelWKeyupBlock; split_ifs <;> rfl

theorem accelWKeyupBlock_ljt (v : Vehicle) :
    (accelWKeyupBlock v).lastJumpTime = v.lastJumpTime := by
  unfold accelWKeyupBlock; split_ifs <;> rfl

theorem accelWKeyupBlock_lft (v : Vehicle) :
    (accelWKeyupBlock v).lastFlipTime = v.lastFlipTime := by
  unfold accelWKeyupBlock; split_ifs <;> rfl

theorem accelWKeyupBlock_latch (v : Vehicle) :
    (accelWKeyupBlock v).hasStoppedJumping = v.hasStoppedJumping := by
  unfold accelWKeyupBlock; split_ifs <;> rfl

theorem accelWKeyupBlock_used (v : Vehicle) :
    (accelWKeyupBlock v).hasUsedDoubleJump = v.hasUsedDoubleJump := by
  unfold accelWKeyupBlock; split_ifs <;> rfl

theorem accelWKeyupBlock_selfr (v : Vehicle) :
    (accelWKeyupBlock v).isSelfRighting = v.isSelfRighting := by
  unfold accelWKeyupBlock; split_ifs <;> rfl

theorem accelWKeyupBlock_isj (v : Vehicle) :
    (accelWKeyupBlock v).isJumping = v.isJumping := by
  unfold accelWKeyupBlock; split_ifs <;> rfl

theorem accelWKeyupBlock_numw (v : Vehicle) :
    (accelWKeyupBlock v).physicsVehicle.numWheelsOnGround = v.physicsVehicle.numWheelsOnGround := by
  unfold accelWKeyupBlock; split_ifs <;> rfl

theorem accelWKeyupBlock_bpos (v : Vehicle) :
    (accelWKeyupBlock v).physicsVehicle.chassisBody.position = v.physicsVehicle.chassisBody.position := by
  unfold accelWKeyupBlock; split_ifs <;> rfl

theorem accelWKeyupBlock_bvel (v : Vehicle) :
    (accelWKeyupBlock v).physicsVehicle.chassisBody.velocity = v.physicsVehicle.chassisBody.velocity := by
  unfold accelWKeyupBlock; split_ifs <;> rfl

theorem accelWKeyupBlock_bang (v : Vehicle) :
    (accelWKeyupBlock v).physicsVehicle.chassisBody.angularVelocity = v.physicsVehicle.chassisBody.angularVelocity := by
  unfold accelWKeyupBlock; split_ifs <;> rfl

theorem accelWKeyupBlock_bforce (v : Vehicle) :
    (accelWKeyupBlock v).physicsVehicle.chassisBody.force = v.physicsVehicle.chassisBody.force := by
  unfold accelWKeyupBlock; split_ifs <;> rfl

theorem accelWKeyupBlock_btorque (v : Vehicle) :
    (accelWKeyupBlock v).physicsVehicle.chassisBody.torque = v.physicsVehicle.chassisBody.torque := by
  unfold accelWKeyupBlock; split_ifs <;> rfl

theorem accelWKeyupBlock_st0 (v : Vehicle) :
    (accelWKeyupBlock v).physicsVehicle.wheel0.steering = v.physicsVehicle.wheel0.steering := by
  unfold accelWKeyupBlock; split_ifs <;> rfl

theorem accelWKeyupBlock_st1 (v : Vehicle) :
    (accelWKeyupBlock v).physicsVehicle.wheel1.steering = v.physicsVehicle.wheel1.steering := by
  unfold accelWKeyupBlock; split_ifs <;> rfl

theorem accelSKeyupBlock_imw (v : Vehicle) :
    (accelSKeyupBlock v).inputMap.w = v.inputMap.w := by
  unfold accelSKeyupBlock; split_ifs <;> rfl

theorem accelSKeyupBlock_ima (v : Vehicle) :
    (accelSKeyupBlock v).inputMap.a = v.inputMap.a := by
  unfold accelSKeyupBlock; split_ifs <;> rfl

theorem accelSKeyupBlock_imd (v : Vehicle) :
    (accelSKeyupBlock v).inputMap.d = v.inputMap.d := by
  unfold accelSKeyupBlock; split_ifs <;> rfl

theorem accelSKeyupBlock_imspace (v : Vehicle) :
    (accelSKeyupBlock v).inputMap.space = v.inputMap.space := by
  unfold accelSKeyupBlock; split_ifs <;> rfl

theorem accelSKeyupBlock_imshift (v : Vehicle) :
    (accelSKeyupBlock v).inputMap.shiftKey = v.inputMap.shiftKey := by
  unfold accelSKeyupBlock; split_ifs <;> rfl

theorem accelSKeyupBlock_vup (v : Vehicle) :
    (accelSKeyupBlock v).up = v.up := by
  unfold accelSKeyupBlock; split_ifs <;> rfl

theorem accelSKeyupBlock_vright (v : Vehicle) :
    (accelSKeyupBlock v).right = v.right := by
  unfold accelSKeyupBlock; split_ifs <;> rfl

theorem accelSKeyupBlock_vfwd (v : Vehicle) :
    (accelSKeyupBlock v).forward = v.forward := by
  unfold accelSKeyupBlock; split_ifs <;> rfl

theorem accelSKeyupBlock_ljt (v : Vehicle) :
    (accelSKeyupBlock v).lastJumpTime = v.lastJumpTime := by
  unfold accelSKeyupBlock; split_ifs <;> rfl

theorem accelSKeyupBlock_lft (v : Vehicle) :
    (accelSKeyupBlock v).lastFlipTime = v.lastFlipTime := by
  unfold accelSKeyupBlock; split_ifs <;> rfl

theorem accelSKeyupBlock_latch (v : Vehicle) :
    (accelSKeyupBlock v).hasStoppedJumping = v.hasStoppedJumping := by
  unfold accelSKeyupBlock; split_ifs <;> rfl

theorem accelSKeyupBlock_used (v : Vehicle) :
    (accelSKeyupBlock v).hasUsedDoubleJump = v.hasUsedDoubleJump := by
  unfold accelSKeyupBlock; split_ifs <;> rfl

theorem accelSKeyupBlock_selfr (v : Vehicle) :
    (accelSKeyupBlock v).isSelfRighting = v.isSelfRighting := by
  unfold accelSKeyupBlock; split_ifs <;> rfl

theorem accelSKeyupBlock_isj (v : Vehicle) :
    (accelSKeyupBlock v).isJumping = v.isJumping := by
  unfold accelSKeyupBlock; split_ifs <;> rfl

theorem accelSKeyupBlock_numw (v : Vehicle) :
    (accelSKeyupBlock v).physicsVehicle.numWheelsOnGround = v.physicsVehicle.numWheelsOnGround := by
  unfold accelSKeyupBlock; split_ifs <;> rfl

theorem accelSKeyupBlock_bpos (v : Vehicle) :
    (accelSKeyupBlock v).physicsVehicle.chassisBody.position = v.physicsVehicle.chassisBody.position := by
  unfold accelSKeyupBlock; split_ifs <;> rfl

theorem accelSKeyupBlock_bvel (v : Vehicle) :
    (accelSKeyupBlock v).physicsVehicle.chassisBody.velocity = v.physicsVehicle.chassisBody.velocity := by
  unfold accelSKeyupBlock; split_ifs <;> rfl

theorem accelSKeyupBlock_bang (v : Vehicle) :
    (accelSKeyupBlock v).physicsVehicle.chassisBody.angularVelocity = v.physicsVehicle.chassisBody.angularVelocity := by
  unfold accelSKeyupBlock; split_ifs <;> rfl

theorem accelSKeyupBlock_bforce (v : Vehicle) :
    (accelSKeyupBlock v).physicsVehicle.chassisBody.force = v.physicsVehicle.chassisBody.force := by
  unfold accelSKeyupBlock; split_ifs <;> rfl

theorem accelSKeyupBlock_btorque (v : Vehicle) :
    (accelSKeyupBlock v).physicsVehicle.chassisBody.torque = v.physicsVehicle.chassisBody.torque := by
  unfold accelSKeyupBlock; split_ifs <;> rfl

theorem accelSKeyupBlock_st0 (v : Vehicle) :
    (accelSKeyupBlock v).physicsVehicle.wheel0.steering = v.physicsVehicle.wheel0.steering := by
  unfold accelSKeyupBlock; split_ifs <;> rfl

theorem accelSKeyupBlock_st1 (v : Vehicle) :
    (accelSKeyupBlock v).physicsVehicle.wheel1.steering = v.physicsVehicle.wheel1.steering := by
  unfold accelSKeyupBlock; split_ifs <;> rfl

theorem steerBlock_imw (v : Vehicle) :
    (steerBlock v).inputMap.w = v.inputMap.w := by
  unfold steerBlock; split_ifs <;> rfl

theorem steerBlock_ims (v : Vehicle) :
    (steerBlock v).inputMap.s = v.inputMap.s := by
  unfold steerBlock; split_ifs <;> rfl

theorem steerBlock_ima (v : Vehicle) :
    (steerBlock v).inputMap.a = v.inputMap.a := by
  unfold steerBlock; split_ifs <;> rfl

theorem steerBlock_imd (v : Vehicle) :
    (steerBlock v).inputMap.d = v.inputMap.d := by
  unfold steerBlock; split_ifs <;> rfl

theorem steerBlock_imspace (v : Vehicle) :
    (steerBlock v).inputMap.space = v.inputMap.space := by
  unfold steerBlock; split_ifs <;> rfl

theorem steerBlock_imshift (v : Vehicle) :
    (steerBlock v).inputMap.shiftKey = v.inputMap.shiftKey := by
  unfold steerBlock; split_ifs <;> rfl

theorem steerBlock_im (v : Vehicle) :
    (steerBlock v).inputMap = v.inputMap := by
  unfold steerBlock; split_ifs <;> rfl

theorem steerBlock_vup (v : Vehicle) :
    (steerBlock v).up = v.up := by
  unfold steerBlock; split_ifs <;> rfl

theorem steerBlock_vright (v : Vehicle) :
    (steerBlock v).right = v.right := by
  unfold steerBlock; split_ifs <;> rfl

theorem steerBlock_vfwd (v : Vehicle) :
    (steerBlock v).forward = v.forward := by
  unfold steerBlock; split_ifs <;> rfl

theorem steerBlock_ljt (v : Vehicle) :
    (steerBlock v).lastJumpTime = v.lastJumpTime := by
  unfold steerBlock; split_ifs <;> rfl

theorem steerBlock_lft (v : Vehicle) :
    (steerBlock v).lastFlipTime = v.lastFlipTime := by
  unfold steerBlock; split_ifs <;> rfl

theorem steerBlock_latch (v : Vehicle) :
    (steerBlock v).hasStoppedJumping = v.hasStoppedJumping := by
  unfold steerBlock; split_ifs <;> rfl

theorem steerBlock_used (v : Vehicle) :
    (steerBlock v).hasUsedDoubleJump = v.hasUsedDoubleJump := by
  unfold steerBlock; split_ifs <;> rfl

theorem steerBlock_selfr (v : Vehicle) :
    (steerBlock v).isSelfRighting = v.isSelfRighting := by
  unfold steerBlock; split_ifs <;> rfl

theorem steerBlock_isj (v : Vehicle) :
    (steerBlock v).isJumping = v.isJumping := by
  unfold steerBlock; split_ifs <;> rfl

theorem steerBlock_numw (v : Vehicle) :
    (steerBlock v).physicsVehicle.numWheelsOnGround = v.physicsVehicle.numWheelsOnGround := by
  unfold steerBlock; split_ifs <;> rfl

theorem steerBlock_bpos (v : Vehicle) :
    (steerBlock v).physicsVehicle.chassisBody.position = v.physicsVehicle.chassisBody.position := by
  unfold steerBlock; split_ifs <;> rfl

theorem steerBlock_bvel (v : Vehicle) :
    (steerBlock v).physicsVehicle.chassisBody.velocity = v.physicsVehicle.chassisBody.velocity := by
  unfold steerBlock; split_ifs <;> rfl

theorem steerBlock_bang (v : Vehicle) :
    (steerBlock v).physicsVehicle.chassisBody.angularVelocity = v.physicsVehicle.chassisBody.angularVelocity := by
  unfold steerBlock; split_ifs <;> rfl

theorem steerBlock_bforce (v : Vehicle) :
    (steerBlock v).physicsVehicle.chassisBody.force = v.physicsVehicle.chassisBody.force := by
  unfold steerBlock; split_ifs <;> rfl

theorem steerBlock_btorque (v : Vehicle) :
    (steerBlock v).physicsVehicle.chassisBody.torque = v.physicsVehicle.chassisBody.torque := by
  unfold steerBlock; split_ifs <;> rfl

theorem steerBlock_e0 (v : Vehicle) :
    (steerBlock v).physicsVehicle.wheel0.engineForce = v.physicsVehicle.wheel0.engineForce := by
  unfold steerBlock; split_ifs <;> rfl

theorem steerBlock_e1 (v : Vehicle) :
    (steerBlock v).physicsVehicle.wheel1.engineForce = v.physicsVehicle.wheel1.engineForce := by
  unfold steerBlock; split_ifs <;> rfl

theorem steerBlock_e2 (v : Vehicle) :
    (steerBlock v).physicsVehicle.wheel2.engineForce = v.physicsVehicle.wheel2.engineForce := by
  unfold steerBlock; split_ifs <;> rfl

theorem steerBlock_e3 (v : Vehicle) :
    (steerBlock v).physicsVehicle.wheel3.engineForce = v.physicsVehicle.wheel3.engineForce := by
  unfold steerBlock; split_ifs <;> rfl

theorem steerBlock_wl2 (v : Vehicle) :
    (steerBlock v).physicsVehicle.wheel2 = v.physicsVehicle.wheel2 := by
  unfold steerBlock; split_ifs <;> rfl

theorem steerBlock_wl3 (v : Vehicle) :
    (steerBlock v).physicsVehicle.wheel3 = v.physicsVehicle.wheel3 := by
  unfold steerBlock; split_ifs <;> rfl

theorem steerAKeyupBlock_imw (v : Vehicle) :
    (steerAKeyupBlock v).inputMap.w = v.inputMap.w := by
  unfold steerAKeyupBlock; split_ifs <;> rfl

theorem steerAKeyupBlock_ims (v : Vehicle) :
    (steerAKeyupBlock v).inputMap.s = v.inputMap.s := by
  unfold steerAKeyupBlock; split_ifs <;> rfl

theorem steerAKeyupBlock_imd (v : Vehicle) :
    (steerAKeyupBlock v).inputMap.d = v.inputMap.d := by
  unfold steerAKeyupBlock; split_ifs <;> rfl

theorem steerAKeyupBlock_imspace (v : Vehicle) :
    (steerAKeyupBlock v).inputMap.space = v.inputMap.space := by
  unfold steerAKeyupBlock; split_ifs <;> rfl

theorem steerAKeyupBlock_imshift (v : Vehicle) :
    (steerAKeyupBlock v).inputMap.shiftKey = v.inputMap.shiftKey := by
  unfold steerAKeyupBlock; split_ifs <;> rfl

theorem steerAKeyupBlock_vup (v : Vehicle) :
    (steerAKeyupBlock v).up = v.up := by
  unfold steerAKeyupBlock; split_ifs <;> rfl

theorem steerAKeyupBlock_vright (v : Vehicle) :
    (steerAKeyupBlock v).right = v.right := by
  unfold steerAKeyupBlock; split_ifs <;> rfl

theorem steerAKeyupBlock_vfwd (v : Vehicle) :
    (steerAKeyupBlock v).forward = v.forward := by
  unfold steerAKeyupBlock; split_ifs <;> rfl

theorem steerAKeyupBlock_ljt (v : Vehicle) :
    (steerAKeyupBlock v).lastJumpTime = v.lastJumpTime := by
  unfold steerAKeyupBlock; split_ifs <;> rfl

theorem steerAKeyupBlock_lft (v : Vehicle) :
    (steerAKeyupBlock v).lastFlipTime = v.lastFlipTime := by
  unfold steerAKeyupBlock; split_ifs <;> rfl

theorem steerAKeyupBlock_latch (v : Vehicle) :
    (steerAKeyupBlock v).hasStoppedJumping = v.hasStoppedJumping := by
  unfold steerAKeyupBlock; split_ifs <;> rfl

theorem steerAKeyupBlock_used (v : Vehicle) :
    (steerAKeyupBlock v).hasUsedDoubleJump = v.hasUsedDoubleJump := by
  unfold steerAKeyupBlock; split_ifs <;> rfl

theorem steerAKeyupBlock_selfr (v : Vehicle) :
    (steerAKeyupBlock v).isSelfRighting = v.isSelfRighting := by
  unfold steerAKeyupBlock; split_ifs <;> rfl

theorem steerAKeyupBlock_isj (v : Vehicle) :
    (steerAKeyupBlock v).isJumping = v.isJumping := by
  unfold steerAKeyupBlock; split_ifs <;> rfl

theorem steerAKeyupBlock_numw (v : Vehicle) :
    (steerAKeyupBlock v).physicsVehicle.numWheelsOnGround = v.physicsVehicle.numWheelsOnGround := by
  unfold steerAKeyupBlock; split_ifs <;> rfl

theorem steerAKeyupBlock_bpos (v : Vehicle) :
    (steerAKeyupBlock v).physicsVehicle.chassisBody.position = v.physicsVehicle.chassisBody.position := by
  unfold steerAKeyupBlock; split_ifs <;> rfl

theorem steerAKeyupBlock_bvel (v : Vehicle) :
    (steerAKeyupBlock v).physicsVehicle.chassisBody.velocity = v.physicsVehicle.chassisBody.velocity := by
  unfold steerAKeyupBlock; split_ifs <;> rfl

theorem steerAKeyupBlock_bang (v : Vehicle) :
    (steerAKeyupBlock v).physicsVehicle.chassisBody.angularVelocity = v.physicsVehicle.chassisBody.angularVelocity := by
  unfold steerAKeyupBlock; split_ifs <;> rfl

theorem steerAKeyupBlock_bforce (v : Vehicle) :
    (steerAKeyupBlock v).physicsVehicle.chassisBody.force = v.physicsVehicle.chassisBody.force := by
  unfold steerAKeyupBlock; split_ifs <;> rfl

theorem steerAKeyupBlock_btorque (v : Vehicle) :
    (steerAKeyupBlock v).physicsVehicle.chassisBody.torque = v.physicsVehicle.chassisBody.torque := by
  unfold steerAKeyupBlock; split_ifs <;> rfl

theorem steerAKeyupBlock_e0 (v : Vehicle) :
    (steerAKeyupBlock v).physicsVehicle.wheel0.engineForce = v.physicsVehicle.wheel0.engineForce := by
  unfold steerAKeyupBlock; split_ifs <;> rfl

theorem steerAKeyupBlock_e1 (v : Vehicle) :
    (steerAKeyupBlock v).physicsVehicle.wheel1.engineForce = v.physicsVehicle.wheel1.engineForce := by
  unfold steerAKeyupBlock; split_ifs <;> rfl

theorem steerAKeyupBlock_e2 (v : Vehicle) :
    (steerAKeyupBlock v).physicsVehicle.wheel2.engineForce = v.physicsVehicle.wheel2.engineForce := by
  unfold steerAKeyupBlock; split_ifs <;> rfl

theorem steerAKeyupBlock_e3 (v : Vehicle) :
    (steerAKeyupBlock v).physicsVehicle.wheel3.engineForce = v.physicsVehicle.wheel3.engineForce := by
  unfold steerAKeyupBlock; split_ifs <;> rfl

theorem steerAKeyupBlock_wl2 (v : Vehicle) :
    (steerAKeyupBlock v).physicsVehicle.wheel2 = v.physicsVehicle.wheel2 := by
  unfold steerAKeyupBlock; split_ifs <;> rfl

theorem steerAKeyupBlock_wl3 (v : Vehicle) :
    (steerAKeyupBlock v).physicsVehicle.wheel3 = v.physicsVehicle.wheel3 := by
  unfold steerAKeyupBlock; split_ifs <;> rfl

theorem steerDKeyupBlock_imw (v : Vehicle) :
    (steerDKeyupBlock v).inputMap.w = v.inputMap.w := by
  unfold steerDKeyupBlock; split_ifs <;> rfl

theorem steerDKeyupBlock_ims (v : Vehicle) :
    (steerDKeyupBlock v).inputMap.s = v.inputMap.s := by
  unfold steerDKeyupBlock; split_ifs <;> rfl

theorem steerDKeyupBlock_ima (v : Vehicle) :
    (steerDKeyupBlock v).inputMap.a = v.inputMap.a := by
  unfold steerDKeyupBlock; split_ifs <;> rfl

theorem steerDKeyupBlock_imspace (v : Vehicle) :
    (steerDKeyupBlock v).inputMap.space = v.inputMap.space := by
  unfold steerDKeyupBlock; split_ifs <;> rfl

theorem steerDKeyupBlock_imshift (v : Vehicle) :
    (steerDKeyupBlock v).inputMap.shiftKey = v.inputMap.shiftKey := by
  unfold steerDKeyupBlock; split_ifs <;> rfl

theorem steerDKeyupBlock_vup (v : Vehicle) :
    (steerDKeyupBlock v).up = v.up := by
  unfold steerDKeyupBlock; split_ifs <;> rfl

theorem steerDKeyupBlock_vright (v : Vehicle) :
    (steerDKeyupBlock v).right = v.right := by
  unfold steerDKeyupBlock; split_ifs <;> rfl

theorem steerDKeyupBlock_vfwd (v : Vehicle) :
    (steerDKeyupBlock v).forward = v.forward := by
  unfold steerDKeyupBlock; split_ifs <;> rfl

theorem steerDKeyupBlock_ljt (v : Vehicle) :
    (steerDKeyupBlock v).lastJumpTime = v.lastJumpTime := by
  unfold steerDKeyupBlock; split_ifs <;> rfl

theorem steerDKeyupBlock_lft (v : Vehicle) :
    (steerDKeyupBlock v).lastFlipTime = v.lastFlipTime := by
  unfold steerDKeyupBlock; split_ifs <;> rfl

theorem steerDKeyupBlock_latch (v : Vehicle) :
    (steerDKeyupBlock v).hasStoppedJumping = v.hasStoppedJumping := by
  unfold steerDKeyupBlock; split_ifs <;> rfl

theorem steerDKeyupBlock_used (v : Vehicle) :
    (steerDKeyupBlock v).hasUsedDoubleJump = v.hasUsedDoubleJump := by
  unfold steerDKeyupBlock; split_ifs <;> rfl

theorem steerDKeyupBlock_selfr (v : Vehicle) :
    (steerDKeyupBlock v).isSelfRighting = v.isSelfRighting := by
  unfold steerDKeyupBlock; split_ifs <;> rfl

theorem steerDKeyupBlock_isj (v : Vehicle) :
    (steerDKeyupBlock v).isJumping = v.isJumping := by
  unfold steerDKeyupBlock; split_ifs <;> rfl

theorem steerDKeyupBlock_numw (v : Vehicle) :
    (steerDKeyupBlock v).physicsVehicle.numWheelsOnGround = v.physicsVehicle.numWheelsOnGround := by
  unfold steerDKeyupBlock; split_ifs <;> rfl

theorem steerDKeyupBlock_bpos (v : Vehicle) :
    (steerDKeyupBlock v).physicsVehicle.chassisBody.position = v.physicsVehicle.chassisBody.position := by
  unfold steerDKeyupBlock; split_ifs <;> rfl

theorem steerDKeyupBlock_bvel (v : Vehicle) :
    (steerDKeyupBlock v).physicsVehicle.chassisBody.velocity = v.physicsVehicle.chassisBody.velocity := by
  unfold steerDKeyupBlock; split_ifs <;> rfl

theorem steerDKeyupBlock_bang (v : Vehicle) :
    (steerDKeyupBlock v).physicsVehicle.chassisBody.angularVelocity = v.physicsVehicle.chassisBody.angularVelocity := by
  unfold steerDKeyupBlock; split_ifs <;> rfl

theorem steerDKeyupBlock_bforce (v : Vehicle) :
    (steerDKeyupBlock v).physicsVehicle.chassisBody.force = v.physicsVehicle.chassisBody.force := by
  unfold steerDKeyupBlock; split_ifs <;> rfl

theorem steerDKeyupBlock_btorque (v : Vehicle) :
    (steerDKeyupBlock v).physicsVehicle.chassisBody.torque = v.physicsVehicle.chassisBody.torque := by
  unfold steerDKeyupBlock; split_ifs <;> rfl

theorem steerDKeyupBlock_e0 (v : Vehicle) :
    (steerDKeyupBlock v).physicsVehicle.wheel0.engineForce = v.physicsVehicle.wheel0.engineForce := by
  unfold steerDKeyupBlock; split_ifs <;> rfl

theorem steerDKeyupBlock_e1 (v : Vehicle) :
    (steerDKeyupBlock v).physicsVehicle.wheel1.engineForce = v.physicsVehicle.wheel1.engineForce := by
  unfold steerDKeyupBlock; split_ifs <;> rfl

theorem steerDKeyupBlock_e2 (v : Vehicle) :
    (steerDKeyupBlock v).physicsVehicle.wheel2.engineForce = v.physicsVehicle.wheel2.engineForce := by
  unfold steerDKeyupBlock; split_ifs <;> rfl

theorem steerDKeyupBlock_e3 (v : Vehicle) :
    (steerDKeyupBlock v).physicsVehicle.wheel3.engineForce = v.physicsVehicle.wheel3.engineForce := by
  unfold steerDKeyupBlock; split_ifs <;> rfl

theorem steerDKeyupBlock_wl2 (v : Vehicle) :
    (steerDKeyupBlock v).physicsVehicle.wheel2 = v.physicsVehicle.wheel2 := by
  unfold steerDKeyupBlock; split_ifs <;> rfl

theorem steerDKeyupBlock_wl3 (v : Vehicle) :
    (steerDKeyupBlock v).physicsVehicle.wheel3 = v.physicsVehicle.wheel3 := by
  unfold steerDKeyupBlock; split_ifs <;> rfl

theorem brakeOnBlock_imw (v : Vehicle) :
    (brakeOnBlock v).inputMap.w = v.inputMap.w := by
  unfold brakeOnBlock; split_ifs <;> rfl

theorem brakeOnBlock_ims (v : Vehicle) :
    (brakeOnBlock v).inputMap.s = v.inputMap.s := by
  unfold brakeOnBlock; split_ifs <;> rfl

theorem brakeOnBlock_ima (v : Vehicle) :
    (brakeOnBlock v).inputMap.a = v.inputMap.a := by
  unfold brakeOnBlock; split_ifs <;> rfl

theorem brakeOnBlock_imd (v : Vehicle) :
    (brakeOnBlock v).inputMap.d = v.inputMap.d := by
  unfold brakeOnBlock; split_ifs <;> rfl

theorem brakeOnBlock_imspace (v : Vehicle) :
    (brakeOnBlock v).inputMap.space = v.inputMap.space := by
  unfold brakeOnBlock; split_ifs <;> rfl

theorem brakeOnBlock_imshift (v : Vehicle) :
    (brakeOnBlock v).inputMap.shiftKey = v.inputMap.shiftKey := by
  unfold brakeOnBlock; split_ifs <;> rfl

theorem brakeOnBlock_im (v : Vehicle) :
    (brakeOnBlock v).inputMap = v.inputMap := by
  unfold brakeOnBlock; split_ifs <;> rfl

theorem brakeOnBlock_vup (v : Vehicle) :
    (brakeOnBlock v).up = v.up := by
  unfold brakeOnBlock; split_ifs <;> rfl

theorem brakeOnBlock_vright (v : Vehicle) :
    (brakeOnBlock v).right = v.right := by
  unfold brakeOnBlock; split_ifs <;> rfl

theorem brakeOnBlock_vfwd (v : Vehicle) :
    (brakeOnBlock v).forward = v.forward := by
  unfold brakeOnBlock; split_ifs <;> rfl

theorem brakeOnBlock_ljt (v : Vehicle) :
    (brakeOnBlock v).lastJumpTime = v.lastJumpTime := by
  unfold brakeOnBlock; split_ifs <;> rfl

theorem brakeOnBlock_lft (v : Vehicle) :
    (brakeOnBlock v).lastFlipTime = v.lastFlipTime := by
  unfold brakeOnBlock; split_ifs <;> rfl

theorem brakeOnBlock_latch (v : Vehicle) :
    (brakeOnBlock v).hasStoppedJumping = v.hasStoppedJumping := by
  unfold brakeOnBlock; split_ifs <;> rfl

theorem brakeOnBlock_used (v : Vehicle) :
    (brakeOnBlock v).hasUsedDoubleJump = v.hasUsedDoubleJump := by
  unfold brakeOnBlock; split_ifs <;> rfl

theorem brakeOnBlock_selfr (v : Vehicle) :
    (brakeOnBlock v).isSelfRighting = v.isSelfRighting := by
  unfold brakeOnBlock; split_ifs <;> rfl

theorem brakeOnBlock_isj (v : Vehicle) :
    (brakeOnBlock v).isJumping = v.isJumping := by
  unfold brakeOnBlock; split_ifs <;> rfl

theorem brakeOnBlock_numw (v : Vehicle) :
    (brakeOnBlock v).physicsVehicle.numWheelsOnGround = v.physicsVehicle.numWheelsOnGround := by
  unfold brakeOnBlock; split_ifs <;> rfl

theorem brakeOnBlock_bpos (v : Vehicle) :
    (brakeOnBlock v).physicsVehicle.chassisBody.position = v.physicsVehicle.chassisBody.position := by
  unfold brakeOnBlock; split_ifs <;> rfl

theorem brakeOnBlock_bvel (v : Vehicle) :
    (brakeOnBlock v).physicsVehicle.chassisBody.velocity = v.physicsVehicle.chassisBody.velocity := by
  unfold brakeOnBlock; split_ifs <;> rfl

theorem brakeOnBlock_bang (v : Vehicle) :
    (brakeOnBlock v).physicsVehicle.chassisBody.angularVelocity = v.physicsVehicle.chassisBody.angularVelocity := by
  unfold brakeOnBlock; split_ifs <;> rfl

theorem brakeOnBlock_bforce (v : Vehicle) :
    (brakeOnBlock v).physicsVehicle.chassisBody.force = v.physicsVehicle.chassisBody.force := by
  unfold brakeOnBlock; split_ifs <;> rfl

theorem brakeOnBlock_btorque (v : Vehicle) :
    (brakeOnBlock v).physicsVehicle.chassisBody.torque = v.physicsVehicle.chassisBody.torque := by
  unfold brakeOnBlock; split_ifs <;> rfl

theorem brakeOnBlock_e0 (v : Vehicle) :
    (brakeOnBlock v).physicsVehicle.wheel0.engineForce = v.physicsVehicle.wheel0.engineForce := by
  unfold brakeOnBlock; split_ifs <;> rfl

theorem brakeOnBlock_e1 (v : Vehicle) :
    (brakeOnBlock v).physicsVehicle.wheel1.engineForce = v.physicsVehicle.wheel1.engineForce := by
  unfold brakeOnBlock; split_ifs <;> rfl

theorem brakeOnBlock_e2 (v : Vehicle) :
    (brakeOnBlock v).physicsVehicle.wheel2.engineForce = v.physicsVehicle.wheel2.engineForce := by
  unfold brakeOnBlock; split_ifs <;> rfl

theorem brakeOnBlock_e3 (v : Vehicle) :
    (brakeOnBlock v).physicsVehicle.wheel3.engineForce = v.physicsVehicle.wheel3.engineForce := by
  unfold brakeOnBlock; split_ifs <;> rfl

theorem brakeOnBlock_st0 (v : Vehicle) :
    (brakeOnBlock v).physicsVehicle.wheel0.steering = v.physicsVehicle.wheel0.steering := by
  unfold brakeOnBlock; split_ifs <;> rfl

theorem brakeOnBlock_st1 (v : Vehicle) :
    (brakeOnBlock v).physicsVehicle.wheel1.steering = v.physicsVehicle.wheel1.steering := by
  unfold brakeOnBlock; split_ifs <;> rfl

theorem brakeOffBlock_imw (v : Vehicle) :
    (brakeOffBlock v).inputMap.w = v.inputMap.w := by
  unfold brakeOffBlock; split_ifs <;> rfl

theorem brakeOffBlock_ims (v : Vehicle) :
    (brakeOffBlock v).inputMap.s = v.inputMap.s := by
  unfold brakeOffBlock; split_ifs <;> rfl

theorem brakeOffBlock_ima (v : Vehicle) :
    (brakeOffBlock v).inputMap.a = v.inputMap.a := by
  unfold brakeOffBlock; split_ifs <;> rfl

theorem brakeOffBlock_imd (v : Vehicle) :
    (brakeOffBlock v).inputMap.d = v.inputMap.d := by
  unfold brakeOffBlock; split_ifs <;> rfl

theorem brakeOffBlock_imspace (v : Vehicle) :
    (brakeOffBlock v).inputMap.space = v.inputMap.space := by
  unfold brakeOffBlock; split_ifs <;> rfl

theorem brakeOffBlock_imshift (v : Vehicle) :
    (brakeOffBlock v).inputMap.shiftKey = v.inputMap.shiftKey := by
  unfold brakeOffBlock; split_ifs <;> rfl

theorem brakeOffBlock_im (v : Vehicle) :
    (brakeOffBlock v).inputMap = v.inputMap := by
  unfold brakeOffBlock; split_ifs <;> rfl

theorem brakeOffBlock_vup (v : Vehicle) :
    (brakeOffBlock v).up = v.up := by
  unfold brakeOffBlock; split_ifs <;> rfl

theorem brakeOffBlock_vright (v : Vehicle) :
    (brakeOffBlock v).right = v.right := by
  unfold brakeOffBlock; split_ifs <;> rfl

theorem brakeOffBlock_vfwd (v : Vehicle) :
    (brakeOffBlock v).forward = v.forward := by
  unfold brakeOffBlock; split_ifs <;> rfl

theorem brakeOffBlock_ljt (v : Vehicle) :
    (brakeOffBlock v).lastJumpTime = v.lastJumpTime := by
  unfold brakeOffBlock; split_ifs <;> rfl

theorem brakeOffBlock_lft (v : Vehicle) :
    (brakeOffBlock v).lastFlipTime = v.lastFlipTime := by
  unfold brakeOffBlock; split_ifs <;> rfl

theorem brakeOffBlock_latch (v : Vehicle) :
    (brakeOffBlock v).hasStoppedJumping = v.hasStoppedJumping := by
  unfold brakeOffBlock; split_ifs <;> rfl

theorem brakeOffBlock_used (v : Vehicle) :
    (brakeOffBlock v).hasUsedDoubleJump = v.hasUsedDoubleJump := by
  unfold brakeOffBlock; split_ifs <;> rfl

theorem brakeOffBlock_selfr (v : Vehicle) :
    (brakeOffBlock v).isSelfRighting = v.isSelfRighting := by
  unfold brakeOffBlock; split_ifs <;> rfl

theorem brakeOffBlock_isj (v : Vehicle) :
    (brakeOffBlock v).isJumping = v.isJumping := by
  unfold brakeOffBlock; split_ifs <;> rfl

theorem brakeOffBlock_numw (v : Vehicle) :
    (brakeOffBlock v).physicsVehicle.numWheelsOnGround = v.physicsVehicle.numWheelsOnGround := by
  unfold brakeOffBlock; split_ifs <;> rfl

theorem brakeOffBlock_bpos (v : Vehicle) :
    (brakeOffBlock v).physicsVehicle.chassisBody.position = v.physicsVehicle.chassisBody.position := by
  unfold brakeOffBlock; split_ifs <;> rfl

theorem brakeOffBlock_bvel (v : Vehicle) :
    (brakeOffBlock v).physicsVehicle.chassisBody.velocity = v.physicsVehicle.chassisBody.velocity := by
  unfold brakeOffBlock; split_ifs <;> rfl

theorem brakeOffBlock_bang (v : Vehicle) :
    (brakeOffBlock v).physicsVehicle.chassisBody.angularVelocity = v.physicsVehicle.chassisBody.angularVelocity := by
  unfold brakeOffBlock; split_ifs <;> rfl

theorem brakeOffBlock_bforce (v : Vehicle) :
    (brakeOffBlock v).physicsVehicle.chassisBody.force = v.physicsVehicle.chassisBody.force := by
  unfold brakeOffBlock; split_ifs <;> rfl

theorem brakeOffBlock_btorque (v : Vehicle) :
    (brakeOffBlock v).physicsVehicle.chassisBody.torque = v.physicsVehicle.chassisBody.torque := by
  unfold brakeOffBlock; split_ifs <;> rfl

theorem brakeOffBlock_e0 (v : Vehicle) :
    (brakeOffBlock v).physicsVehicle.wheel0.engineForce = v.physicsVehicle.wheel0.engineForce := by
  unfold brakeOffBlock; split_ifs <;> rfl

theorem brakeOffBlock_e1 (v : Vehicle) :
    (brakeOffBlock v).physicsVehicle.wheel1.engineForce = v.physicsVehicle.wheel1.engineForce := by
  unfold brakeOffBlock; split_ifs <;> rfl

theorem brakeOffBlock_e2 (v : Vehicle) :
    (brakeOffBlock v).physicsVehicle.wheel2.engineForce = v.physicsVehicle.wheel2.engineForce := by
  unfold brakeOffBlock; split_ifs <;> rfl

theorem brakeOffBlock_e3 (v : Vehicle) :
    (brakeOffBlock v).physicsVehicle.wheel3.engineForce = v.physicsVehicle.wheel3.engineForce := by
  unfold brakeOffBlock; split_ifs <;> rfl

theorem brakeOffBlock_st0 (v : Vehicle) :
    (brakeOffBlock v).physicsVehicle.wheel0.steering = v.physicsVehicle.wheel0.steering := by
  unfold brakeOffBlock; split_ifs <;> rfl

theorem brakeOffBlock_st1 (v : Vehicle) :
    (brakeOffBlock v).physicsVehicle.wheel1.steering = v.physicsVehicle.wheel1.steering := by
  unfold brakeOffBlock; split_ifs <;> rfl

theorem groundRearmBlock_imw (v : Vehicle) (g : Bool) :
    (groundRearmBlock v g).inputMap.w = v.inputMap.w := by
  unfold groundRearmBlock; split_ifs <;> rfl

theorem groundRearmBlock_ims (v : Vehicle) (g : Bool) :
    (groundRearmBlock v g).inputMap.s = v.inputMap.s := by
  unfold groundRearmBlock; split_ifs <;> rfl

theorem groundRearmBlock_ima (v : Vehicle) (g : Bool) :
    (groundRearmBlock v g).inputMap.a = v.inputMap.a := by
  unfold groundRearmBlock; split_ifs <;> rfl

theorem groundRearmBlock_imd (v : Vehicle) (g : Bool) :
    (groundRearmBlock v g).inputMap.d = v.inputMap.d := by
  unfold groundRearmBlock; split_ifs <;> rfl

theorem groundRearmBlock_imspace (v : Vehicle) (g : Bool) :
    (groundRearmBlock v g).inputMap.space = v.inputMap.space := by
  unfold groundRearmBlock; split_ifs <;> rfl

theorem groundRearmBlock_imshift (v : Vehicle) (g : Bool) :
    (groundRearmBlock v g).inputMap.shiftKey = v.inputMap.shiftKey := by
  unfold groundRearmBlock; split_ifs <;> rfl

theorem groundRearmBlock_im (v : Vehicle) (g : Bool) :
    (groundRearmBlock v g).inputMap = v.inputMap := by
  unfold groundRearmBlock; split_ifs <;> rfl

theorem groundRearmBlock_vup (v : Vehicle) (g : Bool) :
    (groundRearmBlock v g).up = v.up := by
  unfold groundRearmBlock; split_ifs <;> rfl

theorem groundRearmBlock_vright (v : Vehicle) (g : Bool) :
    (groundRearmBlock v g).right = v.right := by
  unfold groundRearmBlock; split_ifs <;> rfl

theorem groundRearmBlock_vfwd (v : Vehicle) (g : Bool) :
    (groundRearmBlock v g).forward = v.forward := by
  unfold groundRearmBlock; split_ifs <;> rfl

theorem groundRearmBlock_ljt (v : Vehicle) (g : Bool) :
    (groundRearmBlock v g).lastJumpTime = v.lastJumpTime := by
  unfold groundRearmBlock; split_ifs <;> rfl

theorem groundRearmBlock_lft (v : Vehicle) (g : Bool) :
    (groundRearmBlock v g).lastFlipTime = v.lastFlipTime := by
  unfold groundRearmBlock; split_ifs <;> rfl

theorem groundRearmBlock_latch (v : Vehicle) (g : Bool) :
    (groundRearmBlock v g).hasStoppedJumping = v.hasStoppedJumping := by
  unfold groundRearmBlock; split_ifs <;> rfl

theorem groundRearmBlock_selfr (v : Vehicle) (g : Bool) :
    (groundRearmBlock v g).isSelfRighting = v.isSelfRighting := by
  unfold groundRearmBlock; split_ifs <;> rfl

theorem groundRearmBlock_isj (v : Vehicle) (g : Bool) :
    (groundRearmBlock v g).isJumping = v.isJumping := by
  unfold groundRearmBlock; split_ifs <;> rfl

theorem groundRearmBlock_numw (v : Vehicle) (g : Bool) :
    (groundRearmBlock v g).physicsVehicle.numWheelsOnGround = v.physicsVehicle.numWheelsOnGround := by
  unfold groundRearmBlock; split_ifs <;> rfl

theorem groundRearmBlock_bpos (v : Vehicle) (g : Bool) :
    (groundRearmBlock v g).physicsVehicle.chassisBody.position = v.physicsVehicle.chassisBody.position := by
  unfold groundRearmBlock; split_ifs <;> rfl

theorem groundRearmBlock_bvel (v : Vehicle) (g : Bool) :
    (groundRearmBlock v g).physicsVehicle.chassisBody.velocity = v.physicsVehicle.chassisBody.velocity := by
  unfold groundRearmBlock; split_ifs <;> rfl

theorem groundRearmBlock_bang (v : Vehicle) (g : Bool) :
    (groundRearmBlock v g).physicsVehicle.chassisBody.angularVelocity = v.physicsVehicle.chassisBody.angularVelocity := by
  unfold groundRearmBlock; split_ifs <;> rfl

theorem groundRearmBlock_bforce (v : Vehicle) (g : Bool) :
    (groundRearmBlock v g).physicsVehicle.chassisBody.force = v.physicsVehicle.chassisBody.force := by
  unfold groundRearmBlock; split_ifs <;> rfl

theorem groundRearmBlock_btorque (v : Vehicle) (g : Bool) :
    (groundRearmBlock v g).physicsVehicle.chassisBody.torque = v.physicsVehicle.chassisBody.torque := by
  unfold groundRearmBlock; split_ifs <;> rfl

theorem groundRearmBlock_e0 (v : Vehicle) (g : Bool) :
    (groundRearmBlock v g).physicsVehicle.wheel0.engineForce = v.physicsVehicle.wheel0.engineForce := by
  unfold groundRearmBlock; split_ifs <;> rfl

theorem groundRearmBlock_e1 (v : Vehicle) (g : Bool) :
    (groundRearmBlock v g).physicsVehicle.wheel1.engineForce = v.physicsVehicle.wheel1.engineForce := by
  unfold groundRearmBlock; split_ifs <;> rfl

theorem groundRearmBlock_e2 (v : Vehicle) (g : Bool) :
    (groundRearmBlock v g).physicsVehicle.wheel2.engineForce = v.physicsVehicle.wheel2.engineForce := by
  unfold groundRearmBlock; split_ifs <;> rfl

theorem groundRearmBlock_e3 (v : Vehicle) (g : Bool) :
    (groundRearmBlock v g).physicsVehicle.wheel3.engineForce = v.physicsVehicle.wheel3.engineForce := by
  unfold groundRearmBlock; split_ifs <;> rfl

theorem groundRearmBlock_st0 (v : Vehicle) (g : Bool) :
    (groundRearmBlock v g).physicsVehicle.wheel0.steering = v.physicsVehicle.wheel0.steering := by
  unfold groundRearmBlock; split_ifs <;> rfl

theorem groundRearmBlock_st1 (v : Vehicle) (g : Bool) :
    (groundRearmBlock v g).physicsVehicle.wheel1.steering = v.physicsVehicle.wheel1.steering := by
  unfold groundRearmBlock; split_ifs <;> rfl

theorem groundRearmBlock_wl0 (v : Vehicle) (g : Bool) :
    (groundRearmBlock v g).physicsVehicle.wheel0 = v.physicsVehicle.wheel0 := by
  unfold groundRearmBlock; split_ifs <;> rfl

theorem groundRearmBlock_wl1 (v : Vehicle) (g : Bool) :
    (groundRearmBlock v g).physicsVehicle.wheel1 = v.physicsVehicle.wheel1 := by
  unfold groundRearmBlock; split_ifs <;> rfl

theorem groundRearmBlock_wl2 (v : Vehicle) (g : Bool) :
    (groundRearmBlock v g).physicsVehicle.wheel2 = v.physicsVehicle.wheel2 := by
  unfold groundRearmBlock; split_ifs <;> rfl

theorem groundRearmBlock_wl3 (v : Vehicle) (g : Bool) :
    (groundRearmBlock v g).physicsVehicle.wheel3 = v.physicsVehicle.wheel3 := by
  unfold groundRearmBlock; split_ifs <;> rfl

theorem spaceKeyupBlock_imw (v : Vehicle) :
    (spaceKeyupBlock v).inputMap.w = v.inputMap.w := by
  unfold spaceKeyupBlock; split_ifs <;> rfl

theorem spaceKeyupBlock_ims (v : Vehicle) :
    (spaceKeyupBlock v).inputMap.s = v.inputMap.s := by
  unfold spaceKeyupBlock; split_ifs <;> rfl

theorem spaceKeyupBlock_ima (v : Vehicle) :
    (spaceKeyupBlock v).inputMap.a = v.inputMap.a := by
  unfold spaceKeyupBlock; split_ifs <;> rfl

theorem spaceKeyupBlock_imd (v : Vehicle) :
    (spaceKeyupBlock v).inputMap.d = v.inputMap.d := by
  unfold spaceKeyupBlock; split_ifs <;> rfl

theorem spaceKeyupBlock_imspace (v : Vehicle) :
    (spaceKeyupBlock v).inputMap.space = v.inputMap.space := by
  unfold spaceKeyupBlock; split_ifs <;> rfl

theorem spaceKeyupBlock_imshift (v : Vehicle) :
    (spaceKeyupBlock v).inputMap.shiftKey = v.inputMap.shiftKey := by
  unfold spaceKeyupBlock; split_ifs <;> rfl

theorem spaceKeyupBlock_im (v : Vehicle) :
    (spaceKeyupBlock v).inputMap = v.inputMap := by
  unfold spaceKeyupBlock; split_ifs <;> rfl

theorem spaceKeyupBlock_vup (v : Vehicle) :
    (spaceKeyupBlock v).up = v.up := by
  unfold spaceKeyupBlock; split_ifs <;> rfl

theorem spaceKeyupBlock_vright (v : Vehicle) :
    (spaceKeyupBlock v).right = v.right := by
  unfold spaceKeyupBlock; split_ifs <;> rfl

theorem spaceKeyupBlock_vfwd (v : Vehicle) :
    (spaceKeyupBlock v).forward = v.forward := by
  unfold spaceKeyupBlock; split_ifs <;> rfl

theorem spaceKeyupBlock_ljt (v : Vehicle) :
    (spaceKeyupBlock v).lastJumpTime = v.lastJumpTime := by
  unfold spaceKeyupBlock; split_ifs <;> rfl

theorem spaceKeyupBlock_lft (v : Vehicle) :
    (spaceKeyupBlock v).lastFlipTime = v.lastFlipTime := by
  unfold spaceKeyupBlock; split_ifs <;> rfl

theorem spaceKeyupBlock_used (v : Vehicle) :
    (spaceKeyupBlock v).hasUsedDoubleJump = v.hasUsedDoubleJump := by
  unfold spaceKeyupBlock; split_ifs <;> rfl

theorem spaceKeyupBlock_selfr (v : Vehicle) :
    (spaceKeyupBlock v).isSelfRighting = v.isSelfRighting := by
  unfold spaceKeyupBlock; split_ifs <;> rfl

theorem spaceKeyupBlock_numw (v : Vehicle) :
    (spaceKeyupBlock v).physicsVehicle.numWheelsOnGround = v.physicsVehicle.numWheelsOnGround := by
  unfold spaceKeyupBlock; split_ifs <;> rfl

theorem spaceKeyupBlock_bpos (v : Vehicle) :
    (spaceKeyupBlock v).physicsVehicle.chassisBody.position = v.physicsVehicle.chassisBody.position := by
  unfold spaceKeyupBlock; split_ifs <;> rfl

theorem spaceKeyupBlock_bvel (v : Vehicle) :
    (spaceKeyupBlock v).physicsVehicle.chassisBody.velocity = v.physicsVehicle.chassisBody.velocity := by
  unfold spaceKeyupBlock; split_ifs <;> rfl

theorem spaceKeyupBlock_bang (v : Vehicle) :
    (spaceKeyupBlock v).physicsVehicle.chassisBody.angularVelocity = v.physicsVehicle.chassisBody.angularVelocity := by
  unfold spaceKeyupBlock; split_ifs <;> rfl

theorem spaceKeyupBlock_bforce (v : Vehicle) :
    (spaceKeyupBlock v).physicsVehicle.chassisBody.force = v.physicsVehicle.chassisBody.force := by
  unfold spaceKeyupBlock; split_ifs <;> rfl

theorem spaceKeyupBlock_btorque (v : Vehicle) :
    (spaceKeyupBlock v).physicsVehicle.chassisBody.torque = v.physicsVehicle.chassisBody.torque := by
  unfold spaceKeyupBlock; split_ifs <;> rfl

theorem spaceKeyupBlock_e0 (v : Vehicle) :
    (spaceKeyupBlock v).physicsVehicle.wheel0.engineForce = v.physicsVehicle.wheel0.engineForce := by
  unfold spaceKeyupBlock; split_ifs <;> rfl

theorem spaceKeyupBlock_e1 (v : Vehicle) :
    (spaceKeyupBlock v).physicsVehicle.wheel1.engineForce = v.physicsVehicle.wheel1.engineForce := by
  unfold spaceKeyupBlock; split_ifs <;> rfl

theorem spaceKeyupBlock_e2 (v : Vehicle) :
    (spaceKeyupBlock v).physicsVehicle.wheel2.engineForce = v.physicsVehicle.wheel2.engineForce := by
  unfold spaceKeyupBlock; split_ifs <;> rfl

theorem spaceKeyupBlock_e3 (v : Vehicle) :
    (spaceKeyupBlock v).physicsVehicle.wheel3.engineForce = v.physicsVehicle.wheel3.engineForce := by
  unfold spaceKeyupBlock; split_ifs <;> rfl

theorem spaceKeyupBlock_st0 (v : Vehicle) :
    (spaceKeyupBlock v).physicsVehicle.wheel0.steering = v.physicsVehicle.wheel0.steering := by
  unfold spaceKeyupBlock; split_ifs <;> rfl

theorem spaceKeyupBlock_st1 (v : Vehicle) :
    (spaceKeyupBlock v).physicsVehicle.wheel1.steering = v.physicsVehicle.wheel1.steering := by
  unfold spaceKeyupBlock; split_ifs <;> rfl

theorem spaceKeyupBlock_wl0 (v : Vehicle) :
    (spaceKeyupBlock v).physicsVehicle.wheel0 = v.physicsVehicle.wheel0 := by
  unfold spaceKeyupBlock; split_ifs <;> rfl

theorem spaceKeyupBlock_wl1 (v : Vehicle) :
    (spaceKeyupBlock v).physicsVehicle.wheel1 = v.physicsVehicle.wheel1 := by
  unfold spaceKeyupBlock; split_ifs <;> rfl

theorem spaceKeyupBlock_wl2 (v : Vehicle) :
    (spaceKeyupBlock v).physicsVehicle.wheel2 = v.physicsVehicle.wheel2 := by
  unfold spaceKeyupBlock; split_ifs <;> rfl

theorem spaceKeyupBlock_wl3 (v : Vehicle) :
    (spaceKeyupBlock v).physicsVehicle.wheel3 = v.physicsVehicle.wheel3 := by
  unfold spaceKeyupBlock; split_ifs <;> rfl

theorem groundJumpBlock_imw (v : Vehicle) (g : Bool) (now : ℤ) :
    (groundJumpBlock v g now).inputMap.w = v.inputMap.w := by
  unfold groundJumpBlock; split_ifs <;> rfl

theorem groundJumpBlock_ims (v : Vehicle) (g : Bool) (now : ℤ) :
    (groundJumpBlock v g now).inputMap.s = v.inputMap.s := by
  unfold groundJumpBlock; split_ifs <;> rfl

theorem groundJumpBlock_ima (v : Vehicle) (g : Bool) (now : ℤ) :
    (groundJumpBlock v g now).inputMap.a = v.inputMap.a := by
  unfold groundJumpBlock; split_ifs <;> rfl

theorem groundJumpBlock_imd (v : Vehicle) (g : Bool) (now : ℤ) :
    (groundJumpBlock v g now).inputMap.d = v.inputMap.d := by
  unfold groundJumpBlock; split_ifs <;> rfl

theorem groundJumpBlock_imspace (v : Vehicle) (g : Bool) (now : ℤ) :
    (groundJumpBlock v g now).inputMap.space = v.inputMap.space := by
  unfold groundJumpBlock; split_ifs <;> rfl

theorem groundJumpBlock_imshift (v : Vehicle) (g : Bool) (now : ℤ) :
    (groundJumpBlock v g now).inputMap.shiftKey = v.inputMap.shiftKey := by
  unfold groundJumpBlock; split_ifs <;> rfl

theorem groundJumpBlock_im (v : Vehicle) (g : Bool) (now : ℤ) :
    (groundJumpBlock v g now).inputMap = v.inputMap := by
  unfold groundJumpBlock; split_ifs <;> rfl

theorem groundJumpBlock_vup (v : Vehicle) (g : Bool) (now : ℤ) :
    (groundJumpBlock v g now).up = v.up := by
  unfold groundJumpBlock; split_ifs <;> rfl

theorem groundJumpBlock_vright (v : Vehicle) (g : Bool) (now : ℤ) :
    (groundJumpBlock v g now).right = v.right := by
  unfold groundJumpBlock; split_ifs <;> rfl

theorem groundJumpBlock_vfwd (v : Vehicle) (g : Bool) (now : ℤ) :
    (groundJumpBlock v g now).forward = v.forward := by
  unfold groundJumpBlock; split_ifs <;> rfl

theorem groundJumpBlock_lft (v : Vehicle) (g : Bool) (now : ℤ) :
    (groundJumpBlock v g now).lastFlipTime = v.lastFlipTime := by
  unfold groundJumpBlock; split_ifs <;> rfl

theorem groundJumpBlock_used (v : Vehicle) (g : Bool) (now : ℤ) :
    (groundJumpBlock v g now).hasUsedDoubleJump = v.hasUsedDoubleJump := by
  unfold groundJumpBlock; split_ifs <;> rfl

theorem groundJumpBlock_selfr (v : Vehicle) (g : Bool) (now : ℤ) :
    (groundJumpBlock v g now).isSelfRighting = v.isSelfRighting := by
  unfold groundJumpBlock; split_ifs <;> rfl

theorem groundJumpBlock_numw (v : Vehicle) (g : Bool) (now : ℤ) :
    (groundJumpBlock v g now).physicsVehicle.numWheelsOnGround = v.physicsVehicle.numWheelsOnGround := by
  unfold groundJumpBlock; split_ifs <;> rfl

theorem groundJumpBlock_bpos (v : Vehicle) (g : Bool) (now : ℤ) :
    (groundJumpBlock v g now).physicsVehicle.chassisBody.position = v.physicsVehicle.chassisBody.position := by
  unfold groundJumpBlock; split_ifs <;> rfl

theorem groundJumpBlock_bvel (v : Vehicle) (g : Bool) (now : ℤ) :
    (groundJumpBlock v g now).physicsVehicle.chassisBody.velocity = v.physicsVehicle.chassisBody.velocity := by
  unfold groundJumpBlock; split_ifs <;> rfl

theorem groundJumpBlock_bang (v : Vehicle) (g : Bool) (now : ℤ) :
    (groundJumpBlock v g now).physicsVehicle.chassisBody.angularVelocity = v.physicsVehicle.chassisBody.angularVelocity := by
  unfold groundJumpBlock; split_ifs <;> rfl

theorem groundJumpBlock_bforce (v : Vehicle) (g : Bool) (now : ℤ) :
    (groundJumpBlock v g now).physicsVehicle.chassisBody.force = v.physicsVehicle.chassisBody.force := by
  unfold groundJumpBlock; split_ifs <;> rfl

theorem groundJumpBlock_btorque (v : Vehicle) (g : Bool) (now : ℤ) :
    (groundJumpBlock v g now).physicsVehicle.chassisBody.torque = v.physicsVehicle.chassisBody.torque := by
  unfold groundJumpBlock; split_ifs <;> rfl

theorem groundJumpBlock_e0 (v : Vehicle) (g : Bool) (now : ℤ) :
    (groundJumpBlock v g now).physicsVehicle.wheel0.engineForce = v.physicsVehicle.wheel0.engineForce := by
  unfold groundJumpBlock; split_ifs <;> rfl

theorem groundJumpBlock_e1 (v : Vehicle) (g : Bool) (now : ℤ) :
    (groundJumpBlock v g now).physicsVehicle.wheel1.engineForce = v.physicsVehicle.wheel1.engineForce := by
  unfold groundJumpBlock; split_ifs <;> rfl

theorem groundJumpBlock_e2 (v : Vehicle) (g : Bool) (now : ℤ) :
    (groundJumpBlock v g now).physicsVehicle.wheel2.engineForce = v.physicsVehicle.wheel2.engineForce := by
  unfold groundJumpBlock; split_ifs <;> rfl

theorem groundJumpBlock_e3 (v : Vehicle) (g : Bool) (now : ℤ) :
    (groundJumpBlock v g now).physicsVehicle.wheel3.engineForce = v.physicsVehicle.wheel3.engineForce := by
  unfold groundJumpBlock; split_ifs <;> rfl

theorem groundJumpBlock_st0 (v : Vehicle) (g : Bool) (now : ℤ) :
    (groundJumpBlock v g now).physicsVehicle.wheel0.steering = v.physicsVehicle.wheel0.steering := by
  unfold groundJumpBlock; split_ifs <;> rfl

theorem groundJumpBlock_st1 (v : Vehicle) (g : Bool) (now : ℤ) :
    (groundJumpBlock v g now).physicsVehicle.wheel1.steering = v.physicsVehicle.wheel1.steering := by
  unfold groundJumpBlock; split_ifs <;> rfl

theorem groundJumpBlock_wl0 (v : Vehicle) (g : Bool) (now : ℤ) :
    (groundJumpBlock v g now).physicsVehicle.wheel0 = v.physicsVehicle.wheel0 := by
  unfold groundJumpBlock; split_ifs <;> rfl

theorem groundJumpBlock_wl1 (v : Vehicle) (g : Bool) (now : ℤ) :
    (groundJumpBlock v g now).physicsVehicle.wheel1 = v.physicsVehicle.wheel1 := by
  unfold groundJumpBlock; split_ifs <;> rfl

theorem groundJumpBlock_wl2 (v : Vehicle) (g : Bool) (now : ℤ) :
    (groundJumpBlock v g now).physicsVehicle.wheel2 = v.physicsVehicle.wheel2 := by
  unfold groundJumpBlock; split_ifs <;> rfl

theorem groundJumpBlock_wl3 (v : Vehicle) (g : Bool) (now : ℤ) :
    (groundJumpBlock v g now).physicsVehicle.wheel3 = v.physicsVehicle.wheel3 := by
  unfold groundJumpBlock; split_ifs <;> rfl

theorem selfRightCompletionBlock_imw (v : Vehicle) (f : Bool) :
    (selfRightCompletionBlock v f).inputMap.w = v.inputMap.w := by
  unfold selfRightCompletionBlock; split_ifs <;> rfl

theorem selfRightCompletionBlock_ims (v : Vehicle) (f : Bool) :
    (selfRightCompletionBlock v f).inputMap.s = v.inputMap.s := by
  unfold selfRightCompletionBlock; split_ifs <;> rfl

theorem selfRightCompletionBlock_ima (v : Vehicle) (f : Bool) :
    (selfRightCompletionBlock v f).inputMap.a = v.inputMap.a := by
  unfold selfRightCompletionBlock; split_ifs <;> rfl

theorem selfRightCompletionBlock_imd (v : Vehicle) (f : Bool) :
    (selfRightCompletionBlock v f).inputMap.d = v.inputMap.d := by
  unfold selfRightCompletionBlock; split_ifs <;> rfl

theorem selfRightCompletionBlock_imspace (v : Vehicle) (f : Bool) :
    (selfRightCompletionBlock v f).inputMap.space = v.inputMap.space := by
  unfold selfRightCompletionBlock; split_ifs <;> rfl

theorem selfRightCompletionBlock_imshift (v : Vehicle) (f : Bool) :
    (selfRightCompletionBlock v f).inputMap.shiftKey = v.inputMap.shiftKey := by
  unfold selfRightCompletionBlock; split_ifs <;> rfl

theorem selfRightCompletionBlock_im (v : Vehicle) (f : Bool) :
    (selfRightCompletionBlock v f).inputMap = v.inputMap := by
  unfold selfRightCompletionBlock; split_ifs <;> rfl

theorem selfRightCompletionBlock_vup (v : Vehicle) (f : Bool) :
    (selfRightCompletionBlock v f).up = v.up := by
  unfold selfRightCompletionBlock; split_ifs <;> rfl

theorem selfRightCompletionBlock_vright (v : Vehicle) (f : Bool) :
    (selfRightCompletionBlock v f).right = v.right := by
  unfold selfRightCompletionBlock; split_ifs <;> rfl

theorem selfRightCompletionBlock_vfwd (v : Vehicle) (f : Bool) :
    (selfRightCompletionBlock v f).forward = v.forward := by
  unfold selfRightCompletionBlock; split_ifs <;> rfl

theorem selfRightCompletionBlock_ljt (v : Vehicle) (f : Bool) :
    (selfRightCompletionBlock v f).lastJumpTime = v.lastJumpTime := by
  unfold selfRightCompletionBlock; split_ifs <;> rfl

theorem selfRightCompletionBlock_lft (v : Vehicle) (f : Bool) :
    (selfRightCompletionBlock v f).lastFlipTime = v.lastFlipTime := by
  unfold selfRightCompletionBlock; split_ifs <;> rfl

theorem selfRightCompletionBlock_latch (v : Vehicle) (f : Bool) :
    (selfRightCompletionBlock v f).hasStoppedJumping = v.hasStoppedJumping := by
  unfold selfRightCompletionBlock; split_ifs <;> rfl

theorem selfRightCompletionBlock_used (v : Vehicle) (f : Bool) :
    (selfRightCompletionBlock v f).hasUsedDoubleJump = v.hasUsedDoubleJump := by
  unfold selfRightCompletionBlock; split_ifs <;> rfl

theorem selfRightCompletionBlock_isj (v : Vehicle) (f : Bool) :
    (selfRightCompletionBlock v f).isJumping = v.isJumping := by
  unfold selfRightCompletionBlock; split_ifs <;> rfl

theorem selfRightCompletionBlock_numw (v : Vehicle) (f : Bool) :
    (selfRightCompletionBlock v f).physicsVehicle.numWheelsOnGround = v.physicsVehicle.numWheelsOnGround := by
  unfold selfRightCompletionBlock; split_ifs <;> rfl

theorem selfRightCompletionBlock_bpos (v : Vehicle) (f : Bool) :
    (selfRightCompletionBlock v f).physicsVehicle.chassisBody.position = v.physicsVehicle.chassisBody.position := by
  unfold selfRightCompletionBlock; split_ifs <;> rfl

theorem selfRightCompletionBlock_bvel (v : Vehicle) (f : Bool) :
    (selfRightCompletionBlock v f).physicsVehicle.chassisBody.velocity = v.physicsVehicle.chassisBody.velocity := by
  unfold selfRightCompletionBlock; split_ifs <;> rfl

theorem selfRightCompletionBlock_bforce (v : Vehicle) (f : Bool) :
    (selfRightCompletionBlock v f).physicsVehicle.chassisBody.force = v.physicsVehicle.chassisBody.force := by
  unfold selfRightCompletionBlock; split_ifs <;> rfl

theorem selfRightCompletionBlock_e0 (v : Vehicle) (f : Bool) :
    (selfRightCompletionBlock v f).physicsVehicle.wheel0.engineForce = v.physicsVehicle.wheel0.engineForce := by
  unfold selfRightCompletionBlock; split_ifs <;> rfl

theorem selfRightCompletionBlock_e1 (v : Vehicle) (f : Bool) :
    (selfRightCompletionBlock v f).physicsVehicle.wheel1.engineForce = v.physicsVehicle.wheel1.engineForce := by
  unfold selfRightCompletionBlock; split_ifs <;> rfl

theorem selfRightCompletionBlock_e2 (v : Vehicle) (f : Bool) :
    (selfRightCompletionBlock v f).physicsVehicle.wheel2.engineForce = v.physicsVehicle.wheel2.engineForce := by
  unfold selfRightCompletionBlock; split_ifs <;> rfl

theorem selfRightCompletionBlock_e3 (v : Vehicle) (f : Bool) :
    (selfRightCompletionBlock v f).physicsVehicle.wheel3.engineForce = v.physicsVehicle.wheel3.engineForce := by
  unfold selfRightCompletionBlock; split_ifs <;> rfl

theorem selfRightCompletionBlock_st0 (v : Vehicle) (f : Bool) :
    (selfRightCompletionBlock v f).physicsVehicle.wheel0.steering = v.physicsVehicle.wheel0.steering := by
  unfold selfRightCompletionBlock; split_ifs <;> rfl

theorem selfRightCompletionBlock_st1 (v : Vehicle) (f : Bool) :
    (selfRightCompletionBlock v f).physicsVehicle.wheel1.steering = v.physicsVehicle.wheel1.steering := by
  unfold selfRightCompletionBlock; split_ifs <;> rfl

theorem selfRightCompletionBlock_wl0 (v : Vehicle) (f : Bool) :
    (selfRightCompletionBlock v f).physicsVehicle.wheel0 = v.physicsVehicle.wheel0 := by
  unfold selfRightCompletionBlock; split_ifs <;> rfl

theorem selfRightCompletionBlock_wl1 (v : Vehicle) (f : Bool) :
    (selfRightCompletionBlock v f).physicsVehicle.wheel1 = v.physicsVehicle.wheel1 := by
  unfold selfRightCompletionBlock; split_ifs <;> rfl

theorem selfRightCompletionBlock_wl2 (v : Vehicle) (f : Bool) :
    (selfRightCompletionBlock v f).physicsVehicle.wheel2 = v.physicsVehicle.wheel2 := by
  unfold selfRightCompletionBlock; split_ifs <;> rfl

theorem selfRightCompletionBlock_wl3 (v : Vehicle) (f : Bool) :
    (selfRightCompletionBlock v f).physicsVehicle.wheel3 = v.physicsVehicle.wheel3 := by
  unfold selfRightCompletionBlock; split_ifs <;> rfl

theorem aerialTorqueIf_imw (p : Vehicle × TickLog) (c : Prop) [Decidable c] (t : Vec3) :
    (aerialTorqueIf p c t).1.inputMap.w = p.1.inputMap.w := by
  unfold aerialTorqueIf; split_ifs <;> rfl

theorem aerialTorqueIf_ims (p : Vehicle × TickLog) (c : Prop) [Decidable c] (t : Vec3) :
    (aerialTorqueIf p c t).1.inputMap.s = p.1.inputMap.s := by
  unfold aerialTorqueIf; split_ifs <;> rfl

theorem aerialTorqueIf_ima (p : Vehicle × TickLog) (c : Prop) [Decidable c] (t : Vec3) :
    (aerialTorqueIf p c t).1.inputMap.a = p.1.inputMap.a := by
  unfold aerialTorqueIf; split_ifs <;> rfl

theorem aerialTorqueIf_imd (p : Vehicle × TickLog) (c : Prop) [Decidable c] (t : Vec3) :
    (aerialTorqueIf p c t).1.inputMap.d = p.1.inputMap.d := by
  unfold aerialTorqueIf; split_ifs <;> rfl

theorem aerialTorqueIf_imspace (p : Vehicle × TickLog) (c : Prop) [Decidable c] (t : Vec3) :
    (aerialTorqueIf p c t).1.inputMap.space = p.1.inputMap.space := by
  unfold aerialTorqueIf; split_ifs <;> rfl

theorem aerialTorqueIf_imshift (p : Vehicle × TickLog) (c : Prop) [Decidable c] (t : Vec3) :
    (aerialTorqueIf p c t).1.inputMap.shiftKey = p.1.inputMap.shiftKey := by
  unfold aerialTorqueIf; split_ifs <;> rfl

theorem aerialTorqueIf_im (p : Vehicle × TickLog) (c : Prop) [Decidable c] (t : Vec3) :
    (aerialTorqueIf p c t).1.inputMap = p.1.inputMap := by
  unfold aerialTorqueIf; split_ifs <;> rfl

theorem aerialTorqueIf_vup (p : Vehicle × TickLog) (c : Prop) [Decidable c] (t : Vec3) :
    (aerialTorqueIf p c t).1.up = p.1.up := by
  unfold aerialTorqueIf; split_ifs <;> rfl

theorem aerialTorqueIf_vright (p : Vehicle × TickLog) (c : Prop) [Decidable c] (t : Vec3) :
    (aerialTorqueIf p c t).1.right = p.1.right := by
  unfold aerialTorqueIf; split_ifs <;> rfl

theorem aerialTorqueIf_vfwd (p : Vehicle × TickLog) (c : Prop) [Decidable c] (t : Vec3) :
    (aerialTorqueIf p c t).1.forward = p.1.forward := by
  unfold aerialTorqueIf; split_ifs <;> rfl

theorem aerialTorqueIf_ljt (p : Vehicle × TickLog) (c : Prop) [Decidable c] (t : Vec3) :
    (aerialTorqueIf p c t).1.lastJumpTime = p.1.lastJumpTime := by
  unfold aerialTorqueIf; split_ifs <;> rfl

theorem aerialTorqueIf_lft (p : Vehicle × TickLog) (c : Prop) [Decidable c] (t : Vec3) :
    (aerialTorqueIf p c t).1.lastFlipTime = p.1.lastFlipTime := by
  unfold aerialTorqueIf; split_ifs <;> rfl

theorem aerialTorqueIf_latch (p : Vehicle × TickLog) (c : Prop) [Decidable c] (t : Vec3) :
    (aerialTorqueIf p c t).1.hasStoppedJumping = p.1.hasStoppedJumping := by
  unfold aerialTorqueIf; split_ifs <;> rfl

theorem aerialTorqueIf_used (p : Vehicle × TickLog) (c : Prop) [Decidable c] (t : Vec3) :
    (aerialTorqueIf p c t).1.hasUsedDoubleJump = p.1.hasUsedDoubleJump := by
  unfold aerialTorqueIf; split_ifs <;> rfl

theorem aerialTorqueIf_selfr (p : Vehicle × TickLog) (c : Prop) [Decidable c] (t : Vec3) :
    (aerialTorqueIf p c t).1.isSelfRighting = p.1.isSelfRighting := by
  unfold aerialTorqueIf; split_ifs <;> rfl

theorem aerialTorqueIf_isj (p : Vehicle × TickLog) (c : Prop) [Decidable c] (t : Vec3) :
    (aerialTorqueIf p c t).1.isJumping = p.1.isJumping := by
  unfold aerialTorqueIf; split_ifs <;> rfl

theorem aerialTorqueIf_numw (p : Vehicle × TickLog) (c : Prop) [Decidable c] (t : Vec3) :
    (aerialTorqueIf p c t).1.physicsVehicle.numWheelsOnGround = p.1.physicsVehicle.numWheelsOnGround := by
  unfold aerialTorqueIf; split_ifs <;> rfl

theorem aerialTorqueIf_bpos (p : Vehicle × TickLog) (c : Prop) [Decidable c] (t : Vec3) :
    (aerialTorqueIf p c t).1.physicsVehicle.chassisBody.position = p.1.physicsVehicle.chassisBody.position := by
  unfold aerialTorqueIf; split_ifs <;> rfl

theorem aerialTorqueIf_bvel (p : Vehicle × TickLog) (c : Prop) [Decidable c] (t : Vec3) :
    (aerialTorqueIf p c t).1.physicsVehicle.chassisBody.velocity = p.1.physicsVehicle.chassisBody.velocity := by
  unfold aerialTorqueIf; split_ifs <;> rfl

theorem aerialTorqueIf_bang (p : Vehicle × TickLog) (c : Prop) [Decidable c] (t : Vec3) :
    (aerialTorqueIf p c t).1.physicsVehicle.chassisBody.angularVelocity = p.1.physicsVehicle.chassisBody.angularVelocity := by
  unfold aerialTorqueIf; split_ifs <;> rfl

theorem aerialTorqueIf_bforce (p : Vehicle × TickLog) (c : Prop) [Decidable c] (t : Vec3) :
    (aerialTorqueIf p c t).1.physicsVehicle.chassisBody.force = p.1.physicsVehicle.chassisBody.force := by
  unfold aerialTorqueIf; split_ifs <;> rfl

theorem aerialTorqueIf_e0 (p : Vehicle × TickLog) (c : Prop) [Decidable c] (t : Vec3) :
    (aerialTorqueIf p c t).1.physicsVehicle.wheel0.engineForce = p.1.physicsVehicle.wheel0.engineForce := by
  unfold aerialTorqueIf; split_ifs <;> rfl

theorem aerialTorqueIf_e1 (p : Vehicle × TickLog) (c : Prop) [Decidable c] (t : Vec3) :
    (aerialTorqueIf p c t).1.physicsVehicle.wheel1.engineForce = p.1.physicsVehicle.wheel1.engineForce := by
  unfold aerialTorqueIf; split_ifs <;> rfl

theorem aerialTorqueIf_e2 (p : Vehicle × TickLog) (c : Prop) [Decidable c] (t : Vec3) :
    (aerialTorqueIf p c t).1.physicsVehicle.wheel2.engineForce = p.1.physicsVehicle.wheel2.engineForce := by
  unfold aerialTorqueIf; split_ifs <;> rfl

theorem aerialTorqueIf_e3 (p : Vehicle × TickLog) (c : Prop) [Decidable c] (t : Vec3) :
    (aerialTorqueIf p c t).1.physicsVehicle.wheel3.engineForce = p.1.physicsVehicle.wheel3.engineForce := by
  unfold aerialTorqueIf; split_ifs <;> rfl

theorem aerialTorqueIf_st0 (p : Vehicle × TickLog) (c : Prop) [Decidable c] (t : Vec3) :
    (aerialTorqueIf p c t).1.physicsVehicle.wheel0.steering = p.1.physicsVehicle.wheel0.steering := by
  unfold aerialTorqueIf; split_ifs <;> rfl

theorem aerialTorqueIf_st1 (p : Vehicle × TickLog) (c : Prop) [Decidable c] (t : Vec3) :
    (aerialTorqueIf p c t).1.physicsVehicle.wheel1.steering = p.1.physicsVehicle.wheel1.steering := by
  unfold aerialTorqueIf; split_ifs <;> rfl

theorem aerialTorqueIf_wl0 (p : Vehicle × TickLog) (c : Prop) [Decidable c] (t : Vec3) :
    (aerialTorqueIf p c t).1.physicsVehicle.wheel0 = p.1.physicsVehicle.wheel0 := by
  unfold aerialTorqueIf; split_ifs <;> rfl

theorem aerialTorqueIf_wl1 (p : Vehicle × TickLog) (c : Prop) [Decidable c] (t : Vec3) :
    (aerialTorqueIf p c t).1.physicsVehicle.wheel1 = p.1.physicsVehicle.wheel1 := by
  unfold aerialTorqueIf; split_ifs <;> rfl

theorem aerialTorqueIf_wl2 (p : Vehicle × TickLog) (c : Prop) [Decidable c] (t : Vec3) :
    (aerialTorqueIf p c t).1.physicsVehicle.wheel2 = p.1.physicsVehicle.wheel2 := by
  unfold aerialTorqueIf; split_ifs <;> rfl

theorem aerialTorqueIf_wl3 (p : Vehicle × TickLog) (c : Prop) [Decidable c] (t : Vec3) :
    (aerialTorqueIf p c t).1.physicsVehicle.wheel3 = p.1.physicsVehicle.wheel3 := by
  unfold aerialTorqueIf; split_ifs <;> rfl

theorem aerialTorqueIf_ljf (p : Vehicle × TickLog) (c : Prop) [Decidable c] (t : Vec3) :
    (aerialTorqueIf p c t).2.jumpForces = p.2.jumpForces := by
  unfold aerialTorqueIf; split_ifs <;> rfl

theorem aerialTorqueIf_lnd (p : Vehicle × TickLog) (c : Prop) [Decidable c] (t : Vec3) :
    (aerialTorqueIf p c t).2.neutralDoubleJumpImpulses = p.2.neutralDoubleJumpImpulses := by
  unfold aerialTorqueIf; split_ifs <;> rfl

theorem aerialTorqueIf_lfi (p : Vehicle × TickLog) (c : Prop) [Decidable c] (t : Vec3) :
    (aerialTorqueIf p c t).2.flipImpulses = p.2.flipImpulses := by
  unfold aerialTorqueIf; split_ifs <;> rfl

theorem aerialTorqueIf_lft2 (p : Vehicle × TickLog) (c : Prop) [Decidable c] (t : Vec3) :
    (aerialTorqueIf p c t).2.flipTorques = p.2.flipTorques := by
  unfold aerialTorqueIf; split_ifs <;> rfl

theorem aerialTorqueIf_lsri (p : Vehicle × TickLog) (c : Prop) [Decidable c] (t : Vec3) :
    (aerialTorqueIf p c t).2.selfRightingImpulses = p.2.selfRightingImpulses := by
  unfold aerialTorqueIf; split_ifs <;> rfl

theorem aerialTorqueIf_lsst (p : Vehicle × TickLog) (c : Prop) [Decidable c] (t : Vec3) :
    (aerialTorqueIf p c t).2.scheduledSelfRightingTorqueTimes = p.2.scheduledSelfRightingTorqueTimes := by
  unfold aerialTorqueIf; split_ifs <;> rfl

theorem aerialTorqueIf_lbf (p : Vehicle × TickLog) (c : Prop) [Decidable c] (t : Vec3) :
    (aerialTorqueIf p c t).2.boostForces = p.2.boostForces := by
  unfold aerialTorqueIf; split_ifs <;> rfl

theorem jumpForceBlock_imw (v : Vehicle) (log : TickLog) (tsj : Option ℤ) :
    (jumpForceBlock v log tsj).1.inputMap.w = v.inputMap.w := by
  unfold jumpForceBlock; split_ifs <;> rfl

theorem jumpForceBlock_ims (v : Vehicle) (log : TickLog) (tsj : Option ℤ) :
    (jumpForceBlock v log tsj).1.inputMap.s = v.inputMap.s := by
  unfold jumpForceBlock; split_ifs <;> rfl

theorem jumpForceBlock_ima (v : Vehicle) (log : TickLog) (tsj : Option ℤ) :
    (jumpForceBlock v log tsj).1.inputMap.a = v.inputMap.a := by
  unfold jumpForceBlock; split_ifs <;> rfl

theorem jumpForceBlock_imd (v : Vehicle) (log : TickLog) (tsj : Option ℤ) :
    (jumpForceBlock v log tsj).1.inputMap.d = v.inputMap.d := by
  unfold jumpForceBlock; split_ifs <;> rfl

theorem jumpForceBlock_imspace (v : Vehicle) (log : TickLog) (tsj : Option ℤ) :
    (jumpForceBlock v log tsj).1.inputMap.space = v.inputMap.space := by
  unfold jumpForceBlock; split_ifs <;> rfl

theorem jumpForceBlock_imshift (v : Vehicle) (log : TickLog) (tsj : Option ℤ) :
    (jumpForceBlock v log tsj).1.inputMap.shiftKey = v.inputMap.shiftKey := by
  unfold jumpForceBlock; split_ifs <;> rfl

theorem jumpForceBlock_im (v : Vehicle) (log : TickLog) (tsj : Option ℤ) :
    (jumpForceBlock v log tsj).1.inputMap = v.inputMap := by
  unfold jumpForceBlock; split_ifs <;> rfl

theorem jumpForceBlock_vup (v : Vehicle) (log : TickLog) (tsj : Option ℤ) :
    (jumpForceBlock v log tsj).1.up = v.up := by
  unfold jumpForceBlock; split_ifs <;> rfl

theorem jumpForceBlock_vright (v : Vehicle) (log : TickLog) (tsj : Option ℤ) :
    (jumpForceBlock v log tsj).1.right = v.right := by
  unfold jumpForceBlock; split_ifs <;> rfl

theorem jumpForceBlock_vfwd (v : Vehicle) (log : TickLog) (tsj : Option ℤ) :
    (jumpForceBlock v log tsj).1.forward = v.forward := by
  unfold jumpForceBlock; split_ifs <;> rfl

theorem jumpForceBlock_ljt (v : Vehicle) (log : TickLog) (tsj : Option ℤ) :
    (jumpForceBlock v log tsj).1.lastJumpTime = v.lastJumpTime := by
  unfold jumpForceBlock; split_ifs <;> rfl

theorem jumpForceBlock_lft (v : Vehicle) (log : TickLog) (tsj : Option ℤ) :
    (jumpForceBlock v log tsj).1.lastFlipTime = v.lastFlipTime := by
  unfold jumpForceBlock; split_ifs <;> rfl

theorem jumpForceBlock_latch (v : Vehicle) (log : TickLog) (tsj : Option ℤ) :
    (jumpForceBlock v log tsj).1.hasStoppedJumping = v.hasStoppedJumping := by
  unfold jumpForceBlock; split_ifs <;> rfl

theorem jumpForceBlock_used (v : Vehicle) (log : TickLog) (tsj : Option ℤ) :
    (jumpForceBlock v log tsj).1.hasUsedDoubleJump = v.hasUsedDoubleJump := by
  unfold jumpForceBlock; split_ifs <;> rfl

theorem jumpForceBlock_selfr (v : Vehicle) (log : TickLog) (tsj : Option ℤ) :
    (jumpForceBlock v log tsj).1.isSelfRighting = v.isSelfRighting := by
  unfold jumpForceBlock; split_ifs <;> rfl

theorem jumpForceBlock_isj (v : Vehicle) (log : TickLog) (tsj : Option ℤ) :
    (jumpForceBlock v log tsj).1.isJumping = v.isJumping := by
  unfold jumpForceBlock; split_ifs <;> rfl

theorem jumpForceBlock_numw (v : Vehicle) (log : TickLog) (tsj : Option ℤ) :
    (jumpForceBlock v log tsj).1.physicsVehicle.numWheelsOnGround = v.physicsVehicle.numWheelsOnGround := by
  unfold jumpForceBlock; split_ifs <;> rfl

theorem jumpForceBlock_bpos (v : Vehicle) (log : TickLog) (tsj : Option ℤ) :
    (jumpForceBlock v log tsj).1.physicsVehicle.chassisBody.position = v.physicsVehicle.chassisBody.position := by
  unfold jumpForceBlock; split_ifs <;> rfl

theorem jumpForceBlock_bvel (v : Vehicle) (log : TickLog) (tsj : Option ℤ) :
    (jumpForceBlock v log tsj).1.physicsVehicle.chassisBody.velocity = v.physicsVehicle.chassisBody.velocity := by
  unfold jumpForceBlock; split_ifs <;> rfl

theorem jumpForceBlock_bang (v : Vehicle) (log : TickLog) (tsj : Option ℤ) :
    (jumpForceBlock v log tsj).1.physicsVehicle.chassisBody.angularVelocity = v.physicsVehicle.chassisBody.angularVelocity := by
  unfold jumpForceBlock; split_ifs <;> rfl

theorem jumpForceBlock_btorque (v : Vehicle) (log : TickLog) (tsj : Option ℤ) :
    (jumpForceBlock v log tsj).1.physicsVehicle.chassisBody.torque = v.physicsVehicle.chassisBody.torque := by
  unfold jumpForceBlock; split_ifs <;> rfl

theorem jumpForceBlock_e0 (v : Vehicle) (log : TickLog) (tsj : Option ℤ) :
    (jumpForceBlock v log tsj).1.physicsVehicle.wheel0.engineForce = v.physicsVehicle.wheel0.engineForce := by
  unfold jumpForceBlock; split_ifs <;> rfl

theorem jumpForceBlock_e1 (v : Vehicle) (log : TickLog) (tsj : Option ℤ) :
    (jumpForceBlock v log tsj).1.physicsVehicle.wheel1.engineForce = v.physicsVehicle.wheel1.engineForce := by
  unfold jumpForceBlock; split_ifs <;> rfl

theorem jumpForceBlock_e2 (v : Vehicle) (log : TickLog) (tsj : Option ℤ) :
    (jumpForceBlock v log tsj).1.physicsVehicle.wheel2.engineForce = v.physicsVehicle.wheel2.engineForce := by
  unfold jumpForceBlock; split_ifs <;> rfl

theorem jumpForceBlock_e3 (v : Vehicle) (log : TickLog) (tsj : Option ℤ) :
    (jumpForceBlock v log tsj).1.physicsVehicle.wheel3.engineForce = v.physicsVehicle.wheel3.engineForce := by
  unfold jumpForceBlock; split_ifs <;> rfl

theorem jumpForceBlock_st0 (v : Vehicle) (log : TickLog) (tsj : Option ℤ) :
    (jumpForceBlock v log tsj).1.physicsVehicle.wheel0.steering = v.physicsVehicle.wheel0.steering := by
  unfold jumpForceBlock; split_ifs <;> rfl

theorem jumpForceBlock_st1 (v : Vehicle) (log : TickLog) (tsj : Option ℤ) :
    (jumpForceBlock v log tsj).1.physicsVehicle.wheel1.steering = v.physicsVehicle.wheel1.steering := by
  unfold jumpForceBlock; split_ifs <;> rfl

theorem jumpForceBlock_wl0 (v : Vehicle) (log : TickLog) (tsj : Option ℤ) :
    (jumpForceBlock v log tsj).1.physicsVehicle.wheel0 = v.physicsVehicle.wheel0 := by
  unfold jumpForceBlock; split_ifs <;> rfl

theorem jumpForceBlock_wl1 (v : Vehicle) (log : TickLog) (tsj : Option ℤ) :
    (jumpForceBlock v log tsj).1.physicsVehicle.wheel1 = v.physicsVehicle.wheel1 := by
  unfold jumpForceBlock; split_ifs <;> rfl

theorem jumpForceBlock_wl2 (v : Vehicle) (log : TickLog) (tsj : Option ℤ) :
    (jumpForceBlock v log tsj).1.physicsVehicle.wheel2 = v.physicsVehicle.wheel2 := by
  unfold jumpForceBlock; split_ifs <;> rfl

theorem jumpForceBlock_wl3 (v : Vehicle) (log : TickLog) (tsj : Option ℤ) :
    (jumpForceBlock v log tsj).1.physicsVehicle.wheel3 = v.physicsVehicle.wheel3 := by
  unfold jumpForceBlock; split_ifs <;> rfl

theorem jumpForceBlock_lat (v : Vehicle) (log : TickLog) (tsj : Option ℤ) :
    (jumpForceBlock v log tsj).2.aerialTorques = log.aerialTorques := by
  unfold jumpForceBlock; split_ifs <;> rfl

theorem jumpForceBlock_lnd (v : Vehicle) (log : TickLog) (tsj : Option ℤ) :
    (jumpForceBlock v log tsj).2.neutralDoubleJumpImpulses = log.neutralDoubleJumpImpulses := by
  unfold jumpForceBlock; split_ifs <;> rfl

theorem jumpForceBlock_lfi (v : Vehicle) (log : TickLog) (tsj : Option ℤ) :
    (jumpForceBlock v log tsj).2.flipImpulses = log.flipImpulses := by
  unfold jumpForceBlock; split_ifs <;> rfl

theorem jumpForceBlock_lft2 (v : Vehicle) (log : TickLog) (tsj : Option ℤ) :
    (jumpForceBlock v log tsj).2.flipTorques = log.flipTorques := by
  unfold jumpForceBlock; split_ifs <;> rfl

theorem jumpForceBlock_lsri (v : Vehicle) (log : TickLog) (tsj : Option ℤ) :
    (jumpForceBlock v log tsj).2.selfRightingImpulses = log.selfRightingImpulses := by
  unfold jumpForceBlock; split_ifs <;> rfl

theorem jumpForceBlock_lsst (v : Vehicle) (log : TickLog) (tsj : Option ℤ) :
    (jumpForceBlock v log tsj).2.scheduledSelfRightingTorqueTimes = log.scheduledSelfRightingTorqueTimes := by
  unfold jumpForceBlock; split_ifs <;> rfl

theorem jumpForceBlock_lbf (v : Vehicle) (log : TickLog) (tsj : Option ℤ) :
    (jumpForceBlock v log tsj).2.boostForces = log.boostForces := by
  unfold jumpForceBlock; split_ifs <;> rfl

theorem neutralImpulseBlock_imw (p : Vehicle × TickLog) :
    (neutralImpulseBlock p).1.inputMap.w = p.1.inputMap.w := by
  unfold neutralImpulseBlock; split_ifs <;> rfl

theorem neutralImpulseBlock_ims (p : Vehicle × TickLog) :
    (neutralImpulseBlock p).1.inputMap.s = p.1.inputMap.s := by
  unfold neutralImpulseBlock; split_ifs <;> rfl

theorem neutralImpulseBlock_ima (p : Vehicle × TickLog) :
    (neutralImpulseBlock p).1.inputMap.a = p.1.inputMap.a := by
  unfold neutralImpulseBlock; split_ifs <;> rfl

theorem neutralImpulseBlock_imd (p : Vehicle × TickLog) :
    (neutralImpulseBlock p).1.inputMap.d = p.1.inputMap.d := by
  unfold neutralImpulseBlock; split_ifs <;> rfl

theorem neutralImpulseBlock_imspace (p : Vehicle × TickLog) :
    (neutralImpulseBlock p).1.inputMap.space = p.1.inputMap.space := by
  unfold neutralImpulseBlock; split_ifs <;> rfl

theorem neutralImpulseBlock_imshift (p : Vehicle × TickLog) :
    (neutralImpulseBlock p).1.inputMap.shiftKey = p.1.inputMap.shiftKey := by
  unfold neutralImpulseBlock; split_ifs <;> rfl

theorem neutralImpulseBlock_im (p : Vehicle × TickLog) :
    (neutralImpulseBlock p).1.inputMap = p.1.inputMap := by
  unfold neutralImpulseBlock; split_ifs <;> rfl

theorem neutralImpulseBlock_vup (p : Vehicle × TickLog) :
    (neutralImpulseBlock p).1.up = p.1.up := by
  unfold neutralImpulseBlock; split_ifs <;> rfl

theorem neutralImpulseBlock_vright (p : Vehicle × TickLog) :
    (neutralImpulseBlock p).1.right = p.1.right := by
  unfold neutralImpulseBlock; split_ifs <;> rfl

theorem neutralImpulseBlock_vfwd (p : Vehicle × TickLog) :
    (neutralImpulseBlock p).1.forward = p.1.forward := by
  unfold neutralImpulseBlock; split_ifs <;> rfl

theorem neutralImpulseBlock_ljt (p : Vehicle × TickLog) :
    (neutralImpulseBlock p).1.lastJumpTime = p.1.lastJumpTime := by
  unfold neutralImpulseBlock; split_ifs <;> rfl

theorem neutralImpulseBlock_lft (p : Vehicle × TickLog) :
    (neutralImpulseBlock p).1.lastFlipTime = p.1.lastFlipTime := by
  unfold neutralImpulseBlock; split_ifs <;> rfl

theorem neutralImpulseBlock_latch (p : Vehicle × TickLog) :
    (neutralImpulseBlock p).1.hasStoppedJumping = p.1.hasStoppedJumping := by
  unfold neutralImpulseBlock; split_ifs <;> rfl

theorem neutralImpulseBlock_used (p : Vehicle × TickLog) :
    (neutralImpulseBlock p).1.hasUsedDoubleJump = p.1.hasUsedDoubleJump := by
  unfold neutralImpulseBlock; split_ifs <;> rfl

theorem neutralImpulseBlock_selfr (p : Vehicle × TickLog) :
    (neutralImpulseBlock p).1.isSelfRighting = p.1.isSelfRighting := by
  unfold neutralImpulseBlock; split_ifs <;> rfl

theorem neutralImpulseBlock_isj (p : Vehicle × TickLog) :
    (neutralImpulseBlock p).1.isJumping = p.1.isJumping := by
  unfold neutralImpulseBlock; split_ifs <;> rfl

theorem neutralImpulseBlock_numw (p : Vehicle × TickLog) :
    (neutralImpulseBlock p).1.physicsVehicle.numWheelsOnGround = p.1.physicsVehicle.numWheelsOnGround := by
  unfold neutralImpulseBlock; split_ifs <;> rfl

theorem neutralImpulseBlock_bpos (p : Vehicle × TickLog) :
    (neutralImpulseBlock p).1.physicsVehicle.chassisBody.position = p.1.physicsVehicle.chassisBody.position := by
  unfold neutralImpulseBlock; split_ifs <;> rfl

theorem neutralImpulseBlock_bang (p : Vehicle × TickLog) :
    (neutralImpulseBlock p).1.physicsVehicle.chassisBody.angularVelocity = p.1.physicsVehicle.chassisBody.angularVelocity := by
  unfold neutralImpulseBlock; split_ifs <;> rfl

theorem neutralImpulseBlock_bforce (p : Vehicle × TickLog) :
    (neutralImpulseBlock p).1.physicsVehicle.chassisBody.force = p.1.physicsVehicle.chassisBody.force := by
  unfold neutralImpulseBlock; split_ifs <;> rfl

theorem neutralImpulseBlock_btorque (p : Vehicle × TickLog) :
    (neutralImpulseBlock p).1.physicsVehicle.chassisBody.torque = p.1.physicsVehicle.chassisBody.torque := by
  unfold neutralImpulseBlock; split_ifs <;> rfl

theorem neutralImpulseBlock_e0 (p : Vehicle × TickLog) :
    (neutralImpulseBlock p).1.physicsVehicle.wheel0.engineForce = p.1.physicsVehicle.wheel0.engineForce := by
  unfold neutralImpulseBlock; split_ifs <;> rfl

theorem neutralImpulseBlock_e1 (p : Vehicle × TickLog) :
    (neutralImpulseBlock p).1.physicsVehicle.wheel1.engineForce = p.1.physicsVehicle.wheel1.engineForce := by
  unfold neutralImpulseBlock; split_ifs <;> rfl

theorem neutralImpulseBlock_e2 (p : Vehicle × TickLog) :
    (neutralImpulseBlock p).1.physicsVehicle.wheel2.engineForce = p.1.physicsVehicle.wheel2.engineForce := by
  unfold neutralImpulseBlock; split_ifs <;> rfl

theorem neutralImpulseBlock_e3 (p : Vehicle × TickLog) :
    (neutralImpulseBlock p).1.physicsVehicle.wheel3.engineForce = p.1.physicsVehicle.wheel3.engineForce := by
  unfold neutralImpulseBlock; split_ifs <;> rfl

theorem neutralImpulseBlock_st0 (p : Vehicle × TickLog) :
    (neutralImpulseBlock p).1.physicsVehicle.wheel0.steering = p.1.physicsVehicle.wheel0.steering := by
  unfold neutralImpulseBlock; split_ifs <;> rfl

theorem neutralImpulseBlock_st1 (p : Vehicle × TickLog) :
    (neutralImpulseBlock p).1.physicsVehicle.wheel1.steering = p.1.physicsVehicle.wheel1.steering := by
  unfold neutralImpulseBlock; split_ifs <;> rfl

theorem neutralImpulseBlock_wl0 (p : Vehicle × TickLog) :
    (neutralImpulseBlock p).1.physicsVehicle.wheel0 = p.1.physicsVehicle.wheel0 := by
  unfold neutralImpulseBlock; split_ifs <;> rfl

theorem neutralImpulseBlock_wl1 (p : Vehicle × TickLog) :
    (neutralImpulseBlock p).1.physicsVehicle.wheel1 = p.1.physicsVehicle.wheel1 := by
  unfold neutralImpulseBlock; split_ifs <;> rfl

theorem neutralImpulseBlock_wl2 (p : Vehicle × TickLog) :
    (neutralImpulseBlock p).1.physicsVehicle.wheel2 = p.1.physicsVehicle.wheel2 := by
  unfold neutralImpulseBlock; split_ifs <;> rfl

theorem neutralImpulseBlock_wl3 (p : Vehicle × TickLog) :
    (neutralImpulseBlock p).1.physicsVehicle.wheel3 = p.1.physicsVehicle.wheel3 := by
  unfold neutralImpulseBlock; split_ifs <;> rfl

theorem neutralImpulseBlock_ljf (p : Vehicle × TickLog) :
    (neutralImpulseBlock p).2.jumpForces = p.2.jumpForces := by
  unfold neutralImpulseBlock; split_ifs <;> rfl

theorem neutralImpulseBlock_lat (p : Vehicle × TickLog) :
    (neutralImpulseBlock p).2.aerialTorques = p.2.aerialTorques := by
  unfold neutralImpulseBlock; split_ifs <;> rfl

theorem neutralImpulseBlock_lfi (p : Vehicle × TickLog) :
    (neutralImpulseBlock p).2.flipImpulses = p.2.flipImpulses := by
  unfold neutralImpulseBlock; split_ifs <;> rfl

theorem neutralImpulseBlock_lft2 (p : Vehicle × TickLog) :
    (neutralImpulseBlock p).2.flipTorques = p.2.flipTorques := by
  unfold neutralImpulseBlock; split_ifs <;> rfl

theorem neutralImpulseBlock_lsri (p : Vehicle × TickLog) :
    (neutralImpulseBlock p).2.selfRightingImpulses = p.2.selfRightingImpulses := by
  unfold neutralImpulseBlock; split_ifs <;> rfl

theorem neutralImpulseBlock_lsst (p : Vehicle × TickLog) :
    (neutralImpulseBlock p).2.scheduledSelfRightingTorqueTimes = p.2.scheduledSelfRightingTorqueTimes := by
  unfold neutralImpulseBlock; split_ifs <;> rfl

theorem neutralImpulseBlock_lbf (p : Vehicle × TickLog) :
    (neutralImpulseBlock p).2.boostForces = p.2.boostForces := by
  unfold neutralImpulseBlock; split_ifs <;> rfl

theorem flipIf_imw (p : Vehicle × TickLog) (c : Prop) [Decidable c] (i t : Vec3) (now : ℤ) :
    (flipIf p c i t now).1.inputMap.w = p.1.inputMap.w := by
  unfold flipIf; split_ifs <;> rfl

theorem flipIf_ims (p : Vehicle × TickLog) (c : Prop) [Decidable c] (i t : Vec3) (now : ℤ) :
    (flipIf p c i t now).1.inputMap.s = p.1.inputMap.s := by
  unfold flipIf; split_ifs <;> rfl

theorem flipIf_ima (p : Vehicle × TickLog) (c : Prop) [Decidable c] (i t : Vec3) (now : ℤ) :
    (flipIf p c i t now).1.inputMap.a = p.1.inputMap.a := by
  unfold flipIf; split_ifs <;> rfl

theorem flipIf_imd (p : Vehicle × TickLog) (c : Prop) [Decidable c] (i t : Vec3) (now : ℤ) :
    (flipIf p c i t now).1.inputMap.d = p.1.inputMap.d := by
  unfold flipIf; split_ifs <;> rfl

theorem flipIf_imspace (p : Vehicle × TickLog) (c : Prop) [Decidable c] (i t : Vec3) (now : ℤ) :
    (flipIf p c i t now).1.inputMap.space = p.1.inputMap.space := by
  unfold flipIf; split_ifs <;> rfl

theorem flipIf_imshift (p : Vehicle × TickLog) (c : Prop) [Decidable c] (i t : Vec3) (now : ℤ) :
    (flipIf p c i t now).1.inputMap.shiftKey = p.1.inputMap.shiftKey := by
  unfold flipIf; split_ifs <;> rfl

theorem flipIf_im (p : Vehicle × TickLog) (c : Prop) [Decidable c] (i t : Vec3) (now : ℤ) :
    (flipIf p c i t now).1.inputMap = p.1.inputMap := by
  unfold flipIf; split_ifs <;> rfl

theorem flipIf_vup (p : Vehicle × TickLog) (c : Prop) [Decidable c] (i t : Vec3) (now : ℤ) :
    (flipIf p c i t now).1.up = p.1.up := by
  unfold flipIf; split_ifs <;> rfl

theorem flipIf_vright (p : Vehicle × TickLog) (c : Prop) [Decidable c] (i t : Vec3) (now : ℤ) :
    (flipIf p c i t now).1.right = p.1.right := by
  unfold flipIf; split_ifs <;> rfl

theorem flipIf_vfwd (p : Vehicle × TickLog) (c : Prop) [Decidable c] (i t : Vec3) (now : ℤ) :
    (flipIf p c i t now).1.forward = p.1.forward := by
  unfold flipIf; split_ifs <;> rfl

theorem flipIf_ljt (p : Vehicle × TickLog) (c : Prop) [Decidable c] (i t : Vec3) (now : ℤ) :
    (flipIf p c i t now).1.lastJumpTime = p.1.lastJumpTime := by
  unfold flipIf; split_ifs <;> rfl

theorem flipIf_latch (p : Vehicle × TickLog) (c : Prop) [Decidable c] (i t : Vec3) (now : ℤ) :
    (flipIf p c i t now).1.hasStoppedJumping = p.1.hasStoppedJumping := by
  unfold flipIf; split_ifs <;> rfl

theorem flipIf_used (p : Vehicle × TickLog) (c : Prop) [Decidable c] (i t : Vec3) (now : ℤ) :
    (flipIf p c i t now).1.hasUsedDoubleJump = p.1.hasUsedDoubleJump := by
  unfold flipIf; split_ifs <;> rfl

theorem flipIf_selfr (p : Vehicle × TickLog) (c : Prop) [Decidable c] (i t : Vec3) (now : ℤ) :
    (flipIf p c i t now).1.isSelfRighting = p.1.isSelfRighting := by
  unfold flipIf; split_ifs <;> rfl

theorem flipIf_isj (p : Vehicle × TickLog) (c : Prop) [Decidable c] (i t : Vec3) (now : ℤ) :
    (flipIf p c i t now).1.isJumping = p.1.isJumping := by
  unfold flipIf; split_ifs <;> rfl

theorem flipIf_numw (p : Vehicle × TickLog) (c : Prop) [Decidable c] (i t : Vec3) (now : ℤ) :
    (flipIf p c i t now).1.physicsVehicle.numWheelsOnGround = p.1.physicsVehicle.numWheelsOnGround := by
  unfold flipIf; split_ifs <;> rfl

theorem flipIf_bpos (p : Vehicle × TickLog) (c : Prop) [Decidable c] (i t : Vec3) (now : ℤ) :
    (flipIf p c i t now).1.physicsVehicle.chassisBody.position = p.1.physicsVehicle.chassisBody.position := by
  unfold flipIf; split_ifs <;> rfl

theorem flipIf_bang (p : Vehicle × TickLog) (c : Prop) [Decidable c] (i t : Vec3) (now : ℤ) :
    (flipIf p c i t now).1.physicsVehicle.chassisBody.angularVelocity = p.1.physicsVehicle.chassisBody.angularVelocity := by
  unfold flipIf; split_ifs <;> rfl

theorem flipIf_bforce (p : Vehicle × TickLog) (c : Prop) [Decidable c] (i t : Vec3) (now : ℤ) :
    (flipIf p c i t now).1.physicsVehicle.chassisBody.force = p.1.physicsVehicle.chassisBody.force := by
  unfold flipIf; split_ifs <;> rfl

theorem flipIf_e0 (p : Vehicle × TickLog) (c : Prop) [Decidable c] (i t : Vec3) (now : ℤ) :
    (flipIf p c i t now).1.physicsVehicle.wheel0.engineForce = p.1.physicsVehicle.wheel0.engineForce := by
  unfold flipIf; split_ifs <;> rfl

theorem flipIf_e1 (p : Vehicle × TickLog) (c : Prop) [Decidable c] (i t : Vec3) (now : ℤ) :
    (flipIf p c i t now).1.physicsVehicle.wheel1.engineForce = p.1.physicsVehicle.wheel1.engineForce := by
  unfold flipIf; split_ifs <;> rfl

theorem flipIf_e2 (p : Vehicle × TickLog) (c : Prop) [Decidable c] (i t : Vec3) (now : ℤ) :
    (flipIf p c i t now).1.physicsVehicle.wheel2.engineForce = p.1.physicsVehicle.wheel2.engineForce := by
  unfold flipIf; split_ifs <;> rfl

theorem flipIf_e3 (p : Vehicle × TickLog) (c : Prop) [Decidable c] (i t : Vec3) (now : ℤ) :
    (flipIf p c i t now).1.physicsVehicle.wheel3.engineForce = p.1.physicsVehicle.wheel3.engineForce := by
  unfold flipIf; split_ifs <;> rfl

theorem flipIf_st0 (p : Vehicle × TickLog) (c : Prop) [Decidable c] (i t : Vec3) (now : ℤ) :
    (flipIf p c i t now).1.physicsVehicle.wheel0.steering = p.1.physicsVehicle.wheel0.steering := by
  unfold flipIf; split_ifs <;> rfl

theorem flipIf_st1 (p : Vehicle × TickLog) (c : Prop) [Decidable c] (i t : Vec3) (now : ℤ) :
    (flipIf p c i t now).1.physicsVehicle.wheel1.steering = p.1.physicsVehicle.wheel1.steering := by
  unfold flipIf; split_ifs <;> rfl

theorem flipIf_wl0 (p : Vehicle × TickLog) (c : Prop) [Decidable c] (i t : Vec3) (now : ℤ) :
    (flipIf p c i t now).1.physicsVehicle.wheel0 = p.1.physicsVehicle.wheel0 := by
  unfold flipIf; split_ifs <;> rfl

theorem flipIf_wl1 (p : Vehicle × TickLog) (c : Prop) [Decidable c] (i t : Vec3) (now : ℤ) :
    (flipIf p c i t now).1.physicsVehicle.wheel1 = p.1.physicsVehicle.wheel1 := by
  unfold flipIf; split_ifs <;> rfl

theorem flipIf_wl2 (p : Vehicle × TickLog) (c : Prop) [Decidable c] (i t : Vec3) (now : ℤ) :
    (flipIf p c i t now).1.physicsVehicle.wheel2 = p.1.physicsVehicle.wheel2 := by
  unfold flipIf; split_ifs <;> rfl

theorem flipIf_wl3 (p : Vehicle × TickLog) (c : Prop) [Decidable c] (i t : Vec3) (now : ℤ) :
    (flipIf p c i t now).1.physicsVehicle.wheel3 = p.1.physicsVehicle.wheel3 := by
  unfold flipIf; split_ifs <;> rfl

theorem flipIf_ljf (p : Vehicle × TickLog) (c : Prop) [Decidable c] (i t : Vec3) (now : ℤ) :
    (flipIf p c i t now).2.jumpForces = p.2.jumpForces := by
  unfold flipIf; split_ifs <;> rfl

theorem flipIf_lat (p : Vehicle × TickLog) (c : Prop) [Decidable c] (i t : Vec3) (now : ℤ) :
    (flipIf p c i t now).2.aerialTorques = p.2.aerialTorques := by
  unfold flipIf; split_ifs <;> rfl

theorem flipIf_lnd (p : Vehicle × TickLog) (c : Prop) [Decidable c] (i t : Vec3) (now : ℤ) :
    (flipIf p c i t now).2.neutralDoubleJumpImpulses = p.2.neutralDoubleJumpImpulses := by
  unfold flipIf; split_ifs <;> rfl

theorem flipIf_lsri (p : Vehicle × TickLog) (c : Prop) [Decidable c] (i t : Vec3) (now : ℤ) :
    (flipIf p c i t now).2.selfRightingImpulses = p.2.selfRightingImpulses := by
  unfold flipIf; split_ifs <;> rfl

theorem flipIf_lsst (p : Vehicle × TickLog) (c : Prop) [Decidable c] (i t : Vec3) (now : ℤ) :
    (flipIf p c i t now).2.scheduledSelfRightingTorqueTimes = p.2.scheduledSelfRightingTorqueTimes := by
  unfold flipIf; split_ifs <;> rfl

theorem flipIf_lbf (p : Vehicle × TickLog) (c : Prop) [Decidable c] (i t : Vec3) (now : ℤ) :
    (flipIf p c i t now).2.boostForces = p.2.boostForces := by
  unfold flipIf; split_ifs <;> rfl

theorem selfRightTriggerBlock_imw (v : Vehicle) (log : TickLog) (st : Bool) (now : ℤ) :
    (selfRightTriggerBlock v log st now).1.inputMap.w = v.inputMap.w := by
  unfold selfRightTriggerBlock; split_ifs <;> rfl

theorem selfRightTriggerBlock_ims (v : Vehicle) (log : TickLog) (st : Bool) (now : ℤ) :
    (selfRightTriggerBlock v log st now).1.inputMap.s = v.inputMap.s := by
  unfold selfRightTriggerBlock; split_ifs <;> rfl

theorem selfRightTriggerBlock_ima (v : Vehicle) (log : TickLog) (st : Bool) (now : ℤ) :
    (selfRightTriggerBlock v log st now).1.inputMap.a = v.inputMap.a := by
  unfold selfRightTriggerBlock; split_ifs <;> rfl

theorem selfRightTriggerBlock_imd (v : Vehicle) (log : TickLog) (st : Bool) (now : ℤ) :
    (selfRightTriggerBlock v log st now).1.inputMap.d = v.inputMap.d := by
  unfold selfRightTriggerBlock; split_ifs <;> rfl

theorem selfRightTriggerBlock_imspace (v : Vehicle) (log : TickLog) (st : Bool) (now : ℤ) :
    (selfRightTriggerBlock v log st now).1.inputMap.space = v.inputMap.space := by
  unfold selfRightTriggerBlock; split_ifs <;> rfl

theorem selfRightTriggerBlock_imshift (v : Vehicle) (log : TickLog) (st : Bool) (now : ℤ) :
    (selfRightTriggerBlock v log st now).1.inputMap.shiftKey = v.inputMap.shiftKey := by
  unfold selfRightTriggerBlock; split_ifs <;> rfl

theorem selfRightTriggerBlock_im (v : Vehicle) (log : TickLog) (st : Bool) (now : ℤ) :
    (selfRightTriggerBlock v log st now).1.inputMap = v.inputMap := by
  unfold selfRightTriggerBlock; split_ifs <;> rfl

theorem selfRightTriggerBlock_vup (v : Vehicle) (log : TickLog) (st : Bool) (now : ℤ) :
    (selfRightTriggerBlock v log st now).1.up = v.up := by
  unfold selfRightTriggerBlock; split_ifs <;> rfl

theorem selfRightTriggerBlock_vright (v : Vehicle) (log : TickLog) (st : Bool) (now : ℤ) :
    (selfRightTriggerBlock v log st now).1.right = v.right := by
  unfold selfRightTriggerBlock; split_ifs <;> rfl

theorem selfRightTriggerBlock_vfwd (v : Vehicle) (log : TickLog) (st : Bool) (now : ℤ) :
    (selfRightTriggerBlock v log st now).1.forward = v.forward := by
  unfold selfRightTriggerBlock; split_ifs <;> rfl

theorem selfRightTriggerBlock_lft (v : Vehicle) (log : TickLog) (st : Bool) (now : ℤ) :
    (selfRightTriggerBlock v log st now).1.lastFlipTime = v.lastFlipTime := by
  unfold selfRightTriggerBlock; split_ifs <;> rfl

theorem selfRightTriggerBlock_latch (v : Vehicle) (log : TickLog) (st : Bool) (now : ℤ) :
    (selfRightTriggerBlock v log st now).1.hasStoppedJumping = v.hasStoppedJumping := by
  unfold selfRightTriggerBlock; split_ifs <;> rfl

theorem selfRightTriggerBlock_used (v : Vehicle) (log : TickLog) (st : Bool) (now : ℤ) :
    (selfRightTriggerBlock v log st now).1.hasUsedDoubleJump = v.hasUsedDoubleJump := by
  unfold selfRightTriggerBlock; split_ifs <;> rfl

theorem selfRightTriggerBlock_isj (v : Vehicle) (log : TickLog) (st : Bool) (now : ℤ) :
    (selfRightTriggerBlock v log st now).1.isJumping = v.isJumping := by
  unfold selfRightTriggerBlock; split_ifs <;> rfl

theorem selfRightTriggerBlock_numw (v : Vehicle) (log : TickLog) (st : Bool) (now : ℤ) :
    (selfRightTriggerBlock v log st now).1.physicsVehicle.numWheelsOnGround = v.physicsVehicle.numWheelsOnGround := by
  unfold selfRightTriggerBlock; split_ifs <;> rfl

theorem selfRightTriggerBlock_bpos (v : Vehicle) (log : TickLog) (st : Bool) (now : ℤ) :
    (selfRightTriggerBlock v log st now).1.physicsVehicle.chassisBody.position = v.physicsVehicle.chassisBody.position := by
  unfold selfRightTriggerBlock; split_ifs <;> rfl

theorem selfRightTriggerBlock_bang (v : Vehicle) (log : TickLog) (st : Bool) (now : ℤ) :
    (selfRightTriggerBlock v log st now).1.physicsVehicle.chassisBody.angularVelocity = v.physicsVehicle.chassisBody.angularVelocity := by
  unfold selfRightTriggerBlock; split_ifs <;> rfl

theorem selfRightTriggerBlock_bforce (v : Vehicle) (log : TickLog) (st : Bool) (now : ℤ) :
    (selfRightTriggerBlock v log st now).1.physicsVehicle.chassisBody.force = v.physicsVehicle.chassisBody.force := by
  unfold selfRightTriggerBlock; split_ifs <;> rfl

theorem selfRightTriggerBlock_btorque (v : Vehicle) (log : TickLog) (st : Bool) (now : ℤ) :
    (selfRightTriggerBlock v log st now).1.physicsVehicle.chassisBody.torque = v.physicsVehicle.chassisBody.torque := by
  unfold selfRightTriggerBlock; split_ifs <;> rfl

theorem selfRightTriggerBlock_e0 (v : Vehicle) (log : TickLog) (st : Bool) (now : ℤ) :
    (selfRightTriggerBlock v log st now).1.physicsVehicle.wheel0.engineForce = v.physicsVehicle.wheel0.engineForce := by
  unfold selfRightTriggerBlock; split_ifs <;> rfl

theorem selfRightTriggerBlock_e1 (v : Vehicle) (log : TickLog) (st : Bool) (now : ℤ) :
    (selfRightTriggerBlock v log st now).1.physicsVehicle.wheel1.engineForce = v.physicsVehicle.wheel1.engineForce := by
  unfold selfRightTriggerBlock; split_ifs <;> rfl

theorem selfRightTriggerBlock_e2 (v : Vehicle) (log : TickLog) (st : Bool) (now : ℤ) :
    (selfRightTriggerBlock v log st now).1.physicsVehicle.wheel2.engineForce = v.physicsVehicle.wheel2.engineForce := by
  unfold selfRightTriggerBlock; split_ifs <;> rfl

theorem selfRightTriggerBlock_e3 (v : Vehicle) (log : TickLog) (st : Bool) (now : ℤ) :
    (selfRightTriggerBlock v log st now).1.physicsVehicle.wheel3.engineForce = v.physicsVehicle.wheel3.engineForce := by
  unfold selfRightTriggerBlock; split_ifs <;> rfl

theorem selfRightTriggerBlock_st0 (v : Vehicle) (log : TickLog) (st : Bool) (now : ℤ) :
    (selfRightTriggerBlock v log st now).1.physicsVehicle.wheel0.steering = v.physicsVehicle.wheel0.steering := by
  unfold selfRightTriggerBlock; split_ifs <;> rfl

theorem selfRightTriggerBlock_st1 (v : Vehicle) (log : TickLog) (st : Bool) (now : ℤ) :
    (selfRightTriggerBlock v log st now).1.physicsVehicle.wheel1.steering = v.physicsVehicle.wheel1.steering := by
  unfold selfRightTriggerBlock; split_ifs <;> rfl

theorem selfRightTriggerBlock_wl0 (v : Vehicle) (log : TickLog) (st : Bool) (now : ℤ) :
    (selfRightTriggerBlock v log st now).1.physicsVehicle.wheel0 = v.physicsVehicle.wheel0 := by
  unfold selfRightTriggerBlock; split_ifs <;> rfl

theorem selfRightTriggerBlock_wl1 (v : Vehicle) (log : TickLog) (st : Bool) (now : ℤ) :
    (selfRightTriggerBlock v log st now).1.physicsVehicle.wheel1 = v.physicsVehicle.wheel1 := by
  unfold selfRightTriggerBlock; split_ifs <;> rfl

theorem selfRightTriggerBlock_wl2 (v : Vehicle) (log : TickLog) (st : Bool) (now : ℤ) :
    (selfRightTriggerBlock v log st now).1.physicsVehicle.wheel2 = v.physicsVehicle.wheel2 := by
  unfold selfRightTriggerBlock; split_ifs <;> rfl

theorem selfRightTriggerBlock_wl3 (v : Vehicle) (log : TickLog) (st : Bool) (now : ℤ) :
    (selfRightTriggerBlock v log st now).1.physicsVehicle.wheel3 = v.physicsVehicle.wheel3 := by
  unfold selfRightTriggerBlock; split_ifs <;> rfl

theorem selfRightTriggerBlock_ljf (v : Vehicle) (log : TickLog) (st : Bool) (now : ℤ) :
    (selfRightTriggerBlock v log st now).2.jumpForces = log.jumpForces := by
  unfold selfRightTriggerBlock; split_ifs <;> rfl

theorem selfRightTriggerBlock_lat (v : Vehicle) (log : TickLog) (st : Bool) (now : ℤ) :
    (selfRightTriggerBlock v log st now).2.aerialTorques = log.aerialTorques := by
  unfold selfRightTriggerBlock; split_ifs <;> rfl

theorem selfRightTriggerBlock_lnd (v : Vehicle) (log : TickLog) (st : Bool) (now : ℤ) :
    (selfRightTriggerBlock v log st now).2.neutralDoubleJumpImpulses = log.neutralDoubleJumpImpulses := by
  unfold selfRightTriggerBlock; split_ifs <;> rfl

theorem selfRightTriggerBlock_lfi (v : Vehicle) (log : TickLog) (st : Bool) (now : ℤ) :
    (selfRightTriggerBlock v log st now).2.flipImpulses = log.flipImpulses := by
  unfold selfRightTriggerBlock; split_ifs <;> rfl

theorem selfRightTriggerBlock_lft2 (v : Vehicle) (log : TickLog) (st : Bool) (now : ℤ) :
    (selfRightTriggerBlock v log st now).2.flipTorques = log.flipTorques := by
  unfold selfRightTriggerBlock; split_ifs <;> rfl

theorem selfRightTriggerBlock_lbf (v : Vehicle) (log : TickLog) (st : Bool) (now : ℤ) :
    (selfRightTriggerBlock v log st now).2.boostForces = log.boostForces := by
  unfold selfRightTriggerBlock; split_ifs <;> rfl

theorem boostStep_imw (v : Vehicle) (log : TickLog) :
    (boostStep v log).1.inputMap.w = v.inputMap.w := by
  unfold boostStep; split_ifs <;> rfl

theorem boostStep_ims (v : Vehicle) (log : TickLog) :
    (boostStep v log).1.inputMap.s = v.inputMap.s := by
  unfold boostStep; split_ifs <;> rfl

theorem boostStep_ima (v : Vehicle) (log : TickLog) :
    (boostStep v log).1.inputMap.a = v.inputMap.a := by
  unfold boostStep; split_ifs <;> rfl

theorem boostStep_imd (v : Vehicle) (log : TickLog) :
    (boostStep v log).1.inputMap.d = v.inputMap.d := by
  unfold boostStep; split_ifs <;> rfl

theorem boostStep_imspace (v : Vehicle) (log : TickLog) :
    (boostStep v log).1.inputMap.space = v.inputMap.space := by
  unfold boostStep; split_ifs <;> rfl

theorem boostStep_imshift (v : Vehicle) (log : TickLog) :
    (boostStep v log).1.inputMap.shiftKey = v.inputMap.shiftKey := by
  unfold boostStep; split_ifs <;> rfl

theorem boostStep_im (v : Vehicle) (log : TickLog) :
    (boostStep v log).1.inputMap = v.inputMap := by
  unfold boostStep; split_ifs <;> rfl

theorem boostStep_vup (v : Vehicle) (log : TickLog) :
    (boostStep v log).1.up = v.up := by
  unfold boostStep; split_ifs <;> rfl

theorem boostStep_vright (v : Vehicle) (log : TickLog) :
    (boostStep v log).1.right = v.right := by
  unfold boostStep; split_ifs <;> rfl

theorem boostStep_vfwd (v : Vehicle) (log : TickLog) :
    (boostStep v log).1.forward = v.forward := by
  unfold boostStep; split_ifs <;> rfl

theorem boostStep_ljt (v : Vehicle) (log : TickLog) :
    (boostStep v log).1.lastJumpTime = v.lastJumpTime := by
  unfold boostStep; split_ifs <;> rfl

theorem boostStep_lft (v : Vehicle) (log : TickLog) :
    (boostStep v log).1.lastFlipTime = v.lastFlipTime := by
  unfold boostStep; split_ifs <;> rfl

theorem boostStep_latch (v : Vehicle) (log : TickLog) :
    (boostStep v log).1.hasStoppedJumping = v.hasStoppedJumping := by
  unfold boostStep; split_ifs <;> rfl

theorem boostStep_used (v : Vehicle) (log : TickLog) :
    (boostStep v log).1.hasUsedDoubleJump = v.hasUsedDoubleJump := by
  unfold boostStep; split_ifs <;> rfl

theorem boostStep_selfr (v : Vehicle) (log : TickLog) :
    (boostStep v log).1.isSelfRighting = v.isSelfRighting := by
  unfold boostStep; split_ifs <;> rfl

theorem boostStep_isj (v : Vehicle) (log : TickLog) :
    (boostStep v log).1.isJumping = v.isJumping := by
  unfold boostStep; split_ifs <;> rfl

theorem boostStep_numw (v : Vehicle) (log : TickLog) :
    (boostStep v log).1.physicsVehicle.numWheelsOnGround = v.physicsVehicle.numWheelsOnGround := by
  unfold boostStep; split_ifs <;> rfl

theorem boostStep_bpos (v : Vehicle) (log : TickLog) :
    (boostStep v log).1.physicsVehicle.chassisBody.position = v.physicsVehicle.chassisBody.position := by
  unfold boostStep; split_ifs <;> rfl

theorem boostStep_bvel (v : Vehicle) (log : TickLog) :
    (boostStep v log).1.physicsVehicle.chassisBody.velocity = v.physicsVehicle.chassisBody.velocity := by
  unfold boostStep; split_ifs <;> rfl

theorem boostStep_bang (v : Vehicle) (log : TickLog) :
    (boostStep v log).1.physicsVehicle.chassisBody.angularVelocity = v.physicsVehicle.chassisBody.angularVelocity := by
  unfold boostStep; split_ifs <;> rfl

theorem boostStep_btorque (v : Vehicle) (log : TickLog) :
    (boostStep v log).1.physicsVehicle.chassisBody.torque = v.physicsVehicle.chassisBody.torque := by
  unfold boostStep; split_ifs <;> rfl

theorem boostStep_e0 (v : Vehicle) (log : TickLog) :
    (boostStep v log).1.physicsVehicle.wheel0.engineForce = v.physicsVehicle.wheel0.engineForce := by
  unfold boostStep; split_ifs <;> rfl

theorem boostStep_e1 (v : Vehicle) (log : TickLog) :
    (boostStep v log).1.physicsVehicle.wheel1.engineForce = v.physicsVehicle.wheel1.engineForce := by
  unfold boostStep; split_ifs <;> rfl

theorem boostStep_e2 (v : Vehicle) (log : TickLog) :
    (boostStep v log).1.physicsVehicle.wheel2.engineForce = v.physicsVehicle.wheel2.engineForce := by
  unfold boostStep; split_ifs <;> rfl

theorem boostStep_e3 (v : Vehicle) (log : TickLog) :
    (boostStep v log).1.physicsVehicle.wheel3.engineForce = v.physicsVehicle.wheel3.engineForce := by
  unfold boostStep; split_ifs <;> rfl

theorem boostStep_st0 (v : Vehicle) (log : TickLog) :
    (boostStep v log).1.physicsVehicle.wheel0.steering = v.physicsVehicle.wheel0.steering := by
  unfold boostStep; split_ifs <;> rfl

theorem boostStep_st1 (v : Vehicle) (log : TickLog) :
    (boostStep v log).1.physicsVehicle.wheel1.steering = v.physicsVehicle.wheel1.steering := by
  unfold boostStep; split_ifs <;> rfl

theorem boostStep_wl0 (v : Vehicle) (log : TickLog) :
    (boostStep v log).1.physicsVehicle.wheel0 = v.physicsVehicle.wheel0 := by
  unfold boostStep; split_ifs <;> rfl

theorem boostStep_wl1 (v : Vehicle) (log : TickLog) :
    (boostStep v log).1.physicsVehicle.wheel1 = v.physicsVehicle.wheel1 := by
  unfold boostStep; split_ifs <;> rfl

theorem boostStep_wl2 (v : Vehicle) (log : TickLog) :
    (boostStep v log).1.physicsVehicle.wheel2 = v.physicsVehicle.wheel2 := by
  unfold boostStep; split_ifs <;> rfl

theorem boostStep_wl3 (v : Vehicle) (log : TickLog) :
    (boostStep v log).1.physicsVehicle.wheel3 = v.physicsVehicle.wheel3 := by
  unfold boostStep; split_ifs <;> rfl

theorem boostStep_ljf (v : Vehicle) (log : TickLog) :
    (boostStep v log).2.jumpForces = log.jumpForces := by
  unfold boostStep; split_ifs <;> rfl

theorem boostStep_lat (v : Vehicle) (log : TickLog) :
    (boostStep v log).2.aerialTorques = log.aerialTorques := by
  unfold boostStep; split_ifs <;> rfl

theorem boostStep_lnd (v : Vehicle) (log : TickLog) :
    (boostStep v log).2.neutralDoubleJumpImpulses = log.neutralDoubleJumpImpulses := by
  unfold boostStep; split_ifs <;> rfl

theorem boostStep_lfi (v : Vehicle) (log : TickLog) :
    (boostStep v log).2.flipImpulses = log.flipImpulses := by
  unfold boostStep; split_ifs <;> rfl

theorem boostStep_lft2 (v : Vehicle) (log : TickLog) :
    (boostStep v log).2.flipTorques = log.flipTorques := by
  unfold boostStep; split_ifs <;> rfl

theorem boostStep_lsri (v : Vehicle) (log : TickLog) :
    (boostStep v log).2.selfRightingImpulses = log.selfRightingImpulses := by
  unfold boostStep; split_ifs <;> rfl

theorem boostStep_lsst (v : Vehicle) (log : TickLog) :
    (boostStep v log).2.scheduledSelfRightingTorqueTimes = log.scheduledSelfRightingTorqueTimes := by
  unfold boostStep; split_ifs <;> rfl

theorem limitAngularBlock_bbpos (sq : ℚ → ℚ) (b : Body) :
    (limitAngularBlock sq b).position = b.position := by
  unfold limitAngularBlock; split_ifs <;> rfl

theorem limitAngularBlock_bbvel (sq : ℚ → ℚ) (b : Body) :
    (limitAngularBlock sq b).velocity = b.velocity := by
  unfold limitAngularBlock; split_ifs <;> rfl

theorem limitAngularBlock_bbforce (sq : ℚ → ℚ) (b : Body) :
    (limitAngularBlock sq b).force = b.force := by
  unfold limitAngularBlock; split_ifs <;> rfl

theorem limitAngularBlock_bbtorque (sq : ℚ → ℚ) (b : Body) :
    (limitAngularBlock sq b).torque = b.torque := by
  unfold limitAngularBlock; split_ifs <;> rfl

theorem limitAngularBlock_bbquat (sq : ℚ → ℚ) (b : Body) :
    (limitAngularBlock sq b).quaternion = b.quaternion := by
  unfold limitAngularBlock; split_ifs <;> rfl

theorem limitLinearBlock_bbpos (sq : ℚ → ℚ) (b : Body) :
    (limitLinearBlock sq b).position = b.position := by
  unfold limitLinearBlock; split_ifs <;> rfl

theorem limitLinearBlock_bbforce (sq : ℚ → ℚ) (b : Body) :
    (limitLinearBlock sq b).force = b.force := by
  unfold limitLinearBlock; split_ifs <;> rfl

theorem limitLinearBlock_bbtorque (sq : ℚ → ℚ) (b : Body) :
    (limitLinearBlock sq b).torque = b.torque := by
  unfold limitLinearBlock; split_ifs <;> rfl

theorem limitLinearBlock_bbquat (sq : ℚ → ℚ) (b : Body) :
    (limitLinearBlock sq b).quaternion = b.quaternion := by
  unfold limitLinearBlock; split_ifs <;> rfl

/-! Composition of the block preservation lemmas to the step level. -/

theorem accelStep_ima (v : Vehicle) :
    (accelStep v).inputMap.a = v.inputMap.a := by
  simp only [accelStep, accelDriveBlock_ima, accelWKeyupBlock_ima, accelSKeyupBlock_ima]

theorem accelStep_imd (v : Vehicle) :
    (accelStep v).inputMap.d = v.inputMap.d := by
  simp only [accelStep, accelDriveBlock_imd, accelWKeyupBlock_imd, accelSKeyupBlock_imd]

theorem accelStep_imspace (v : Vehicle) :
    (accelStep v).inputMap.space = v.inputMap.space := by
  simp only [accelStep, accelDriveBlock_imspace, accelWKeyupBlock_imspace, accelSKeyupBlock_imspace]

theorem accelStep_imshift (v : Vehicle) :
    (accelStep v).inputMap.shiftKey = v.inputMap.shiftKey := by
  simp only [accelStep, accelDriveBlock_imshift, accelWKeyupBlock_imshift, accelSKeyupBlock_imshift]

theorem accelStep_vup (v : Vehicle) :
    (accelStep v).up = v.up := by
  simp only [accelStep, accelDriveBlock_vup, accelWKeyupBlock_vup, accelSKeyupBlock_vup]

theorem accelStep_vright (v : Vehicle) :
    (accelStep v).right = v.right := by
  simp only [accelStep, accelDriveBlock_vright, accelWKeyupBlock_vright, accelSKeyupBlock_vright]

theorem accelStep_vfwd (v : Vehicle) :
    (accelStep v).forward = v.forward := by
  simp only [accelStep, accelDriveBlock_vfwd, accelWKeyupBlock_vfwd, accelSKeyupBlock_vfwd]

theorem accelStep_ljt (v : Vehicle) :
    (accelStep v).lastJumpTime = v.lastJumpTime := by
  simp only [accelStep, accelDriveBlock_ljt, accelWKeyupBlock_ljt, accelSKeyupBlock_ljt]

theorem accelStep_lft (v : Vehicle) :
    (accelStep v).lastFlipTime = v.lastFlipTime := by
  simp only [accelStep, accelDriveBlock_lft, accelWKeyupBlock_lft, accelSKeyupBlock_lft]

theorem accelStep_latch (v : Vehicle) :
    (accelStep v).hasStoppedJumping = v.hasStoppedJumping := by
  simp only [accelStep, accelDriveBlock_latch, accelWKeyupBlock_latch, accelSKeyupBlock_latch]

theorem accelStep_used (v : Vehicle) :
    (accelStep v).hasUsedDoubleJump = v.hasUsedDoubleJump := by
  simp only [accelStep, accelDriveBlock_used, accelWKeyupBlock_used, accelSKeyupBlock_used]

theorem accelStep_selfr (v : Vehicle) :
    (accelStep v).isSelfRighting = v.isSelfRighting := by
  simp only [accelStep, accelDriveBlock_selfr, accelWKeyupBlock_selfr, accelSKeyupBlock_selfr]

theorem accelStep_isj (v : Vehicle) :
    (accelStep v).isJumping = v.isJumping := by
  simp only [accelStep, accelDriveBlock_isj, accelWKeyupBlock_isj, accelSKeyupBlock_isj]

theorem accelStep_numw (v : Vehicle) :
    (accelStep v).physicsVehicle.numWheelsOnGround = v.physicsVehicle.numWheelsOnGround := by
  simp only [accelStep, accelDriveBlock_numw, accelWKeyupBlock_numw, accelSKeyupBlock_numw]

theorem accelStep_bpos (v : Vehicle) :
    (accelStep v).physicsVehicle.chassisBody.position = v.physicsVehicle.chassisBody.position := by
  simp only [accelStep, accelDriveBlock_bpos, accelWKeyupBlock_bpos, accelSKeyupBlock_bpos]

theorem accelStep_bvel (v : Vehicle) :
    (accelStep v).physicsVehicle.chassisBody.velocity = v.physicsVehicle.chassisBody.velocity := by
  simp only [accelStep, accelDriveBlock_bvel, accelWKeyupBlock_bvel, accelSKeyupBlock_bvel]

theorem accelStep_bang (v : Vehicle) :
    (accelStep v).physicsVehicle.chassisBody.angularVelocity = v.physicsVehicle.chassisBody.angularVelocity := by
  simp only [accelStep, accelDriveBlock_bang, accelWKeyupBlock_bang, accelSKeyupBlock_bang]

theorem accelStep_bforce (v : Vehicle) :
    (accelStep v).physicsVehicle.chassisBody.force = v.physicsVehicle.chassisBody.force := by
  simp only [accelStep, accelDriveBlock_bforce, accelWKeyupBlock_bforce, accelSKeyupBlock_bforce]

theorem accelStep_btorque (v : Vehicle) :
    (accelStep v).physicsVehicle.chassisBody.torque = v.physicsVehicle.chassisBody.torque := by
  simp only [accelStep, accelDriveBlock_btorque, accelWKeyupBlock_btorque, accelSKeyupBlock_btorque]

theorem accelStep_st0 (v : Vehicle) :
    (accelStep v).physicsVehicle.wheel0.steering = v.physicsVehicle.wheel0.steering := by
  simp only [accelStep, accelDriveBlock_st0, accelWKeyupBlock_st0, accelSKeyupBlock_st0]

theorem accelStep_st1 (v : Vehicle) :
    (accelStep v).physicsVehicle.wheel1.steering = v.physicsVehicle.wheel1.steering := by
  simp only [accelStep, accelDriveBlock_st1, accelWKeyupBlock_st1, accelSKeyupBlock_st1]

theorem steerStep_imw (v : Vehicle) :
    (steerStep v).inputMap.w = v.inputMap.w := by
  simp only [steerStep, steerBlock_imw, steerAKeyupBlock_imw, steerDKeyupBlock_imw]

theorem steerStep_ims (v : Vehicle) :
    (steerStep v).inputMap.s = v.inputMap.s := by
  simp only [steerStep, steerBlock_ims, steerAKeyupBlock_ims, steerDKeyupBlock_ims]

theorem steerStep_imspace (v : Vehicle) :
    (steerStep v).inputMap.space = v.inputMap.space := by
  simp only [steerStep, steerBlock_imspace, steerAKeyupBlock_imspace, steerDKeyupBlock_imspace]

theorem steerStep_imshift (v : Vehicle) :
    (steerStep v).inputMap.shiftKey = v.inputMap.shiftKey := by
  simp only [steerStep, steerBlock_imshift, steerAKeyupBlock_imshift, steerDKeyupBlock_imshift]

theorem steerStep_vup (v : Vehicle) :
    (steerStep v).up = v.up := by
  simp only [steerStep, steerBlock_vup, steerAKeyupBlock_vup, steerDKeyupBlock_vup]

theorem steerStep_vright (v : Vehicle) :
    (steerStep v).right = v.right := by
  simp only [steerStep, steerBlock_vright, steerAKeyupBlock_vright, steerDKeyupBlock_vright]

theorem steerStep_vfwd (v : Vehicle) :
    (steerStep v).forward = v.forward := by
  simp only [steerStep, steerBlock_vfwd, steerAKeyupBlock_vfwd, steerDKeyupBlock_vfwd]

theorem steerStep_ljt (v : Vehicle) :
    (steerStep v).lastJumpTime = v.lastJumpTime := by
  simp only [steerStep, steerBlock_ljt, steerAKeyupBlock_ljt, steerDKeyupBlock_ljt]

theorem steerStep_lft (v : Vehicle) :
    (steerStep v).lastFlipTime = v.lastFlipTime := by
  simp only [steerStep, steerBlock_lft, steerAKeyupBlock_lft, steerDKeyupBlock_lft]

theorem steerStep_latch (v : Vehicle) :
    (steerStep v).hasStoppedJumping = v.hasStoppedJumping := by
  simp only [steerStep, steerBlock_latch, steerAKeyupBlock_latch, steerDKeyupBlock_latch]

theorem steerStep_used (v : Vehicle) :
    (steerStep v).hasUsedDoubleJump = v.hasUsedDoubleJump := by
  simp only [steerStep, steerBlock_used, steerAKeyupBlock_used, steerDKeyupBlock_used]

theorem steerStep_selfr (v : Vehicle) :
    (steerStep v).isSelfRighting = v.isSelfRighting := by
  simp only [steerStep, steerBlock_selfr, steerAKeyupBlock_selfr, steerDKeyupBlock_selfr]

theorem steerStep_isj (v : Vehicle) :
    (steerStep v).isJumping = v.isJumping := by
  simp only [steerStep, steerBlock_isj, steerAKeyupBlock_isj, steerDKeyupBlock_isj]

theorem steerStep_numw (v : Vehicle) :
    (steerStep v).physicsVehicle.numWheelsOnGround = v.physicsVehicle.numWheelsOnGround := by
  simp only [steerStep, steerBlock_numw, steerAKeyupBlock_numw, steerDKeyupBlock_numw]

theorem steerStep_bpos (v : Vehicle) :
    (steerStep v).physicsVehicle.chassisBody.position = v.physicsVehicle.chassisBody.position := by
  simp only [steerStep, steerBlock_bpos, steerAKeyupBlock_bpos, steerDKeyupBlock_bpos]

theorem steerStep_bvel (v : Vehicle) :
    (steerStep v).physicsVehicle.chassisBody.velocity = v.physicsVehicle.chassisBody.velocity := by
  simp only [steerStep, steerBlock_bvel, steerAKeyupBlock_bvel, steerDKeyupBlock_bvel]

theorem steerStep_bang (v : Vehicle) :
    (steerStep v).physicsVehicle.chassisBody.angularVelocity = v.physicsVehicle.chassisBody.angularVelocity := by
  simp only [steerStep, steerBlock_bang, steerAKeyupBlock_bang, steerDKeyupBlock_bang]

theorem steerStep_bforce (v : Vehicle) :
    (steerStep v).physicsVehicle.chassisBody.force = v.physicsVehicle.chassisBody.force := by
  simp only [steerStep, steerBlock_bforce, steerAKeyupBlock_bforce, steerDKeyupBlock_bforce]

theorem steerStep_btorque (v : Vehicle) :
    (steerStep v).physicsVehicle.chassisBody.torque = v.physicsVehicle.chassisBody.torque := by
  simp only [steerStep, steerBlock_btorque, steerAKeyupBlock_btorque, steerDKeyupBlock_btorque]

theorem steerStep_e0 (v : Vehicle) :
    (steerStep v).physicsVehicle.wheel0.engineForce = v.physicsVehicle.wheel0.engineForce := by
  simp only [steerStep, steerBlock_e0, steerAKeyupBlock_e0, steerDKeyupBlock_e0]

theorem steerStep_e1 (v : Vehicle) :
    (steerStep v).physicsVehicle.wheel1.engineForce = v.physicsVehicle.wheel1.engineForce := by
  simp only [steerStep, steerBlock_e1, steerAKeyupBlock_e1, steerDKeyupBlock_e1]

theorem steerStep_e2 (v : Vehicle) :
    (steerStep v).physicsVehicle.wheel2.engineForce = v.physicsVehicle.wheel2.engineForce := by
  simp only [steerStep, steerBlock_e2, steerAKeyupBlock_e2, steerDKeyupBlock_e2]

theorem steerStep_e3 (v : Vehicle) :
    (steerStep v).physicsVehicle.wheel3.engineForce = v.physicsVehicle.wheel3.engineForce := by
  simp only [steerStep, steerBlock_e3, steerAKeyupBlock_e3, steerDKeyupBlock_e3]

theorem steerStep_wl2 (v : Vehicle) :
    (steerStep v).physicsVehicle.wheel2 = v.physicsVehicle.wheel2 := by
  simp only [steerStep, steerBlock_wl2, steerAKeyupBlock_wl2, steerDKeyupBlock_wl2]

theorem steerStep_wl3 (v : Vehicle) :
    (steerStep v).physicsVehicle.wheel3 = v.physicsVehicle.wheel3 := by
  simp only [steerStep, steerBlock_wl3, steerAKeyupBlock_wl3, steerDKeyupBlock_wl3]

theorem brakeStep_imw (v : Vehicle) :
    (brakeStep v).inputMap.w = v.inputMap.w := by
  simp only [brakeStep, brakeOnBlock_imw, brakeOffBlock_imw]

theorem brakeStep_ims (v : Vehicle) :
    (brakeStep v).inputMap.s = v.inputMap.s := by
  simp only [brakeStep, brakeOnBlock_ims, brakeOffBlock_ims]

theorem brakeStep_ima (v : Vehicle) :
    (brakeStep v).inputMap.a = v.inputMap.a := by
  simp only [brakeStep, brakeOnBlock_ima, brakeOffBlock_ima]

theorem brakeStep_imd (v : Vehicle) :
    (brakeStep v).inputMap.d = v.inputMap.d := by
  simp only [brakeStep, brakeOnBlock_imd, brakeOffBlock_imd]

theorem brakeStep_imspace (v : Vehicle) :
    (brakeStep v).inputMap.space = v.inputMap.space := by
  simp only [brakeStep, brakeOnBlock_imspace, brakeOffBlock_imspace]

theorem brakeStep_imshift (v : Vehicle) :
    (brakeStep v).inputMap.shiftKey = v.inputMap.shiftKey := by
  simp only [brakeStep, brakeOnBlock_imshift, brakeOffBlock_imshift]

theorem brakeStep_im (v : Vehicle) :
    (brakeStep v).inputMap = v.inputMap := by
  simp only [brakeStep, brakeOnBlock_im, brakeOffBlock_im]

theorem brakeStep_vup (v : Vehicle) :
    (brakeStep v).up = v.up := by
  simp only [brakeStep, brakeOnBlock_vup, brakeOffBlock_vup]

theorem brakeStep_vright (v : Vehicle) :
    (brakeStep v).right = v.right := by
  simp only [brakeStep, brakeOnBlock_vright, brakeOffBlock_vright]

theorem brakeStep_vfwd (v : Vehicle) :
    (brakeStep v).forward = v.forward := by
  simp only [brakeStep, brakeOnBlock_vfwd, brakeOffBlock_vfwd]

theorem brakeStep_ljt (v : Vehicle) :
    (brakeStep v).lastJumpTime = v.lastJumpTime := by
  simp only [brakeStep, brakeOnBlock_ljt, brakeOffBlock_ljt]

theorem brakeStep_lft (v : Vehicle) :
    (brakeStep v).lastFlipTime = v.lastFlipTime := by
  simp only [brakeStep, brakeOnBlock_lft, brakeOffBlock_lft]

theorem brakeStep_latch (v : Vehicle) :
    (brakeStep v).hasStoppedJumping = v.hasStoppedJumping := by
  simp only [brakeStep, brakeOnBlock_latch, brakeOffBlock_latch]

theorem brakeStep_used (v : Vehicle) :
    (brakeStep v).hasUsedDoubleJump = v.hasUsedDoubleJump := by
  simp only [brakeStep, brakeOnBlock_used, brakeOffBlock_used]

theorem brakeStep_selfr (v : Vehicle) :
    (brakeStep v).isSelfRighting = v.isSelfRighting := by
  simp only [brakeStep, brakeOnBlock_selfr, brakeOffBlock_selfr]

theorem brakeStep_isj (v : Vehicle) :
    (brakeStep v).isJumping = v.isJumping := by
  simp only [brakeStep, brakeOnBlock_isj, brakeOffBlock_isj]

theorem brakeStep_numw (v : Vehicle) :
    (brakeStep v).physicsVehicle.numWheelsOnGround = v.physicsVehicle.numWheelsOnGround := by
  simp only [brakeStep, brakeOnBlock_numw, brakeOffBlock_numw]

theorem brakeStep_bpos (v : Vehicle) :
    (brakeStep v).physicsVehicle.chassisBody.position = v.physicsVehicle.chassisBody.position := by
  simp only [brakeStep, brakeOnBlock_bpos, brakeOffBlock_bpos]

theorem brakeStep_bvel (v : Vehicle) :
    (brakeStep v).physicsVehicle.chassisBody.velocity = v.physicsVehicle.chassisBody.velocity := by
  simp only [brakeStep, brakeOnBlock_bvel, brakeOffBlock_bvel]

theorem brakeStep_bang (v : Vehicle) :
    (brakeStep v).physicsVehicle.chassisBody.angularVelocity = v.physicsVehicle.chassisBody.angularVelocity := by
  simp only [brakeStep, brakeOnBlock_bang, brakeOffBlock_bang]

theorem brakeStep_bforce (v : Vehicle) :
    (brakeStep v).physicsVehicle.chassisBody.force = v.physicsVehicle.chassisBody.force := by
  simp only [brakeStep, brakeOnBlock_bforce, brakeOffBlock_bforce]

theorem brakeStep_btorque (v : Vehicle) :
    (brakeStep v).physicsVehicle.chassisBody.torque = v.physicsVehicle.chassisBody.torque := by
  simp only [brakeStep, brakeOnBlock_btorque, brakeOffBlock_btorque]

theorem brakeStep_e0 (v : Vehicle) :
    (brakeStep v).physicsVehicle.wheel0.engineForce = v.physicsVehicle.wheel0.engineForce := by
  simp only [brakeStep, brakeOnBlock_e0, brakeOffBlock_e0]

theorem brakeStep_e1 (v : Vehicle) :
    (brakeStep v).physicsVehicle.wheel1.engineForce = v.physicsVehicle.wheel1.engineForce := by
  simp only [brakeStep, brakeOnBlock_e1, brakeOffBlock_e1]

theorem brakeStep_e2 (v : Vehicle) :
    (brakeStep v).physicsVehicle.wheel2.engineForce = v.physicsVehicle.wheel2.engineForce := by
  simp only [brakeStep, brakeOnBlock_e2, brakeOffBlock_e2]

theorem brakeStep_e3 (v : Vehicle) :
    (brakeStep v).physicsVehicle.wheel3.engineForce = v.physicsVehicle.wheel3.engineForce := by
  simp only [brakeStep, brakeOnBlock_e3, brakeOffBlock_e3]

theorem brakeStep_st0 (v : Vehicle) :
    (brakeStep v).physicsVehicle.wheel0.steering = v.physicsVehicle.wheel0.steering := by
  simp only [brakeStep, brakeOnBlock_st0, brakeOffBlock_st0]

theorem brakeStep_st1 (v : Vehicle) :
    (brakeStep v).physicsVehicle.wheel1.steering = v.physicsVehicle.wheel1.steering := by
  simp only [brakeStep, brakeOnBlock_st1, brakeOffBlock_st1]

theorem aerialStep_imw (v : Vehicle) (log : TickLog) (g : Bool) (tsf : Option ℤ) :
    (aerialStep v log g tsf).1.inputMap.w = v.inputMap.w := by
  simp only [aerialStep, aerialTorqueIf_imw]

theorem aerialStep_ims (v : Vehicle) (log : TickLog) (g : Bool) (tsf : Option ℤ) :
    (aerialStep v log g tsf).1.inputMap.s = v.inputMap.s := by
  simp only [aerialStep, aerialTorqueIf_ims]

theorem aerialStep_ima (v : Vehicle) (log : TickLog) (g : Bool) (tsf : Option ℤ) :
    (aerialStep v log g tsf).1.inputMap.a = v.inputMap.a := by
  simp only [aerialStep, aerialTorqueIf_ima]

theorem aerialStep_imd (v : Vehicle) (log : TickLog) (g : Bool) (tsf : Option ℤ) :
    (aerialStep v log g tsf).1.inputMap.d = v.inputMap.d := by
  simp only [aerialStep, aerialTorqueIf_imd]

theorem aerialStep_imspace (v : Vehicle) (log : TickLog) (g : Bool) (tsf : Option ℤ) :
    (aerialStep v log g tsf).1.inputMap.space = v.inputMap.space := by
  simp only [aerialStep, aerialTorqueIf_imspace]

theorem aerialStep_imshift (v : Vehicle) (log : TickLog) (g : Bool) (tsf : Option ℤ) :
    (aerialStep v log g tsf).1.inputMap.shiftKey = v.inputMap.shiftKey := by
  simp only [aerialStep, aerialTorqueIf_imshift]

theorem aerialStep_im (v : Vehicle) (log : TickLog) (g : Bool) (tsf : Option ℤ) :
    (aerialStep v log g tsf).1.inputMap = v.inputMap := by
  simp only [aerialStep, aerialTorqueIf_im]

theorem aerialStep_vup (v : Vehicle) (log : TickLog) (g : Bool) (tsf : Option ℤ) :
    (aerialStep v log g tsf).1.up = v.up := by
  simp only [aerialStep, aerialTorqueIf_vup]

theorem aerialStep_vright (v : Vehicle) (log : TickLog) (g : Bool) (tsf : Option ℤ) :
    (aerialStep v log g tsf).1.right = v.right := by
  simp only [aerialStep, aerialTorqueIf_vright]

theorem aerialStep_vfwd (v : Vehicle) (log : TickLog) (g : Bool) (tsf : Option ℤ) :
    (aerialStep v log g tsf).1.forward = v.forward := by
  simp only [aerialStep, aerialTorqueIf_vfwd]

theorem aerialStep_ljt (v : Vehicle) (log : TickLog) (g : Bool) (tsf : Option ℤ) :
    (aerialStep v log g tsf).1.lastJumpTime = v.lastJumpTime := by
  simp only [aerialStep, aerialTorqueIf_ljt]

theorem aerialStep_lft (v : Vehicle) (log : TickLog) (g : Bool) (tsf : Option ℤ) :
    (aerialStep v log g tsf).1.lastFlipTime = v.lastFlipTime := by
  simp only [aerialStep, aerialTorqueIf_lft]

theorem aerialStep_latch (v : Vehicle) (log : TickLog) (g : Bool) (tsf : Option ℤ) :
    (aerialStep v log g tsf).1.hasStoppedJumping = v.hasStoppedJumping := by
  simp only [aerialStep, aerialTorqueIf_latch]

theorem aerialStep_used (v : Vehicle) (log : TickLog) (g : Bool) (tsf : Option ℤ) :
    (aerialStep v log g tsf).1.hasUsedDoubleJump = v.hasUsedDoubleJump := by
  simp only [aerialStep, aerialTorqueIf_used]

theorem aerialStep_selfr (v : Vehicle) (log : TickLog) (g : Bool) (tsf : Option ℤ) :
    (aerialStep v log g tsf).1.isSelfRighting = v.isSelfRighting := by
  simp only [aerialStep, aerialTorqueIf_selfr]

theorem aerialStep_isj (v : Vehicle) (log : TickLog) (g : Bool) (tsf : Option ℤ) :
    (aerialStep v log g tsf).1.isJumping = v.isJumping := by
  simp only [aerialStep, aerialTorqueIf_isj]

theorem aerialStep_numw (v : Vehicle) (log : TickLog) (g : Bool) (tsf : Option ℤ) :
    (aerialStep v log g tsf).1.physicsVehicle.numWheelsOnGround = v.physicsVehicle.numWheelsOnGround := by
  simp only [aerialStep, aerialTorqueIf_numw]

theorem aerialStep_bpos (v : Vehicle) (log : TickLog) (g : Bool) (tsf : Option ℤ) :
    (aerialStep v log g tsf).1.physicsVehicle.chassisBody.position = v.physicsVehicle.chassisBody.position := by
  simp only [aerialStep, aerialTorqueIf_bpos]

theorem aerialStep_bvel (v : Vehicle) (log : TickLog) (g : Bool) (tsf : Option ℤ) :
    (aerialStep v log g tsf).1.physicsVehicle.chassisBody.velocity = v.physicsVehicle.chassisBody.velocity := by
  simp only [aerialStep, aerialTorqueIf_bvel]

theorem aerialStep_bang (v : Vehicle) (log : TickLog) (g : Bool) (tsf : Option ℤ) :
    (aerialStep v log g tsf).1.physicsVehicle.chassisBody.angularVelocity = v.physicsVehicle.chassisBody.angularVelocity := by
  simp only [aerialStep, aerialTorqueIf_bang]

theorem aerialStep_bforce (v : Vehicle) (log : TickLog) (g : Bool) (tsf : Option ℤ) :
    (aerialStep v log g tsf).1.physicsVehicle.chassisBody.force = v.physicsVehicle.chassisBody.force := by
  simp only [aerialStep, aerialTorqueIf_bforce]

theorem aerialStep_e0 (v : Vehicle) (log : TickLog) (g : Bool) (tsf : Option ℤ) :
    (aerialStep v log g tsf).1.physicsVehicle.wheel0.engineForce = v.physicsVehicle.wheel0.engineForce := by
  simp only [aerialStep, aerialTorqueIf_e0]

theorem aerialStep_e1 (v : Vehicle) (log : TickLog) (g : Bool) (tsf : Option ℤ) :
    (aerialStep v log g tsf).1.physicsVehicle.wheel1.engineForce = v.physicsVehicle.wheel1.engineForce := by
  simp only [aerialStep, aerialTorqueIf_e1]

theorem aerialStep_e2 (v : Vehicle) (log : TickLog) (g : Bool) (tsf : Option ℤ) :
    (aerialStep v log g tsf).1.physicsVehicle.wheel2.engineForce = v.physicsVehicle.wheel2.engineForce := by
  simp only [aerialStep, aerialTorqueIf_e2]

theorem aerialStep_e3 (v : Vehicle) (log : TickLog) (g : Bool) (tsf : Option ℤ) :
    (aerialStep v log g tsf).1.physicsVehicle.wheel3.engineForce = v.physicsVehicle.wheel3.engineForce := by
  simp only [aerialStep, aerialTorqueIf_e3]

theorem aerialStep_st0 (v : Vehicle) (log : TickLog) (g : Bool) (tsf : Option ℤ) :
    (aerialStep v log g tsf).1.physicsVehicle.wheel0.steering = v.physicsVehicle.wheel0.steering := by
  simp only [aerialStep, aerialTorqueIf_st0]

theorem aerialStep_st1 (v : Vehicle) (log : TickLog) (g : Bool) (tsf : Option ℤ) :
    (aerialStep v log g tsf).1.physicsVehicle.wheel1.steering = v.physicsVehicle.wheel1.steering := by
  simp only [aerialStep, aerialTorqueIf_st1]

theorem aerialStep_wl0 (v : Vehicle) (log : TickLog) (g : Bool) (tsf : Option ℤ) :
    (aerialStep v log g tsf).1.physicsVehicle.wheel0 = v.physicsVehicle.wheel0 := by
  simp only [aerialStep, aerialTorqueIf_wl0]

theorem aerialStep_wl1 (v : Vehicle) (log : TickLog) (g : Bool) (tsf : Option ℤ) :
    (aerialStep v log g tsf).1.physicsVehicle.wheel1 = v.physicsVehicle.wheel1 := by
  simp only [aerialStep, aerialTorqueIf_wl1]

theorem aerialStep_wl2 (v : Vehicle) (log : TickLog) (g : Bool) (tsf : Option ℤ) :
    (aerialStep v log g tsf).1.physicsVehicle.wheel2 = v.physicsVehicle.wheel2 := by
  simp only [aerialStep, aerialTorqueIf_wl2]

theorem aerialStep_wl3 (v : Vehicle) (log : TickLog) (g : Bool) (tsf : Option ℤ) :
    (aerialStep v log g tsf).1.physicsVehicle.wheel3 = v.physicsVehicle.wheel3 := by
  simp only [aerialStep, aerialTorqueIf_wl3]

theorem aerialStep_ljf (v : Vehicle) (log : TickLog) (g : Bool) (tsf : Option ℤ) :
    (aerialStep v log g tsf).2.jumpForces = log.jumpForces := by
  simp only [aerialStep, aerialTorqueIf_ljf]

theorem aerialStep_lnd (v : Vehicle) (log : TickLog) (g : Bool) (tsf : Option ℤ) :
    (aerialStep v log g tsf).2.neutralDoubleJumpImpulses = log.neutralDoubleJumpImpulses := by
  simp only [aerialStep, aerialTorqueIf_lnd]

theorem aerialStep_lfi (v : Vehicle) (log : TickLog) (g : Bool) (tsf : Option ℤ) :
    (aerialStep v log g tsf).2.flipImpulses = log.flipImpulses := by
  simp only [aerialStep, aerialTorqueIf_lfi]

theorem aerialStep_lft2 (v : Vehicle) (log : TickLog) (g : Bool) (tsf : Option ℤ) :
    (aerialStep v log g tsf).2.flipTorques = log.flipTorques := by
  simp only [aerialStep, aerialTorqueIf_lft2]

theorem aerialStep_lsri (v : Vehicle) (log : TickLog) (g : Bool) (tsf : Option ℤ) :
    (aerialStep v log g tsf).2.selfRightingImpulses = log.selfRightingImpulses := by
  simp only [aerialStep, aerialTorqueIf_lsri]

theorem aerialStep_lsst (v : Vehicle) (log : TickLog) (g : Bool) (tsf : Option ℤ) :
    (aerialStep v log g tsf).2.scheduledSelfRightingTorqueTimes = log.scheduledSelfRightingTorqueTimes := by
  simp only [aerialStep, aerialTorqueIf_lsst]

theorem aerialStep_lbf (v : Vehicle) (log : TickLog) (g : Bool) (tsf : Option ℤ) :
    (aerialStep v log g tsf).2.boostForces = log.boostForces := by
  simp only [aerialStep, aerialTorqueIf_lbf]

theorem jumpStep_imw (v : Vehicle) (log : TickLog) (g : Bool) (tsj : Option ℤ) (now : ℤ) :
    (jumpStep v log g tsj now).1.inputMap.w = v.inputMap.w := by
  simp only [jumpStep, jumpForceBlock_imw, groundJumpBlock_imw, spaceKeyupBlock_imw, groundRearmBlock_imw]

theorem jumpStep_ims (v : Vehicle) (log : TickLog) (g : Bool) (tsj : Option ℤ) (now : ℤ) :
    (jumpStep v log g tsj now).1.inputMap.s = v.inputMap.s := by
  simp only [jumpStep, jumpForceBlock_ims, groundJumpBlock_ims, spaceKeyupBlock_ims, groundRearmBlock_ims]

theorem jumpStep_ima (v : Vehicle) (log : TickLog) (g : Bool) (tsj : Option ℤ) (now : ℤ) :
    (jumpStep v log g tsj now).1.inputMap.a = v.inputMap.a := by
  simp only [jumpStep, jumpForceBlock_ima, groundJumpBlock_ima, spaceKeyupBlock_ima, groundRearmBlock_ima]

theorem jumpStep_imd (v : Vehicle) (log : TickLog) (g : Bool) (tsj : Option ℤ) (now : ℤ) :
    (jumpStep v log g tsj now).1.inputMap.d = v.inputMap.d := by
  simp only [jumpStep, jumpForceBlock_imd, groundJumpBlock_imd, spaceKeyupBlock_imd, groundRearmBlock_imd]

theorem jumpStep_imspace (v : Vehicle) (log : TickLog) (g : Bool) (tsj : Option ℤ) (now : ℤ) :
    (jumpStep v log g tsj now).1.inputMap.space = v.inputMap.space := by
  simp only [jumpStep, jumpForceBlock_imspace, groundJumpBlock_imspace, spaceKeyupBlock_imspace, groundRearmBlock_imspace]

theorem jumpStep_imshift (v : Vehicle) (log : TickLog) (g : Bool) (tsj : Option ℤ) (now : ℤ) :
    (jumpStep v log g tsj now).1.inputMap.shiftKey = v.inputMap.shiftKey := by
  simp only [jumpStep, jumpForceBlock_imshift, groundJumpBlock_imshift, spaceKeyupBlock_imshift, groundRearmBlock_imshift]

theorem jumpStep_im (v : Vehicle) (log : TickLog) (g : Bool) (tsj : Option ℤ) (now : ℤ) :
    (jumpStep v log g tsj now).1.inputMap = v.inputMap := by
  simp only [jumpStep, jumpForceBlock_im, groundJumpBlock_im, spaceKeyupBlock_im, groundRearmBlock_im]

theorem jumpStep_vup (v : Vehicle) (log : TickLog) (g : Bool) (tsj : Option ℤ) (now : ℤ) :
    (jumpStep v log g tsj now).1.up = v.up := by
  simp only [jumpStep, jumpForceBlock_vup, groundJumpBlock_vup, spaceKeyupBlock_vup, groundRearmBlock_vup]

theorem jumpStep_vright (v : Vehicle) (log : TickLog) (g : Bool) (tsj : Option ℤ) (now : ℤ) :
    (jumpStep v log g tsj now).1.right = v.right := by
  simp only [jumpStep, jumpForceBlock_vright, groundJumpBlock_vright, spaceKeyupBlock_vright, groundRearmBlock_vright]

theorem jumpStep_vfwd (v : Vehicle) (log : TickLog) (g : Bool) (tsj : Option ℤ) (now : ℤ) :
    (jumpStep v log g tsj now).1.forward = v.forward := by
  simp only [jumpStep, jumpForceBlock_vfwd, groundJumpBlock_vfwd, spaceKeyupBlock_vfwd, groundRearmBlock_vfwd]

theorem jumpStep_lft (v : Vehicle) (log : TickLog) (g : Bool) (tsj : Option ℤ) (now : ℤ) :
    (jumpStep v log g tsj now).1.lastFlipTime = v.lastFlipTime := by
  simp only [jumpStep, jumpForceBlock_lft, groundJumpBlock_lft, spaceKeyupBlock_lft, groundRearmBlock_lft]

theorem jumpStep_selfr (v : Vehicle) (log : TickLog) (g : Bool) (tsj : Option ℤ) (now : ℤ) :
    (jumpStep v log g tsj now).1.isSelfRighting = v.isSelfRighting := by
  simp only [jumpStep, jumpForceBlock_selfr, groundJumpBlock_selfr, spaceKeyupBlock_selfr, groundRearmBlock_selfr]

theorem jumpStep_numw (v : Vehicle) (log : TickLog) (g : Bool) (tsj : Option ℤ) (now : ℤ) :
    (jumpStep v log g tsj now).1.physicsVehicle.numWheelsOnGround = v.physicsVehicle.numWheelsOnGround := by
  simp only [jumpStep, jumpForceBlock_numw, groundJumpBlock_numw, spaceKeyupBlock_numw, groundRearmBlock_numw]

theorem jumpStep_bpos (v : Vehicle) (log : TickLog) (g : Bool) (tsj : Option ℤ) (now : ℤ) :
    (jumpStep v log g tsj now).1.physicsVehicle.chassisBody.position = v.physicsVehicle.chassisBody.position := by
  simp only [jumpStep, jumpForceBlock_bpos, groundJumpBlock_bpos, spaceKeyupBlock_bpos, groundRearmBlock_bpos]

theorem jumpStep_bvel (v : Vehicle) (log : TickLog) (g : Bool) (tsj : Option ℤ) (now : ℤ) :
    (jumpStep v log g tsj now).1.physicsVehicle.chassisBody.velocity = v.physicsVehicle.chassisBody.velocity := by
  simp only [jumpStep, jumpForceBlock_bvel, groundJumpBlock_bvel, spaceKeyupBlock_bvel, groundRearmBlock_bvel]

theorem jumpStep_bang (v : Vehicle) (log : TickLog) (g : Bool) (tsj : Option ℤ) (now : ℤ) :
    (jumpStep v log g tsj now).1.physicsVehicle.chassisBody.angularVelocity = v.physicsVehicle.chassisBody.angularVelocity := by
  simp only [jumpStep, jumpForceBlock_bang, groundJumpBlock_bang, spaceKeyupBlock_bang, groundRearmBlock_bang]

theorem jumpStep_btorque (v : Vehicle) (log : TickLog) (g : Bool) (tsj : Option ℤ) (now : ℤ) :
    (jumpStep v log g tsj now).1.physicsVehicle.chassisBody.torque = v.physicsVehicle.chassisBody.torque := by
  simp only [jumpStep, jumpForceBlock_btorque, groundJumpBlock_btorque, spaceKeyupBlock_btorque, groundRearmBlock_btorque]

theorem jumpStep_e0 (v : Vehicle) (log : TickLog) (g : Bool) (tsj : Option ℤ) (now : ℤ) :
    (jumpStep v log g tsj now).1.physicsVehicle.wheel0.engineForce = v.physicsVehicle.wheel0.engineForce := by
  simp only [jumpStep, jumpForceBlock_e0, groundJumpBlock_e0, spaceKeyupBlock_e0, groundRearmBlock_e0]

theorem jumpStep_e1 (v : Vehicle) (log : TickLog) (g : Bool) (tsj : Option ℤ) (now : ℤ) :
    (jumpStep v log g tsj now).1.physicsVehicle.wheel1.engineForce = v.physicsVehicle.wheel1.engineForce := by
  simp only [jumpStep, jumpForceBlock_e1, groundJumpBlock_e1, spaceKeyupBlock_e1, groundRearmBlock_e1]

theorem jumpStep_e2 (v : Vehicle) (log : TickLog) (g : Bool) (tsj : Option ℤ) (now : ℤ) :
    (jumpStep v log g tsj now).1.physicsVehicle.wheel2.engineForce = v.physicsVehicle.wheel2.engineForce := by
  simp only [jumpStep, jumpForceBlock_e2, groundJumpBlock_e2, spaceKeyupBlock_e2, groundRearmBlock_e2]

theorem jumpStep_e3 (v : Vehicle) (log : TickLog) (g : Bool) (tsj : Option ℤ) (now : ℤ) :
    (jumpStep v log g tsj now).1.physicsVehicle.wheel3.engineForce = v.physicsVehicle.wheel3.engineForce := by
  simp only [jumpStep, jumpForceBlock_e3, groundJumpBlock_e3, spaceKeyupBlock_e3, groundRearmBlock_e3]

theorem jumpStep_st0 (v : Vehicle) (log : TickLog) (g : Bool) (tsj : Option ℤ) (now : ℤ) :
    (jumpStep v log g tsj now).1.physicsVehicle.wheel0.steering = v.physicsVehicle.wheel0.steering := by
  simp only [jumpStep, jumpForceBlock_st0, groundJumpBlock_st0, spaceKeyupBlock_st0, groundRearmBlock_st0]

theorem jumpStep_st1 (v : Vehicle) (log : TickLog) (g : Bool) (tsj : Option ℤ) (now : ℤ) :
    (jumpStep v log g tsj now).1.physicsVehicle.wheel1.steering = v.physicsVehicle.wheel1.steering := by
  simp only [jumpStep, jumpForceBlock_st1, groundJumpBlock_st1, spaceKeyupBlock_st1, groundRearmBlock_st1]

theorem jumpStep_wl0 (v : Vehicle) (log : TickLog) (g : Bool) (tsj : Option ℤ) (now : ℤ) :
    (jumpStep v log g tsj now).1.physicsVehicle.wheel0 = v.physicsVehicle.wheel0 := by
  simp only [jumpStep, jumpForceBlock_wl0, groundJumpBlock_wl0, spaceKeyupBlock_wl0, groundRearmBlock_wl0]

theorem jumpStep_wl1 (v : Vehicle) (log : TickLog) (g : Bool) (tsj : Option ℤ) (now : ℤ) :
    (jumpStep v log g tsj now).1.physicsVehicle.wheel1 = v.physicsVehicle.wheel1 := by
  simp only [jumpStep, jumpForceBlock_wl1, groundJumpBlock_wl1, spaceKeyupBlock_wl1, groundRearmBlock_wl1]

theorem jumpStep_wl2 (v : Vehicle) (log : TickLog) (g : Bool) (tsj : Option ℤ) (now : ℤ) :
    (jumpStep v log g tsj now).1.physicsVehicle.wheel2 = v.physicsVehicle.wheel2 := by
  simp only [jumpStep, jumpForceBlock_wl2, groundJumpBlock_wl2, spaceKeyupBlock_wl2, groundRearmBlock_wl2]

theorem jumpStep_wl3 (v : Vehicle) (log : TickLog) (g : Bool) (tsj : Option ℤ) (now : ℤ) :
    (jumpStep v log g tsj now).1.physicsVehicle.wheel3 = v.physicsVehicle.wheel3 := by
  simp only [jumpStep, jumpForceBlock_wl3, groundJumpBlock_wl3, spaceKeyupBlock_wl3, groundRearmBlock_wl3]

theorem jumpStep_lat (v : Vehicle) (log : TickLog) (g : Bool) (tsj : Option ℤ) (now : ℤ) :
    (jumpStep v log g tsj now).2.aerialTorques = log.aerialTorques := by
  simp only [jumpStep, jumpForceBlock_lat]

theorem jumpStep_lnd (v : Vehicle) (log : TickLog) (g : Bool) (tsj : Option ℤ) (now : ℤ) :
    (jumpStep v log g tsj now).2.neutralDoubleJumpImpulses = log.neutralDoubleJumpImpulses := by
  simp only [jumpStep, jumpForceBlock_lnd]

theorem jumpStep_lfi (v : Vehicle) (log : TickLog) (g : Bool) (tsj : Option ℤ) (now : ℤ) :
    (jumpStep v log g tsj now).2.flipImpulses = log.flipImpulses := by
  simp only [jumpStep, jumpForceBlock_lfi]

theorem jumpStep_lft2 (v : Vehicle) (log : TickLog) (g : Bool) (tsj : Option ℤ) (now : ℤ) :
    (jumpStep v log g tsj now).2.flipTorques = log.flipTorques := by
  simp only [jumpStep, jumpForceBlock_lft2]

theorem jumpStep_lsri (v : Vehicle) (log : TickLog) (g : Bool) (tsj : Option ℤ) (now : ℤ) :
    (jumpStep v log g tsj now).2.selfRightingImpulses = log.selfRightingImpulses := by
  simp only [jumpStep, jumpForceBlock_lsri]

theorem jumpStep_lsst (v : Vehicle) (log : TickLog) (g : Bool) (tsj : Option ℤ) (now : ℤ) :
    (jumpStep v log g tsj now).2.scheduledSelfRightingTorqueTimes = log.scheduledSelfRightingTorqueTimes := by
  simp only [jumpStep, jumpForceBlock_lsst]

theorem jumpStep_lbf (v : Vehicle) (log : TickLog) (g : Bool) (tsj : Option ℤ) (now : ℤ) :
    (jumpStep v log g tsj now).2.boostForces = log.boostForces := by
  simp only [jumpStep, jumpForceBlock_lbf]

theorem doubleJumpBody_imw (sq : ℚ → ℚ) (v : Vehicle) (log : TickLog) (now : ℤ) :
    (doubleJumpBody sq v log now).1.inputMap.w = v.inputMap.w := by
  simp only [doubleJumpBody, neutralImpulseBlock_imw, flipIf_imw]

theorem doubleJumpBody_ims (sq : ℚ → ℚ) (v : Vehicle) (log : TickLog) (now : ℤ) :
    (doubleJumpBody sq v log now).1.inputMap.s = v.inputMap.s := by
  simp only [doubleJumpBody, neutralImpulseBlock_ims, flipIf_ims]

theorem doubleJumpBody_ima (sq : ℚ → ℚ) (v : Vehicle) (log : TickLog) (now : ℤ) :
    (doubleJumpBody sq v log now).1.inputMap.a = v.inputMap.a := by
  simp only [doubleJumpBody, neutralImpulseBlock_ima, flipIf_ima]

theorem doubleJumpBody_imd (sq : ℚ → ℚ) (v : Vehicle) (log : TickLog) (now : ℤ) :
    (doubleJumpBody sq v log now).1.inputMap.d = v.inputMap.d := by
  simp only [doubleJumpBody, neutralImpulseBlock_imd, flipIf_imd]

theorem doubleJumpBody_imspace (sq : ℚ → ℚ) (v : Vehicle) (log : TickLog) (now : ℤ) :
    (doubleJumpBody sq v log now).1.inputMap.space = v.inputMap.space := by
  simp only [doubleJumpBody, neutralImpulseBlock_imspace, flipIf_imspace]

theorem doubleJumpBody_imshift (sq : ℚ → ℚ) (v : Vehicle) (log : TickLog) (now : ℤ) :
    (doubleJumpBody sq v log now).1.inputMap.shiftKey = v.inputMap.shiftKey := by
  simp only [doubleJumpBody, neutralImpulseBlock_imshift, flipIf_imshift]

theorem doubleJumpBody_im (sq : ℚ → ℚ) (v : Vehicle) (log : TickLog) (now : ℤ) :
    (doubleJumpBody sq v log now).1.inputMap = v.inputMap := by
  simp only [doubleJumpBody, neutralImpulseBlock_im, flipIf_im]

theorem doubleJumpBody_vup (sq : ℚ → ℚ) (v : Vehicle) (log : TickLog) (now : ℤ) :
    (doubleJumpBody sq v log now).1.up = v.up := by
  simp only [doubleJumpBody, neutralImpulseBlock_vup, flipIf_vup]

theorem doubleJumpBody_vright (sq : ℚ → ℚ) (v : Vehicle) (log : TickLog) (now : ℤ) :
    (doubleJumpBody sq v log now).1.right = v.right := by
  simp only [doubleJumpBody, neutralImpulseBlock_vright, flipIf_vright]

theorem doubleJumpBody_vfwd (sq : ℚ → ℚ) (v : Vehicle) (log : TickLog) (now : ℤ) :
    (doubleJumpBody sq v log now).1.forward = v.forward := by
  simp only [doubleJumpBody, neutralImpulseBlock_vfwd, flipIf_vfwd]

theorem doubleJumpBody_ljt (sq : ℚ → ℚ) (v : Vehicle) (log : TickLog) (now : ℤ) :
    (doubleJumpBody sq v log now).1.lastJumpTime = v.lastJumpTime := by
  simp only [doubleJumpBody, neutralImpulseBlock_ljt, flipIf_ljt]

theorem doubleJumpBody_selfr (sq : ℚ → ℚ) (v : Vehicle) (log : TickLog) (now : ℤ) :
    (doubleJumpBody sq v log now).1.isSelfRighting = v.isSelfRighting := by
  simp only [doubleJumpBody, neutralImpulseBlock_selfr, flipIf_selfr]

theorem doubleJumpBody_isj (sq : ℚ → ℚ) (v : Vehicle) (log : TickLog) (now : ℤ) :
    (doubleJumpBody sq v log now).1.isJumping = v.isJumping := by
  simp only [doubleJumpBody, neutralImpulseBlock_isj, flipIf_isj]

theorem doubleJumpBody_numw (sq : ℚ → ℚ) (v : Vehicle) (log : TickLog) (now : ℤ) :
    (doubleJumpBody sq v log now).1.physicsVehicle.numWheelsOnGround = v.physicsVehicle.numWheelsOnGround := by
  simp only [doubleJumpBody, neutralImpulseBlock_numw, flipIf_numw]

theorem doubleJumpBody_bpos (sq : ℚ → ℚ) (v : Vehicle) (log : TickLog) (now : ℤ) :
    (doubleJumpBody sq v log now).1.physicsVehicle.chassisBody.position = v.physicsVehicle.chassisBody.position := by
  simp only [doubleJumpBody, neutralImpulseBlock_bpos, flipIf_bpos]

theorem doubleJumpBody_bang (sq : ℚ → ℚ) (v : Vehicle) (log : TickLog) (now : ℤ) :
    (doubleJumpBody sq v log now).1.physicsVehicle.chassisBody.angularVelocity = v.physicsVehicle.chassisBody.angularVelocity := by
  simp only [doubleJumpBody, neutralImpulseBlock_bang, flipIf_bang]

theorem doubleJumpBody_bforce (sq : ℚ → ℚ) (v : Vehicle) (log : TickLog) (now : ℤ) :
    (doubleJumpBody sq v log now).1.physicsVehicle.chassisBody.force = v.physicsVehicle.chassisBody.force := by
  simp only [doubleJumpBody, neutralImpulseBlock_bforce, flipIf_bforce]

theorem doubleJumpBody_e0 (sq : ℚ → ℚ) (v : Vehicle) (log : TickLog) (now : ℤ) :
    (doubleJumpBody sq v log now).1.physicsVehicle.wheel0.engineForce = v.physicsVehicle.wheel0.engineForce := by
  simp only [doubleJumpBody, neutralImpulseBlock_e0, flipIf_e0]

theorem doubleJumpBody_e1 (sq : ℚ → ℚ) (v : Vehicle) (log : TickLog) (now : ℤ) :
    (doubleJumpBody sq v log now).1.physicsVehicle.wheel1.engineForce = v.physicsVehicle.wheel1.engineForce := by
  simp only [doubleJumpBody, neutralImpulseBlock_e1, flipIf_e1]

theorem doubleJumpBody_e2 (sq : ℚ → ℚ) (v : Vehicle) (log : TickLog) (now : ℤ) :
    (doubleJumpBody sq v log now).1.physicsVehicle.wheel2.engineForce = v.physicsVehicle.wheel2.engineForce := by
  simp only [doubleJumpBody, neutralImpulseBlock_e2, flipIf_e2]

theorem doubleJumpBody_e3 (sq : ℚ → ℚ) (v : Vehicle) (log : TickLog) (now : ℤ) :
    (doubleJumpBody sq v log now).1.physicsVehicle.wheel3.engineForce = v.physicsVehicle.wheel3.engineForce := by
  simp only [doubleJumpBody, neutralImpulseBlock_e3, flipIf_e3]

theorem doubleJumpBody_st0 (sq : ℚ → ℚ) (v : Vehicle) (log : TickLog) (now : ℤ) :
    (doubleJumpBody sq v log now).1.physicsVehicle.wheel0.steering = v.physicsVehicle.wheel0.steering := by
  simp only [doubleJumpBody, neutralImpulseBlock_st0, flipIf_st0]

theorem doubleJumpBody_st1 (sq : ℚ → ℚ) (v : Vehicle) (log : TickLog) (now : ℤ) :
    (doubleJumpBody sq v log now).1.physicsVehicle.wheel1.steering = v.physicsVehicle.wheel1.steering := by
  simp only [doubleJumpBody, neutralImpulseBlock_st1, flipIf_st1]

theorem doubleJumpBody_wl0 (sq : ℚ → ℚ) (v : Vehicle) (log : TickLog) (now : ℤ) :
    (doubleJumpBody sq v log now).1.physicsVehicle.wheel0 = v.physicsVehicle.wheel0 := by
  simp only [doubleJumpBody, neutralImpulseBlock_wl0, flipIf_wl0]

theorem doubleJumpBody_wl1 (sq : ℚ → ℚ) (v : Vehicle) (log : TickLog) (now : ℤ) :
    (doubleJumpBody sq v log now).1.physicsVehicle.wheel1 = v.physicsVehicle.wheel1 := by
  simp only [doubleJumpBody, neutralImpulseBlock_wl1, flipIf_wl1]

theorem doubleJumpBody_wl2 (sq : ℚ → ℚ) (v : Vehicle) (log : TickLog) (now : ℤ) :
    (doubleJumpBody sq v log now).1.physicsVehicle.wheel2 = v.physicsVehicle.wheel2 := by
  simp only [doubleJumpBody, neutralImpulseBlock_wl2, flipIf_wl2]

theorem doubleJumpBody_wl3 (sq : ℚ → ℚ) (v : Vehicle) (log : TickLog) (now : ℤ) :
    (doubleJumpBody sq v log now).1.physicsVehicle.wheel3 = v.physicsVehicle.wheel3 := by
  simp only [doubleJumpBody, neutralImpulseBlock_wl3, flipIf_wl3]

theorem doubleJumpBody_ljf (sq : ℚ → ℚ) (v : Vehicle) (log : TickLog) (now : ℤ) :
    (doubleJumpBody sq v log now).2.jumpForces = log.jumpForces := by
  simp only [doubleJumpBody, neutralImpulseBlock_ljf, flipIf_ljf]

theorem doubleJumpBody_lat (sq : ℚ → ℚ) (v : Vehicle) (log : TickLog) (now : ℤ) :
    (doubleJumpBody sq v log now).2.aerialTorques = log.aerialTorques := by
  simp only [doubleJumpBody, neutralImpulseBlock_lat, flipIf_lat]

theorem doubleJumpBody_lsri (sq : ℚ → ℚ) (v : Vehicle) (log : TickLog) (now : ℤ) :
    (doubleJumpBody sq v log now).2.selfRightingImpulses = log.selfRightingImpulses := by
  simp only [doubleJumpBody, neutralImpulseBlock_lsri, flipIf_lsri]

theorem doubleJumpBody_lsst (sq : ℚ → ℚ) (v : Vehicle) (log : TickLog) (now : ℤ) :
    (doubleJumpBody sq v log now).2.scheduledSelfRightingTorqueTimes = log.scheduledSelfRightingTorqueTimes := by
  simp only [doubleJumpBody, neutralImpulseBlock_lsst, flipIf_lsst]

theorem doubleJumpBody_lbf (sq : ℚ → ℚ) (v : Vehicle) (log : TickLog) (now : ℤ) :
    (doubleJumpBody sq v log now).2.boostForces = log.boostForces := by
  simp only [doubleJumpBody, neutralImpulseBlock_lbf, flipIf_lbf]


theorem doubleJumpStep_imw (sq : ℚ → ℚ) (v : Vehicle) (log : TickLog) (cdj : Bool) (now : ℤ) :
    (doubleJumpStep sq v log cdj now).1.inputMap.w = v.inputMap.w := by
  unfold doubleJumpStep; split_ifs <;> simp only [doubleJumpBody_imw]

theorem doubleJumpStep_ims (sq : ℚ → ℚ) (v : Vehicle) (log : TickLog) (cdj : Bool) (now : ℤ) :
    (doubleJumpStep sq v log cdj now).1.inputMap.s = v.inputMap.s := by
  unfold doubleJumpStep; split_ifs <;> simp only [doubleJumpBody_ims]

theorem doubleJumpStep_ima (sq : ℚ → ℚ) (v : Vehicle) (log : TickLog) (cdj : Bool) (now : ℤ) :
    (doubleJumpStep sq v log cdj now).1.inputMap.a = v.inputMap.a := by
  unfold doubleJumpStep; split_ifs <;> simp only [doubleJumpBody_ima]

theorem doubleJumpStep_imd (sq : ℚ → ℚ) (v : Vehicle) (log : TickLog) (cdj : Bool) (now : ℤ) :
    (doubleJumpStep sq v log cdj now).1.inputMap.d = v.inputMap.d := by
  unfold doubleJumpStep; split_ifs <;> simp only [doubleJumpBody_imd]

theorem doubleJumpStep_imspace (sq : ℚ → ℚ) (v : Vehicle) (log : TickLog) (cdj : Bool) (now : ℤ) :
    (doubleJumpStep sq v log cdj now).1.inputMap.space = v.inputMap.space := by
  unfold doubleJumpStep; split_ifs <;> simp only [doubleJumpBody_imspace]

theorem doubleJumpStep_imshift (sq : ℚ → ℚ) (v : Vehicle) (log : TickLog) (cdj : Bool) (now : ℤ) :
    (doubleJumpStep sq v log cdj now).1.inputMap.shiftKey = v.inputMap.shiftKey := by
  unfold doubleJumpStep; split_ifs <;> simp only [doubleJumpBody_imshift]

theorem doubleJumpStep_im (sq : ℚ → ℚ) (v : Vehicle) (log : TickLog) (cdj : Bool) (now : ℤ) :
    (doubleJumpStep sq v log cdj now).1.inputMap = v.inputMap := by
  unfold doubleJumpStep; split_ifs <;> simp only [doubleJumpBody_im]

theorem doubleJumpStep_vup (sq : ℚ → ℚ) (v : Vehicle) (log : TickLog) (cdj : Bool) (now : ℤ) :
    (doubleJumpStep sq v log cdj now).1.up = v.up := by
  unfold doubleJumpStep; split_ifs <;> simp only [doubleJumpBody_vup]

theorem doubleJumpStep_vright (sq : ℚ → ℚ) (v : Vehicle) (log : TickLog) (cdj : Bool) (now : ℤ) :
    (doubleJumpStep sq v log cdj now).1.right = v.right := by
  unfold doubleJumpStep; split_ifs <;> simp only [doubleJumpBody_vright]

theorem doubleJumpStep_vfwd (sq : ℚ → ℚ) (v : Vehicle) (log : TickLog) (cdj : Bool) (now : ℤ) :
    (doubleJumpStep sq v log cdj now).1.forward = v.forward := by
  unfold doubleJumpStep; split_ifs <;> simp only [doubleJumpBody_vfwd]

theorem doubleJumpStep_ljt (sq : ℚ → ℚ) (v : Vehicle) (log : TickLog) (cdj : Bool) (now : ℤ) :
    (doubleJumpStep sq v log cdj now).1.lastJumpTime = v.lastJumpTime := by
  unfold doubleJumpStep; split_ifs <;> simp only [doubleJumpBody_ljt]

theorem doubleJumpStep_selfr (sq : ℚ → ℚ) (v : Vehicle) (log : TickLog) (cdj : Bool) (now : ℤ) :
    (doubleJumpStep sq v log cdj now).1.isSelfRighting = v.isSelfRighting := by
  unfold doubleJumpStep; split_ifs <;> simp only [doubleJumpBody_selfr]

theorem doubleJumpStep_isj (sq : ℚ → ℚ) (v : Vehicle) (log : TickLog) (cdj : Bool) (now : ℤ) :
    (doubleJumpStep sq v log cdj now).1.isJumping = v.isJumping := by
  unfold doubleJumpStep; split_ifs <;> simp only [doubleJumpBody_isj]

theorem doubleJumpStep_numw (sq : ℚ → ℚ) (v : Vehicle) (log : TickLog) (cdj : Bool) (now : ℤ) :
    (doubleJumpStep sq v log cdj now).1.physicsVehicle.numWheelsOnGround = v.physicsVehicle.numWheelsOnGround := by
  unfold doubleJumpStep; split_ifs <;> simp only [doubleJumpBody_numw]

theorem doubleJumpStep_bpos (sq : ℚ → ℚ) (v : Vehicle) (log : TickLog) (cdj : Bool) (now : ℤ) :
    (doubleJumpStep sq v log cdj now).1.physicsVehicle.chassisBody.position = v.physicsVehicle.chassisBody.position := by
  unfold doubleJumpStep; split_ifs <;> simp only [doubleJumpBody_bpos]

theorem doubleJumpStep_bang (sq : ℚ → ℚ) (v : Vehicle) (log : TickLog) (cdj : Bool) (now : ℤ) :
    (doubleJumpStep sq v log cdj now).1.physicsVehicle.chassisBody.angularVelocity = v.physicsVehicle.chassisBody.angularVelocity := by
  unfold doubleJumpStep; split_ifs <;> simp only [doubleJumpBody_bang]

theorem doubleJumpStep_bforce (sq : ℚ → ℚ) (v : Vehicle) (log : TickLog) (cdj : Bool) (now : ℤ) :
    (doubleJumpStep sq v log cdj now).1.physicsVehicle.chassisBody.force = v.physicsVehicle.chassisBody.force := by
  unfold doubleJumpStep; split_ifs <;> simp only [doubleJumpBody_bforce]

theorem doubleJumpStep_e0 (sq : ℚ → ℚ) (v : Vehicle) (log : TickLog) (cdj : Bool) (now : ℤ) :
    (doubleJumpStep sq v log cdj now).1.physicsVehicle.wheel0.engineForce = v.physicsVehicle.wheel0.engineForce := by
  unfold doubleJumpStep; split_ifs <;> simp only [doubleJumpBody_e0]

theorem doubleJumpStep_e1 (sq : ℚ → ℚ) (v : Vehicle) (log : TickLog) (cdj : Bool) (now : ℤ) :
    (doubleJumpStep sq v log cdj now).1.physicsVehicle.wheel1.engineForce = v.physicsVehicle.wheel1.engineForce := by
  unfold doubleJumpStep; split_ifs <;> simp only [doubleJumpBody_e1]

theorem doubleJumpStep_e2 (sq : ℚ → ℚ) (v : Vehicle) (log : TickLog) (cdj : Bool) (now : ℤ) :
    (doubleJumpStep sq v log cdj now).1.physicsVehicle.wheel2.engineForce = v.physicsVehicle.wheel2.engineForce := by
  unfold doubleJumpStep; split_ifs <;> simp only [doubleJumpBody_e2]

theorem doubleJumpStep_e3 (sq : ℚ → ℚ) (v : Vehicle) (log : TickLog) (cdj : Bool) (now : ℤ) :
    (doubleJumpStep sq v log cdj now).1.physicsVehicle.wheel3.engineForce = v.physicsVehicle.wheel3.engineForce := by
  unfold doubleJumpStep; split_ifs <;> simp only [doubleJumpBody_e3]

theorem doubleJumpStep_st0 (sq : ℚ → ℚ) (v : Vehicle) (log : TickLog) (cdj : Bool) (now : ℤ) :
    (doubleJumpStep sq v log cdj now).1.physicsVehicle.wheel0.steering = v.physicsVehicle.wheel0.steering := by
  unfold doubleJumpStep; split_ifs <;> simp only [doubleJumpBody_st0]

theorem doubleJumpStep_st1 (sq : ℚ → ℚ) (v : Vehicle) (log : TickLog) (cdj : Bool) (now : ℤ) :
    (doubleJumpStep sq v log cdj now).1.physicsVehicle.wheel1.steering = v.physicsVehicle.wheel1.steering := by
  unfold doubleJumpStep; split_ifs <;> simp only [doubleJumpBody_st1]

theorem doubleJumpStep_wl0 (sq : ℚ → ℚ) (v : Vehicle) (log : TickLog) (cdj : Bool) (now : ℤ) :
    (doubleJumpStep sq v log cdj now).1.physicsVehicle.wheel0 = v.physicsVehicle.wheel0 := by
  unfold doubleJumpStep; split_ifs <;> simp only [doubleJumpBody_wl0]

theorem doubleJumpStep_wl1 (sq : ℚ → ℚ) (v : Vehicle) (log : TickLog) (cdj : Bool) (now : ℤ) :
    (doubleJumpStep sq v log cdj now).1.physicsVehicle.wheel1 = v.physicsVehicle.wheel1 := by
  unfold doubleJumpStep; split_ifs <;> simp only [doubleJumpBody_wl1]

theorem doubleJumpStep_wl2 (sq : ℚ → ℚ) (v : Vehicle) (log : TickLog) (cdj : Bool) (now : ℤ) :
    (doubleJumpStep sq v log cdj now).1.physicsVehicle.wheel2 = v.physicsVehicle.wheel2 := by
  unfold doubleJumpStep; split_ifs <;> simp only [doubleJumpBody_wl2]

theorem doubleJumpStep_wl3 (sq : ℚ → ℚ) (v : Vehicle) (log : TickLog) (cdj : Bool) (now : ℤ) :
    (doubleJumpStep sq v log cdj now).1.physicsVehicle.wheel3 = v.physicsVehicle.wheel3 := by
  unfold doubleJumpStep; split_ifs <;> simp only [doubleJumpBody_wl3]

theorem doubleJumpStep_ljf (sq : ℚ → ℚ) (v : Vehicle) (log : TickLog) (cdj : Bool) (now : ℤ) :
    (doubleJumpStep sq v log cdj now).2.jumpForces = log.jumpForces := by
  unfold doubleJumpStep; split_ifs <;> simp only [doubleJumpBody_ljf]

theorem doubleJumpStep_lat (sq : ℚ → ℚ) (v : Vehicle) (log : TickLog) (cdj : Bool) (now : ℤ) :
    (doubleJumpStep sq v log cdj now).2.aerialTorques = log.aerialTorques := by
  unfold doubleJumpStep; split_ifs <;> simp only [doubleJumpBody_lat]

theorem doubleJumpStep_lsri (sq : ℚ → ℚ) (v : Vehicle) (log : TickLog) (cdj : Bool) (now : ℤ) :
    (doubleJumpStep sq v log cdj now).2.selfRightingImpulses = log.selfRightingImpulses := by
  unfold doubleJumpStep; split_ifs <;> simp only [doubleJumpBody_lsri]

theorem doubleJumpStep_lsst (sq : ℚ → ℚ) (v : Vehicle) (log : TickLog) (cdj : Bool) (now : ℤ) :
    (doubleJumpStep sq v log cdj now).2.scheduledSelfRightingTorqueTimes = log.scheduledSelfRightingTorqueTimes := by
  unfold doubleJumpStep; split_ifs <;> simp only [doubleJumpBody_lsst]

theorem doubleJumpStep_lbf (sq : ℚ → ℚ) (v : Vehicle) (log : TickLog) (cdj : Bool) (now : ℤ) :
    (doubleJumpStep sq v log cdj now).2.boostForces = log.boostForces := by
  unfold doubleJumpStep; split_ifs <;> simp only [doubleJumpBody_lbf]

theorem selfRightingStep_imw (v : Vehicle) (log : TickLog) (f st : Bool) (now : ℤ) :
    (selfRightingStep v log f st now).1.inputMap.w = v.inputMap.w := by
  simp only [selfRightingStep, selfRightTriggerBlock_imw, selfRightCompletionBlock_imw]

theorem selfRightingStep_ims (v : Vehicle) (log : TickLog) (f st : Bool) (now : ℤ) :
    (selfRightingStep v log f st now).1.inputMap.s = v.inputMap.s := by
  simp only [selfRightingStep, selfRightTriggerBlock_ims, selfRightCompletionBlock_ims]

theorem selfRightingStep_ima (v : Vehicle) (log : TickLog) (f st : Bool) (now : ℤ) :
    (selfRightingStep v log f st now).1.inputMap.a = v.inputMap.a := by
  simp only [selfRightingStep, selfRightTriggerBlock_ima, selfRightCompletionBlock_ima]

theorem selfRightingStep_imd (v : Vehicle) (log : TickLog) (f st : Bool) (now : ℤ) :
    (selfRightingStep v log f st now).1.inputMap.d = v.inputMap.d := by
  simp only [selfRightingStep, selfRightTriggerBlock_imd, selfRightCompletionBlock_imd]

theorem selfRightingStep_imspace (v : Vehicle) (log : TickLog) (f st : Bool) (now : ℤ) :
    (selfRightingStep v log f st now).1.inputMap.space = v.inputMap.space := by
  simp only [selfRightingStep, selfRightTriggerBlock_imspace, selfRightCompletionBlock_imspace]

theorem selfRightingStep_imshift (v : Vehicle) (log : TickLog) (f st : Bool) (now : ℤ) :
    (selfRightingStep v log f st now).1.inputMap.shiftKey = v.inputMap.shiftKey := by
  simp only [selfRightingStep, selfRightTriggerBlock_imshift, selfRightCompletionBlock_imshift]

theorem selfRightingStep_im (v : Vehicle) (log : TickLog) (f st : Bool) (now : ℤ) :
    (selfRightingStep v log f st now).1.inputMap = v.inputMap := by
  simp only [selfRightingStep, selfRightTriggerBlock_im, selfRightCompletionBlock_im]

theorem selfRightingStep_vup (v : Vehicle) (log : TickLog) (f st : Bool) (now : ℤ) :
    (selfRightingStep v log f st now).1.up = v.up := by
  simp only [selfRightingStep, selfRightTriggerBlock_vup, selfRightCompletionBlock_vup]

theorem selfRightingStep_vright (v : Vehicle) (log : TickLog) (f st : Bool) (now : ℤ) :
    (selfRightingStep v log f st now).1.right = v.right := by
  simp only [selfRightingStep, selfRightTriggerBlock_vright, selfRightCompletionBlock_vright]

theorem selfRightingStep_vfwd (v : Vehicle) (log : TickLog) (f st : Bool) (now : ℤ) :
    (selfRightingStep v log f st now).1.forward = v.forward := by
  simp only [selfRightingStep, selfRightTriggerBlock_vfwd, selfRightCompletionBlock_vfwd]

theorem selfRightingStep_lft (v : Vehicle) (log : TickLog) (f st : Bool) (now : ℤ) :
    (selfRightingStep v log f st now).1.lastFlipTime = v.lastFlipTime := by
  simp only [selfRightingStep, selfRightTriggerBlock_lft, selfRightCompletionBlock_lft]

theorem selfRightingStep_latch (v : Vehicle) (log : TickLog) (f st : Bool) (now : ℤ) :
    (selfRightingStep v log f st now).1.hasStoppedJumping = v.hasStoppedJumping := by
  simp only [selfRightingStep, selfRightTriggerBlock_latch, selfRightCompletionBlock_latch]

theorem selfRightingStep_used (v : Vehicle) (log : TickLog) (f st : Bool) (now : ℤ) :
    (selfRightingStep v log f st now).1.hasUsedDoubleJump = v.hasUsedDoubleJump := by
  simp only [selfRightingStep, selfRightTriggerBlock_used, selfRightCompletionBlock_used]

theorem selfRightingStep_isj (v : Vehicle) (log : TickLog) (f st : Bool) (now : ℤ) :
    (selfRightingStep v log f st now).1.isJumping = v.isJumping := by
  simp only [selfRightingStep, selfRightTriggerBlock_isj, selfRightCompletionBlock_isj]

theorem selfRightingStep_numw (v : Vehicle) (log : TickLog) (f st : Bool) (now : ℤ) :
    (selfRightingStep v log f st now).1.physicsVehicle.numWheelsOnGround = v.physicsVehicle.numWheelsOnGround := by
  simp only [selfRightingStep, selfRightTriggerBlock_numw, selfRightCompletionBlock_numw]

theorem selfRightingStep_bpos (v : Vehicle) (log : TickLog) (f st : Bool) (now : ℤ) :
    (selfRightingStep v log f st now).1.physicsVehicle.chassisBody.position = v.physicsVehicle.chassisBody.position := by
  simp only [selfRightingStep, selfRightTriggerBlock_bpos, selfRightCompletionBlock_bpos]

theorem selfRightingStep_bforce (v : Vehicle) (log : TickLog) (f st : Bool) (now : ℤ) :
    (selfRightingStep v log f st now).1.physicsVehicle.chassisBody.force = v.physicsVehicle.chassisBody.force := by
  simp only [selfRightingStep, selfRightTriggerBlock_bforce, selfRightCompletionBlock_bforce]

theorem selfRightingStep_e0 (v : Vehicle) (log : TickLog) (f st : Bool) (now : ℤ) :
    (selfRightingStep v log f st now).1.physicsVehicle.wheel0.engineForce = v.physicsVehicle.wheel0.engineForce := by
  simp only [selfRightingStep, selfRightTriggerBlock_e0, selfRightCompletionBlock_e0]

theorem selfRightingStep_e1 (v : Vehicle) (log : TickLog) (f st : Bool) (now : ℤ) :
    (selfRightingStep v log f st now).1.physicsVehicle.wheel1.engineForce = v.physicsVehicle.wheel1.engineForce := by
  simp only [selfRightingStep, selfRightTriggerBlock_e1, selfRightCompletionBlock_e1]

theorem selfRightingStep_e2 (v : Vehicle) (log : TickLog) (f st : Bool) (now : ℤ) :
    (selfRightingStep v log f st now).1.physicsVehicle.wheel2.engineForce = v.physicsVehicle.wheel2.engineForce := by
  simp only [selfRightingStep, selfRightTriggerBlock_e2, selfRightCompletionBlock_e2]

theorem selfRightingStep_e3 (v : Vehicle) (log : TickLog) (f st : Bool) (now : ℤ) :
    (selfRightingStep v log f st now).1.physicsVehicle.wheel3.engineForce = v.physicsVehicle.wheel3.engineForce := by
  simp only [selfRightingStep, selfRightTriggerBlock_e3, selfRightCompletionBlock_e3]

theorem selfRightingStep_st0 (v : Vehicle) (log : TickLog) (f st : Bool) (now : ℤ) :
    (selfRightingStep v log f st now).1.physicsVehicle.wheel0.steering = v.physicsVehicle.wheel0.steering := by
  simp only [selfRightingStep, selfRightTriggerBlock_st0, selfRightCompletionBlock_st0]

theorem selfRightingStep_st1 (v : Vehicle) (log : TickLog) (f st : Bool) (now : ℤ) :
    (selfRightingStep v log f st now).1.physicsVehicle.wheel1.steering = v.physicsVehicle.wheel1.steering := by
  simp only [selfRightingStep, selfRightTriggerBlock_st1, selfRightCompletionBlock_st1]

theorem selfRightingStep_wl0 (v : Vehicle) (log : TickLog) (f st : Bool) (now : ℤ) :
    (selfRightingStep v log f st now).1.physicsVehicle.wheel0 = v.physicsVehicle.wheel0 := by
  simp only [selfRightingStep, selfRightTriggerBlock_wl0, selfRightCompletionBlock_wl0]

theorem selfRightingStep_wl1 (v : Vehicle) (log : TickLog) (f st : Bool) (now : ℤ) :
    (selfRightingStep v log f st now).1.physicsVehicle.wheel1 = v.physicsVehicle.wheel1 := by
  simp only [selfRightingStep, selfRightTriggerBlock_wl1, selfRightCompletionBlock_wl1]

theorem selfRightingStep_wl2 (v : Vehicle) (log : TickLog) (f st : Bool) (now : ℤ) :
    (selfRightingStep v log f st now).1.physicsVehicle.wheel2 = v.physicsVehicle.wheel2 := by
  simp only [selfRightingStep, selfRightTriggerBlock_wl2, selfRightCompletionBlock_wl2]

theorem selfRightingStep_wl3 (v : Vehicle) (log : TickLog) (f st : Bool) (now : ℤ) :
    (selfRightingStep v log f st now).1.physicsVehicle.wheel3 = v.physicsVehicle.wheel3 := by
  simp only [selfRightingStep, selfRightTriggerBlock_wl3, selfRightCompletionBlock_wl3]

theorem selfRightingStep_ljf (v : Vehicle) (log : TickLog) (f st : Bool) (now : ℤ) :
    (selfRightingStep v log f st now).2.jumpForces = log.jumpForces := by
  simp only [selfRightingStep, selfRightTriggerBlock_ljf]

theorem selfRightingStep_lat (v : Vehicle) (log : TickLog) (f st : Bool) (now : ℤ) :
    (selfRightingStep v log f st now).2.aerialTorques = log.aerialTorques := by
  simp only [selfRightingStep, selfRightTriggerBlock_lat]

theorem selfRightingStep_lnd (v : Vehicle) (log : TickLog) (f st : Bool) (now : ℤ) :
    (selfRightingStep v log f st now).2.neutralDoubleJumpImpulses = log.neutralDoubleJumpImpulses := by
  simp only [selfRightingStep, selfRightTriggerBlock_lnd]

theorem selfRightingStep_lfi (v : Vehicle) (log : TickLog) (f st : Bool) (now : ℤ) :
    (selfRightingStep v log f st now).2.flipImpulses = log.flipImpulses := by
  simp only [selfRightingStep, selfRightTriggerBlock_lfi]

theorem selfRightingStep_lft2 (v : Vehicle) (log : TickLog) (f st : Bool) (now : ℤ) :
    (selfRightingStep v log f st now).2.flipTorques = log.flipTorques := by
  simp only [selfRightingStep, selfRightTriggerBlock_lft2]

theorem selfRightingStep_lbf (v : Vehicle) (log : TickLog) (f st : Bool) (now : ℤ) :
    (selfRightingStep v log f st now).2.boostForces = log.boostForces := by
  simp only [selfRightingStep, selfRightTriggerBlock_lbf]

theorem limitStep_bbpos (sq : ℚ → ℚ) (b : Body) :
    (limitStep sq b).position = b.position := by
  simp only [limitStep, limitAngularBlock_bbpos, limitLinearBlock_bbpos]

theorem limitStep_bbforce (sq : ℚ → ℚ) (b : Body) :
    (limitStep sq b).force = b.force := by
  simp only [limitStep, limitAngularBlock_bbforce, limitLinearBlock_bbforce]

theorem limitStep_bbtorque (sq : ℚ → ℚ) (b : Body) :
    (limitStep sq b).torque = b.torque := by
  simp only [limitStep, limitAngularBlock_bbtorque, limitLinearBlock_bbtorque]

theorem limitStep_bbquat (sq : ℚ → ℚ) (b : Body) :
    (limitStep sq b).quaternion = b.quaternion := by
  simp only [limitStep, limitAngularBlock_bbquat, limitLinearBlock_bbquat]


theorem updateFromKeyboardPreLimit_imspace (sq : ℚ → ℚ) (v : Vehicle) (now : ℤ) :
    (updateFromKeyboardPreLimit sq v now).1.inputMap.space = v.inputMap.space := by
  simp only [updateFromKeyboardPreLimit, boostStep_imspace, selfRightingStep_imspace, doubleJumpStep_imspace, jumpStep_imspace, aerialStep_imspace, brakeStep_imspace, steerStep_imspace, accelStep_imspace]

theorem updateFromKeyboardPreLimit_imshift (sq : ℚ → ℚ) (v : Vehicle) (now : ℤ) :
    (updateFromKeyboardPreLimit sq v now).1.inputMap.shiftKey = v.inputMap.shiftKey := by
  simp only [updateFromKeyboardPreLimit, boostStep_imshift, selfRightingStep_imshift, doubleJumpStep_imshift, jumpStep_imshift, aerialStep_imshift, brakeStep_imshift, steerStep_imshift, accelStep_imshift]

theorem updateFromKeyboardPreLimit_vup (sq : ℚ → ℚ) (v : Vehicle) (now : ℤ) :
    (updateFromKeyboardPreLimit sq v now).1.up = v.up := by
  simp only [updateFromKeyboardPreLimit, boostStep_vup, selfRightingStep_vup, doubleJumpStep_vup, jumpStep_vup, aerialStep_vup, brakeStep_vup, steerStep_vup, accelStep_vup]

theorem updateFromKeyboardPreLimit_vright (sq : ℚ → ℚ) (v : Vehicle) (now : ℤ) :
    (updateFromKeyboardPreLimit sq v now).1.right = v.right := by
  simp only [updateFromKeyboardPreLimit, boostStep_vright, selfRightingStep_vright, doubleJumpStep_vright, jumpStep_vright, aerialStep_vright, brakeStep_vright, steerStep_vright, accelStep_vright]

theorem updateFromKeyboardPreLimit_vfwd (sq : ℚ → ℚ) (v : Vehicle) (now : ℤ) :
    (updateFromKeyboardPreLimit sq v now).1.forward = v.forward := by
  simp only [updateFromKeyboardPreLimit, boostStep_vfwd, selfRightingStep_vfwd, doubleJumpStep_vfwd, jumpStep_vfwd, aerialStep_vfwd, brakeStep_vfwd, steerStep_vfwd, accelStep_vfwd]

theorem updateFromKeyboardPreLimit_numw (sq : ℚ → ℚ) (v : Vehicle) (now : ℤ) :
    (updateFromKeyboardPreLimit sq v now).1.physicsVehicle.numWheelsOnGround = v.physicsVehicle.numWheelsOnGround := by
  simp only [updateFromKeyboardPreLimit, boostStep_numw, selfRightingStep_numw, doubleJumpStep_numw, jumpStep_numw, aerialStep_numw, brakeStep_numw, steerStep_numw, accelStep_numw]

theorem updateFromKeyboardPreLimit_bpos (sq : ℚ → ℚ) (v : Vehicle) (now : ℤ) :
    (updateFromKeyboardPreLimit sq v now).1.physicsVehicle.chassisBody.position = v.physicsVehicle.chassisBody.position := by
  simp only [updateFromKeyboardPreLimit, boostStep_bpos, selfRightingStep_bpos, doubleJumpStep_bpos, jumpStep_bpos, aerialStep_bpos, brakeStep_bpos, steerStep_bpos, accelStep_bpos]

theorem updateFromKeyboard_imspace (sq : ℚ → ℚ) (v : Vehicle) (now : ℤ) :
    (updateFromKeyboard sq v now).1.inputMap.space = v.inputMap.space := by
  simp only [updateFromKeyboard, updateFromKeyboardPreLimit_imspace]

theorem updateFromKeyboard_imshift (sq : ℚ → ℚ) (v : Vehicle) (now : ℤ) :
    (updateFromKeyboard sq v now).1.inputMap.shiftKey = v.inputMap.shiftKey := by
  simp only [updateFromKeyboard, updateFromKeyboardPreLimit_imshift]

theorem updateFromKeyboard_vup (sq : ℚ → ℚ) (v : Vehicle) (now : ℤ) :
    (updateFromKeyboard sq v now).1.up = v.up := by
  simp only [updateFromKeyboard, updateFromKeyboardPreLimit_vup]

theorem updateFromKeyboard_vright (sq : ℚ → ℚ) (v : Vehicle) (now : ℤ) :
    (updateFromKeyboard sq v now).1.right = v.right := by
  simp only [updateFromKeyboard, updateFromKeyboardPreLimit_vright]

theorem updateFromKeyboard_vfwd (sq : ℚ → ℚ) (v : Vehicle) (now : ℤ) :
    (updateFromKeyboard sq v now).1.forward = v.forward := by
  simp only [updateFromKeyboard, updateFromKeyboardPreLimit_vfwd]

theorem updateFromKeyboard_numw (sq : ℚ → ℚ) (v : Vehicle) (now : ℤ) :
    (updateFromKeyboard sq v now).1.physicsVehicle.numWheelsOnGround = v.physicsVehicle.numWheelsOnGround := by
  simp only [updateFromKeyboard, updateFromKeyboardPreLimit_numw]

theorem updateFromKeyboard_bpos (sq : ℚ → ℚ) (v : Vehicle) (now : ℤ) :
    (updateFromKeyboard sq v now).1.physicsVehicle.chassisBody.position = v.physicsVehicle.chassisBody.position := by
  simp only [updateFromKeyboard, updateFromKeyboardPreLimit_bpos, limitStep_bbpos]

theorem updateFromKeyboard_log (sq : ℚ → ℚ) (v : Vehicle) (now : ℤ) :
    (updateFromKeyboard sq v now).2 = (updateFromKeyboardPreLimit sq v now).2 := rfl


/-! Characterisation lemmas: what each block does when its condition holds,
and that it is the identity when it does not. -/

theorem accelDriveBlock_id (v : Vehicle)
    (hw : v.inputMap.w ≠ some KeyboardEventTypes.keydown)
    (hs : v.inputMap.s ≠ some KeyboardEventTypes.keydown) :
    accelDriveBlock v = v := by
  unfold accelDriveBlock; split_ifs <;> simp_all

theorem accelDriveBlock_cancel (v : Vehicle)
    (hw : v.inputMap.w = some KeyboardEventTypes.keydown)
    (hs : v.inputMap.s = some KeyboardEventTypes.keydown) :
    (accelDriveBlock v).physicsVehicle.wheel0.engineForce = 0 ∧
    (accelDriveBlock v).physicsVehicle.wheel1.engineForce = 0 ∧
    (accelDriveBlock v).physicsVehicle.wheel2.engineForce = 0 ∧
    (accelDriveBlock v).physicsVehicle.wheel3.engineForce = 0 := by
  unfold accelDriveBlock
  rw [if_pos ⟨hw, hs⟩]
  exact ⟨rfl, rfl, rfl, rfl⟩

theorem accelWKeyupBlock_imw (v : Vehicle) :
    (accelWKeyupBlock v).inputMap.w =
      if v.inputMap.w = some KeyboardEventTypes.keyup then none
      else v.inputMap.w := by
  unfold accelWKeyupBlock; split_ifs <;> rfl

theorem accelWKeyupBlock_id (v : Vehicle)
    (h : v.inputMap.w ≠ some KeyboardEventTypes.keyup) :
    accelWKeyupBlock v = v := by
  unfold accelWKeyupBlock; rw [if_neg h]

theorem accelWKeyupBlock_fire (v : Vehicle)
    (h : v.inputMap.w = some KeyboardEventTypes.keyup) :
    (accelWKeyupBlock v).physicsVehicle.wheel0.engineForce = 0 ∧
    (accelWKeyupBlock v).physicsVehicle.wheel1.engineForce = 0 ∧
    (accelWKeyupBlock v).physicsVehicle.wheel2.engineForce = 0 ∧
    (accelWKeyupBlock v).physicsVehicle.wheel3.engineForce = 0 ∧
    (accelWKeyupBlock v).inputMap.w = none := by
  unfold accelWKeyupBlock
  rw [if_pos h]
  exact ⟨rfl, rfl, rfl, rfl, rfl⟩

theorem accelSKeyupBlock_ims (v : Vehicle) :
    (accelSKeyupBlock v).inputMap.s =
      if v.inputMap.s = some KeyboardEventTypes.keyup then none
      else v.inputMap.s := by
  unfold accelSKeyupBlock; split_ifs <;> rfl

theorem accelSKeyupBlock_id (v : Vehicle)
    (h : v.inputMap.s ≠ some KeyboardEventTypes.keyup) :
    accelSKeyupBlock v = v := by
  unfold accelSKeyupBlock; rw [if_neg h]

theorem accelSKeyupBlock_fire (v : Vehicle)
    (h : v.inputMap.s = some KeyboardEventTypes.keyup) :
    (accelSKeyupBlock v).physicsVehicle.wheel0.engineForce = 0 ∧
    (accelSKeyupBlock v).physicsVehicle.wheel1.engineForce = 0 ∧
    (accelSKeyupBlock v).physicsVehicle.wheel2.engineForce = 0 ∧
    (accelSKeyupBlock v).physicsVehicle.wheel3.engineForce = 0 ∧
    (accelSKeyupBlock v).inputMap.s = none := by
  unfold accelSKeyupBlock
  rw [if_pos h]
  exact ⟨rfl, rfl, rfl, rfl, rfl⟩

theorem steerBlock_id (v : Vehicle)
    (ha : v.inputMap.a ≠ some KeyboardEventTypes.keydown)
    (hd : v.inputMap.d ≠ some KeyboardEventTypes.keydown) :
    steerBlock v = v := by
  unfold steerBlock; split_ifs <;> simp_all

theorem steerAKeyupBlock_ima (v : Vehicle) :
    (steerAKeyupBlock v).inputMap.a =
      if v.inputMap.a = some KeyboardEventTypes.keyup then none
      else v.inputMap.a := by
  unfold steerAKeyupBlock; split_ifs <;> rfl

theorem steerAKeyupBlock_id (v : Vehicle)
    (h : v.inputMap.a ≠ some KeyboardEventTypes.keyup) :
    steerAKeyupBlock v = v := by
  unfold steerAKeyupBlock; rw [if_neg h]

theorem steerAKeyupBlock_fire (v : Vehicle)
    (h : v.inputMap.a = some KeyboardEventTypes.keyup) :
    (steerAKeyupBlock v).physicsVehicle.wheel0.steering = 0 ∧
    (steerAKeyupBlock v).physicsVehicle.wheel1.steering = 0 ∧
    (steerAKeyupBlock v).inputMap.a = none := by
  unfold steerAKeyupBlock
  rw [if_pos h]
  exact ⟨rfl, rfl, rfl⟩

theorem steerDKeyupBlock_imd (v : Vehicle) :
    (steerDKeyupBlock v).inputMap.d =
      if v.inputMap.d = some KeyboardEventTypes.keyup then none
      else v.inputMap.d := by
  unfold steerDKeyupBlock; split_ifs <;> rfl

theorem steerDKeyupBlock_id (v : Vehicle)
    (h : v.inputMap.d ≠ some KeyboardEventTypes.keyup) :
    steerDKeyupBlock v = v := by
  unfold steerDKeyupBlock; rw [if_neg h]

theorem steerDKeyupBlock_fire (v : Vehicle)
    (h : v.inputMap.d = some KeyboardEventTypes.keyup) :
    (steerDKeyupBlock v).physicsVehicle.wheel0.steering = 0 ∧
    (steerDKeyupBlock v).physicsVehicle.wheel1.steering = 0 ∧
    (steerDKeyupBlock v).inputMap.d = none := by
  unfold steerDKeyupBlock
  rw [if_pos h]
  exact ⟨rfl, rfl, rfl⟩

theorem brakeOnBlock_id (v : Vehicle)
    (h : v.inputMap.shiftKey ≠ some true) : brakeOnBlock v = v := by
  unfold brakeOnBlock; rw [if_neg h]

theorem brakeOffBlock_id (v : Vehicle)
    (h : v.inputMap.shiftKey ≠ some false) : brakeOffBlock v = v := by
  unfold brakeOffBlock; rw [if_neg h]

theorem groundRearmBlock_used_char (v : Vehicle) (g : Bool) :
    (groundRearmBlock v g).hasUsedDoubleJump =
      if g = true then false else v.hasUsedDoubleJump := by
  unfold groundRearmBlock; split_ifs <;> rfl

theorem groundRearmBlock_id (v : Vehicle) : groundRearmBlock v false = v := rfl

theorem spaceKeyupBlock_id (v : Vehicle)
    (h : v.inputMap.space ≠ some KeyboardEventTypes.keyup) :
    spaceKeyupBlock v = v := by
  unfold spaceKeyupBlock; rw [if_neg h]

theorem spaceKeyupBlock_fire (v : Vehicle)
    (h : v.inputMap.space = some KeyboardEventTypes.keyup) :
    (spaceKeyupBlock v).hasStoppedJumping = true ∧
    (spaceKeyupBlock v).isJumping = false := by
  unfold spaceKeyupBlock
  rw [if_pos h]
  exact ⟨rfl, rfl⟩

theorem spaceKeyupBlock_latch_char (v : Vehicle) :
    (spaceKeyupBlock v).hasStoppedJumping =
      if v.inputMap.space = some KeyboardEventTypes.keyup then true
      else v.hasStoppedJumping := by
  unfold spaceKeyupBlock; split_ifs <;> rfl

theorem groundJumpBlock_id (v : Vehicle) (g : Bool) (now : ℤ)
    (h : ¬(v.inputMap.space = some KeyboardEventTypes.keydown ∧ g = true ∧
        v.hasStoppedJumping = true)) :
    groundJumpBlock v g now = v := by
  unfold groundJumpBlock; rw [if_neg h]

theorem groundJumpBlock_fire (v : Vehicle) (g : Bool) (now : ℤ)
    (h1 : v.inputMap.space = some KeyboardEventTypes.keydown) (h2 : g = true)
    (h3 : v.hasStoppedJumping = true) :
    (groundJumpBlock v g now).isJumping = true ∧
    (groundJumpBlock v g now).lastJumpTime = some now ∧
    (groundJumpBlock v g now).hasStoppedJumping = false := by
  unfold groundJumpBlock
  rw [if_pos ⟨h1, h2, h3⟩]
  exact ⟨rfl, rfl, rfl⟩

theorem groundJumpBlock_latch_char (v : Vehicle) (g : Bool) (now : ℤ) :
    (groundJumpBlock v g now).hasStoppedJumping =
      if v.inputMap.space = some KeyboardEventTypes.keydown ∧ g = true ∧
          v.hasStoppedJumping = true then false
      else v.hasStoppedJumping := by
  unfold groundJumpBlock; split_ifs <;> rfl

theorem doubleJumpStep_id (sq : ℚ → ℚ) (v : Vehicle) (log : TickLog)
    (cdj : Bool) (now : ℤ)
    (h : ¬(v.inputMap.space = some KeyboardEventTypes.keydown ∧ cdj = true)) :
    doubleJumpStep sq v log cdj now = (v, log) := by
  unfold doubleJumpStep; rw [if_neg h]

theorem doubleJumpStep_fire (sq : ℚ → ℚ) (v : Vehicle) (log : TickLog)
    (cdj : Bool) (now : ℤ)
    (h1 : v.inputMap.space = some KeyboardEventTypes.keydown)
    (h2 : cdj = true) :
    doubleJumpStep sq v log cdj now = doubleJumpBody sq v log now := by
  unfold doubleJumpStep; rw [if_pos ⟨h1, h2⟩]

theorem doubleJumpBody_used (sq : ℚ → ℚ) (v : Vehicle) (log : TickLog)
    (now : ℤ) : (doubleJumpBody sq v log now).1.hasUsedDoubleJump = true := by
  simp only [doubleJumpBody, flipIf_used, neutralImpulseBlock_used]

theorem doubleJumpBody_latch (sq : ℚ → ℚ) (v : Vehicle) (log : TickLog)
    (now : ℤ) : (doubleJumpBody sq v log now).1.hasStoppedJumping = false := by
  simp only [doubleJumpBody, flipIf_latch, neutralImpulseBlock_latch]

theorem selfRightCompletionBlock_id (v : Vehicle) (f : Bool)
    (h : ¬(v.isSelfRighting = true ∧ f = true)) :
    selfRightCompletionBlock v f = v := by
  unfold selfRightCompletionBlock; rw [if_neg h]

theorem selfRightCompletionBlock_fire (v : Vehicle) (f : Bool)
    (h1 : v.isSelfRighting = true) (h2 : f = true) :
    (selfRightCompletionBlock v f).isSelfRighting = false ∧
    (selfRightCompletionBlock v f).physicsVehicle.chassisBody.torque = ⟨0, 0, 0⟩ ∧
    (selfRightCompletionBlock v f).physicsVehicle.chassisBody.angularVelocity = ⟨0, 0, 0⟩ := by
  unfold selfRightCompletionBlock
  rw [if_pos ⟨h1, h2⟩]
  exact ⟨rfl, rfl, rfl⟩

theorem selfRightCompletionBlock_selfr_char (v : Vehicle) (f : Bool) :
    (selfRightCompletionBlock v f).isSelfRighting =
      (v.isSelfRighting && !f) := by
  cases hv : v.isSelfRighting <;> cases hf : f <;>
    unfold selfRightCompletionBlock <;> simp_all

theorem selfRightTriggerBlock_id (v : Vehicle) (log : TickLog) (st : Bool)
    (now : ℤ)
    (h : ¬(v.inputMap.space = some KeyboardEventTypes.keydown ∧ st = true ∧
        v.hasStoppedJumping = true ∧ v.isSelfRighting = false)) :
    selfRightTriggerBlock v log st now = (v, log) := by
  unfold selfRightTriggerBlock; rw [if_neg h]

theorem selfRightTriggerBlock_fire (v : Vehicle) (log : TickLog) (st : Bool)
    (now : ℤ)
    (h1 : v.inputMap.space = some KeyboardEventTypes.keydown) (h2 : st = true)
    (h3 : v.hasStoppedJumping = true) (h4 : v.isSelfRighting = false) :
    (selfRightTriggerBlock v log st now).1.isSelfRighting = true ∧
    (selfRightTriggerBlock v log st now).1.lastJumpTime = none ∧
    (selfRightTriggerBlock v log st now).2.selfRightingImpulses =
      log.selfRightingImpulses ++ [v.up.scale selfRightingForceAmount] ∧
    (selfRightTriggerBlock v log st now).2.scheduledSelfRightingTorqueTimes =
      log.scheduledSelfRightingTorqueTimes ++
        [now + selfRightingTorqueDelayAmountMilliseconds] := by
  unfold selfRightTriggerBlock
  rw [if_pos ⟨h1, h2, h3, h4⟩]
  exact ⟨rfl, rfl, rfl, rfl⟩

theorem limitAngularBlock_zero (sq : ℚ → ℚ) (b : Body)
    (h : b.angularVelocity = ⟨0, 0, 0⟩) :
    (limitAngularBlock sq b).angularVelocity = ⟨0, 0, 0⟩ := by
  unfold limitAngularBlock
  split_ifs with hc
  · simp only [h] at hc ⊢
    unfold Vec3.unit
    rw [if_pos]
    · simp [Vec3.scale]
    · unfold Vec3.length Vec3.normSq at hc
      unfold Vec3.normSq
      have : (0 : ℚ) < maxAngularVelocity := by norm_num [maxAngularVelocity]
      norm_num at hc ⊢
      linarith
  · exact h

theorem limitLinearBlock_bbang (sq : ℚ → ℚ) (b : Body) :
    (limitLinearBlock sq b).angularVelocity = b.angularVelocity := by
  unfold limitLinearBlock; split_ifs <;> rfl

theorem limitStep_zero_ang (sq : ℚ → ℚ) (b : Body)
    (h : b.angularVelocity = ⟨0, 0, 0⟩) :
    (limitStep sq b).angularVelocity = ⟨0, 0, 0⟩ := by
  simp only [limitStep, limitLinearBlock_bbang]
  exact limitAngularBlock_zero sq b h


/-! Tick-level projection lemmas: routing each observable through the
pipeline to the last block that writes it. -/

theorem tick_e0 (sq : ℚ → ℚ) (v : Vehicle) (now : ℤ) :
    (updateFromKeyboard sq v now).1.physicsVehicle.wheel0.engineForce =
      (accelStep v).physicsVehicle.wheel0.engineForce := by
  simp only [updateFromKeyboard, updateFromKeyboardPreLimit, boostStep_e0,
    selfRightingStep_e0, doubleJumpStep_e0, jumpStep_e0, aerialStep_e0,
    brakeStep_e0, steerStep_e0]

theorem tick_e1 (sq : ℚ → ℚ) (v : Vehicle) (now : ℤ) :
    (updateFromKeyboard sq v now).1.physicsVehicle.wheel1.engineForce =
      (accelStep v).physicsVehicle.wheel1.engineForce := by
  simp only [updateFromKeyboard, updateFromKeyboardPreLimit, boostStep_e1,
    selfRightingStep_e1, doubleJumpStep_e1, jumpStep_e1, aerialStep_e1,
    brakeStep_e1, steerStep_e1]

theorem tick_e2 (sq : ℚ → ℚ) (v : Vehicle) (now : ℤ) :
    (updateFromKeyboard sq v now).1.physicsVehicle.wheel2.engineForce =
      (accelStep v).physicsVehicle.wheel2.engineForce := by
  simp only [updateFromKeyboard, updateFromKeyboardPreLimit, boostStep_e2,
    selfRightingStep_e2, doubleJumpStep_e2, jumpStep_e2, aerialStep_e2,
    brakeStep_e2, steerStep_e2]

theorem tick_e3 (sq : ℚ → ℚ) (v : Vehicle) (now : ℤ) :
    (updateFromKeyboard sq v now).1.physicsVehicle.wheel3.engineForce =
      (accelStep v).physicsVehicle.wheel3.engineForce := by
  simp only [updateFromKeyboard, updateFromKeyboardPreLimit, boostStep_e3,
    selfRightingStep_e3, doubleJumpStep_e3, jumpStep_e3, aerialStep_e3,
    brakeStep_e3, steerStep_e3]

theorem tick_st0 (sq : ℚ → ℚ) (v : Vehicle) (now : ℤ) :
    (updateFromKeyboard sq v now).1.physicsVehicle.wheel0.steering =
      (steerStep (accelStep v)).physicsVehicle.wheel0.steering := by
  simp only [updateFromKeyboard, updateFromKeyboardPreLimit, boostStep_st0,
    selfRightingStep_st0, doubleJumpStep_st0, jumpStep_st0, aerialStep_st0,
    brakeStep_st0]

theorem tick_st1 (sq : ℚ → ℚ) (v : Vehicle) (now : ℤ) :
    (updateFromKeyboard sq v now).1.physicsVehicle.wheel1.steering =
      (steerStep (accelStep v)).physicsVehicle.wheel1.steering := by
  simp only [updateFromKeyboard, updateFromKeyboardPreLimit, boostStep_st1,
    selfRightingStep_st1, doubleJumpStep_st1, jumpStep_st1, aerialStep_st1,
    brakeStep_st1]

theorem tick_imw (sq : ℚ → ℚ) (v : Vehicle) (now : ℤ) :
    (updateFromKeyboard sq v now).1.inputMap.w = (accelStep v).inputMap.w := by
  simp only [updateFromKeyboard, updateFromKeyboardPreLimit, boostStep_imw,
    selfRightingStep_imw, doubleJumpStep_imw, jumpStep_imw, aerialStep_imw,
    brakeStep_imw, steerStep_imw]

theorem tick_ims (sq : ℚ → ℚ) (v : Vehicle) (now : ℤ) :
    (updateFromKeyboard sq v now).1.inputMap.s = (accelStep v).inputMap.s := by
  simp only [updateFromKeyboard, updateFromKeyboardPreLimit, boostStep_ims,
    selfRightingStep_ims, doubleJumpStep_ims, jumpStep_ims, aerialStep_ims,
    brakeStep_ims, steerStep_ims]

theorem tick_ima (sq : ℚ → ℚ) (v : Vehicle) (now : ℤ) :
    (updateFromKeyboard sq v now).1.inputMap.a =
      (steerStep (accelStep v)).inputMap.a := by
  simp only [updateFromKeyboard, updateFromKeyboardPreLimit, boostStep_ima,
    selfRightingStep_ima, doubleJumpStep_ima, jumpStep_ima, aerialStep_ima,
    brakeStep_ima]

theorem tick_imd (sq : ℚ → ℚ) (v : Vehicle) (now : ℤ) :
    (updateFromKeyboard sq v now).1.inputMap.d =
      (steerStep (accelStep v)).inputMap.d := by
  simp only [updateFromKeyboard, updateFromKeyboardPreLimit, boostStep_imd,
    selfRightingStep_imd, doubleJumpStep_imd, jumpStep_imd, aerialStep_imd,
    brakeStep_imd]

/-! Step-level characterisations of the key-up edge clearing. -/

theorem accelStep_imw_char (v : Vehicle) :
    (accelStep v).inputMap.w =
      if v.inputMap.w = some KeyboardEventTypes.keyup then none
      else v.inputMap.w := by
  simp only [accelStep, accelSKeyupBlock_imw, accelWKeyupBlock_imw,
    accelDriveBlock_imw]

theorem accelStep_ims_char (v : Vehicle) :
    (accelStep v).inputMap.s =
      if v.inputMap.s = some KeyboardEventTypes.keyup then none
      else v.inputMap.s := by
  simp only [accelStep, accelSKeyupBlock_ims, accelWKeyupBlock_ims,
    accelDriveBlock_ims]

theorem steerStep_ima_char (v : Vehicle) :
    (steerStep v).inputMap.a =
      if v.inputMap.a = some KeyboardEventTypes.keyup then none
      else v.inputMap.a := by
  simp only [steerStep, steerDKeyupBlock_ima, steerAKeyupBlock_ima,
    steerBlock_ima]

theorem steerStep_imd_char (v : Vehicle) :
    (steerStep v).inputMap.d =
      if v.inputMap.d = some KeyboardEventTypes.keyup then none
      else v.inputMap.d := by
  simp only [steerStep, steerDKeyupBlock_imd, steerAKeyupBlock_imd,
    steerBlock_imd]

/-- Both drive keys held: the engine force commanded on all four wheels is
zero at the end of the acceleration statements. -/
theorem accelStep_cancel (v : Vehicle)
    (hw : v.inputMap.w = some KeyboardEventTypes.keydown)
    (hs : v.inputMap.s = some KeyboardEventTypes.keydown) :
    (accelStep v).physicsVehicle.wheel0.engineForce = 0 ∧
    (accelStep v).physicsVehicle.wheel1.engineForce = 0 ∧
    (accelStep v).physicsVehicle.wheel2.engineForce = 0 ∧
    (accelStep v).physicsVehicle.wheel3.engineForce = 0 := by
  have hw1 : (accelDriveBlock v).inputMap.w = some KeyboardEventTypes.keydown := by
    rw [accelDriveBlock_imw]; exact hw
  have hs1 : (accelDriveBlock v).inputMap.s = some KeyboardEventTypes.keydown := by
    rw [accelDriveBlock_ims]; exact hs
  have hW : accelWKeyupBlock (accelDriveBlock v) = accelDriveBlock v :=
    accelWKeyupBlock_id _ (by rw [hw1]; simp)
  have hS : accelSKeyupBlock (accelDriveBlock v) = accelDriveBlock v :=
    accelSKeyupBlock_id _ (by rw [hs1]; simp)
  have : accelStep v = accelDriveBlock v := by
    simp only [accelStep, hW, hS]
  rw [this]
  exact accelDriveBlock_cancel v hw hs


/-- Claim C9: if the accelerate key and the reverse key are both in the
`down` edge state on a tick, the engine force commanded to every wheel at
the end of that tick is exactly zero; the inputs cancel. -/
theorem accel_reverse_cancel (sq : ℚ → ℚ) (v : Vehicle) (now : ℤ)
    (hw : v.inputMap.w = some KeyboardEventTypes.keydown)
    (hs : v.inputMap.s = some KeyboardEventTypes.keydown) :
    (updateFromKeyboard sq v now).1.physicsVehicle.wheel0.engineForce = 0 ∧
    (updateFromKeyboard sq v now).1.physicsVehicle.wheel1.engineForce = 0 ∧
    (updateFromKeyboard sq v now).1.physicsVehicle.wheel2.engineForce = 0 ∧
    (updateFromKeyboard sq v now).1.physicsVehicle.wheel3.engineForce = 0 := by
  obtain ⟨h0, h1, h2, h3⟩ := accelStep_cancel v hw hs
  exact ⟨by rw [tick_e0]; exact h0, by rw [tick_e1]; exact h1,
         by rw [tick_e2]; exact h2, by rw [tick_e3]; exact h3⟩

/-- Witness for C9 at a concrete state with both drive keys down. -/
theorem accel_reverse_cancel_witness :
    ({ sampleVehicle with inputMap :=
        { sampleInput with w := some KeyboardEventTypes.keydown,
                           s := some KeyboardEventTypes.keydown } } :
      Vehicle).inputMap.w = some KeyboardEventTypes.keydown ∧
    (updateFromKeyboard (fun _ => 0)
        { sampleVehicle with inputMap :=
          { sampleInput with w := some KeyboardEventTypes.keydown,
                             s := some KeyboardEventTypes.keydown } }
        0).1.physicsVehicle.wheel2.engineForce = 0 := by
  refine ⟨rfl, ?_⟩
  exact (accel_reverse_cancel (fun _ => 0) _ 0 rfl rfl).2.2.1

/-- Claim C3 counterexample: `reset` does not clear TimingState — a state
with `isSelfRighting` set and a recorded `lastJumpTime` keeps both across
`reset`, so a stale self-righting flag and double-jump window do survive. -/
theorem reset_preserves_timing_cx :
    (Vehicle.reset
        { sampleVehicle with isSelfRighting := true, lastJumpTime := some 0,
                             hasUsedDoubleJump := true }).isSelfRighting = true ∧
    (Vehicle.reset
        { sampleVehicle with isSelfRighting := true, lastJumpTime := some 0,
                             hasUsedDoubleJump := true }).lastJumpTime = some 0 ∧
    (Vehicle.reset
        { sampleVehicle with isSelfRighting := true, lastJumpTime := some 0,
                             hasUsedDoubleJump := true }).hasUsedDoubleJump = true := by
  exact ⟨rfl, rfl, rfl⟩

/-- Claim C3 (amended): `reset` restores the chassis position, orientation,
linear velocity and angular velocity to their initial values, and leaves
every TimingState field (timestamps and flags) unchanged — it does not
clear them. -/
theorem reset_restores_transform_only (v : Vehicle) :
    (v.reset).physicsVehicle.chassisBody.position =
      v.physicsVehicle.chassisBody.initPosition ∧
    (v.reset).physicsVehicle.chassisBody.quaternion =
      v.physicsVehicle.chassisBody.initQuaternion ∧
    (v.reset).physicsVehicle.chassisBody.velocity =
      v.physicsVehicle.chassisBody.initVelocity ∧
    (v.reset).physicsVehicle.chassisBody.angularVelocity =
      v.physicsVehicle.chassisBody.initAngularVelocity ∧
    (v.reset).lastJumpTime = v.lastJumpTime ∧
    (v.reset).lastFlipTime = v.lastFlipTime ∧
    (v.reset).hasStoppedJumping = v.hasStoppedJumping ∧
    (v.reset).hasUsedDoubleJump = v.hasUsedDoubleJump ∧
    (v.reset).isSelfRighting = v.isSelfRighting ∧
    (v.reset).isJumping = v.isJumping ∧
    (v.reset).inputMap = v.inputMap := by
  exact ⟨rfl, rfl, rfl, rfl, rfl, rfl, rfl, rfl, rfl, rfl, rfl⟩


theorem spaceKeyupBlock_isj_char (v : Vehicle) :
    (spaceKeyupBlock v).isJumping =
      if v.inputMap.space = some KeyboardEventTypes.keyup then false
      else v.isJumping := by
  unfold spaceKeyupBlock; split_ifs <;> rfl

theorem groundJumpBlock_isj_char (v : Vehicle) (g : Bool) (now : ℤ) :
    (groundJumpBlock v g now).isJumping =
      if v.inputMap.space = some KeyboardEventTypes.keydown ∧ g = true ∧
          v.hasStoppedJumping = true then true
      else v.isJumping := by
  unfold groundJumpBlock; split_ifs <;> rfl

theorem groundJumpBlock_ljt_char (v : Vehicle) (g : Bool) (now : ℤ) :
    (groundJumpBlock v g now).lastJumpTime =
      if v.inputMap.space = some KeyboardEventTypes.keydown ∧ g = true ∧
          v.hasStoppedJumping = true then some now
      else v.lastJumpTime := by
  unfold groundJumpBlock; split_ifs <;> rfl

theorem doubleJumpStep_used_char (sq : ℚ → ℚ) (v : Vehicle) (log : TickLog)
    (cdj : Bool) (now : ℤ) :
    (doubleJumpStep sq v log cdj now).1.hasUsedDoubleJump =
      if v.inputMap.space = some KeyboardEventTypes.keydown ∧ cdj = true
      then true else v.hasUsedDoubleJump := by
  unfold doubleJumpStep
  split_ifs with hc
  · rw [doubleJumpBody_used]
  · rfl

theorem doubleJumpStep_latch_char (sq : ℚ → ℚ) (v : Vehicle) (log : TickLog)
    (cdj : Bool) (now : ℤ) :
    (doubleJumpStep sq v log cdj now).1.hasStoppedJumping =
      if v.inputMap.space = some KeyboardEventTypes.keydown ∧ cdj = true
      then false else v.hasStoppedJumping := by
  unfold doubleJumpStep
  split_ifs with hc
  · rw [doubleJumpBody_latch]
  · rfl

theorem selfRightingStep_selfr_char (v : Vehicle) (log : TickLog)
    (f st : Bool) (now : ℤ) :
    (selfRightingStep v log f st now).1.isSelfRighting =
      if v.inputMap.space = some KeyboardEventTypes.keydown ∧ st = true ∧
          v.hasStoppedJumping = true ∧ (v.isSelfRighting && !f) = false
      then true else (v.isSelfRighting && !f) := by
  unfold selfRightingStep
  unfold selfRightTriggerBlock
  simp only [selfRightCompletionBlock_selfr_char, selfRightCompletionBlock_imspace,
    selfRightCompletionBlock_latch]
  split_ifs <;> simp only [selfRightCompletionBlock_selfr_char]

theorem selfRightingStep_ljt_char (v : Vehicle) (log : TickLog)
    (f st : Bool) (now : ℤ) :
    (selfRightingStep v log f st now).1.lastJumpTime =
      if v.inputMap.space = some KeyboardEventTypes.keydown ∧ st = true ∧
          v.hasStoppedJumping = true ∧ (v.isSelfRighting && !f) = false
      then none else v.lastJumpTime := by
  unfold selfRightingStep
  unfold selfRightTriggerBlock
  simp only [selfRightCompletionBlock_selfr_char, selfRightCompletionBlock_imspace,
    selfRightCompletionBlock_latch, selfRightCompletionBlock_ljt]
  split_ifs <;> simp only [selfRightCompletionBlock_ljt]

theorem selfRightingStep_srlogs_char (v : Vehicle) (log : TickLog)
    (f st : Bool) (now : ℤ) :
    (selfRightingStep v log f st now).2.selfRightingImpulses =
      (if v.inputMap.space = some KeyboardEventTypes.keydown ∧ st = true ∧
          v.hasStoppedJumping = true ∧ (v.isSelfRighting && !f) = false
       then log.selfRightingImpulses ++ [v.up.scale selfRightingForceAmount]
       else log.selfRightingImpulses) ∧
    (selfRightingStep v log f st now).2.scheduledSelfRightingTorqueTimes =
      (if v.inputMap.space = some KeyboardEventTypes.keydown ∧ st = true ∧
          v.hasStoppedJumping = true ∧ (v.isSelfRighting && !f) = false
       then log.scheduledSelfRightingTorqueTimes ++
         [now + selfRightingTorqueDelayAmountMilliseconds]
       else log.scheduledSelfRightingTorqueTimes) := by
  unfold selfRightingStep
  unfold selfRightTriggerBlock
  simp only [selfRightCompletionBlock_selfr_char, selfRightCompletionBlock_imspace,
    selfRightCompletionBlock_latch, selfRightCompletionBlock_vup]
  split_ifs <;>
    exact ⟨by simp only [selfRightCompletionBlock_vup], by simp only []⟩


/-- Master characterisation of one tick: the final values of the latch, the
jump flag, the double-jump flag, the self-righting flag, the last-jump
timestamp and the self-righting effect log, as functions of the entry
state, mirroring the statement order of `updateFromKeyboard`. -/
theorem tick_state_chars (sq : ℚ → ℚ) (v : Vehicle) (now : ℤ) :
    (updateFromKeyboard sq v now).1.hasStoppedJumping =
      (if v.inputMap.space = some KeyboardEventTypes.keydown ∧
          canDoubleJump v now = true then false
       else if v.inputMap.space = some KeyboardEventTypes.keydown ∧
          areWheelsOnGround v = true ∧
          (if v.inputMap.space = some KeyboardEventTypes.keyup then true
           else v.hasStoppedJumping) = true then false
       else if v.inputMap.space = some KeyboardEventTypes.keyup then true
       else v.hasStoppedJumping) ∧
    (updateFromKeyboard sq v now).1.isJumping =
      (if v.inputMap.space = some KeyboardEventTypes.keydown ∧
          areWheelsOnGround v = true ∧
          (if v.inputMap.space = some KeyboardEventTypes.keyup then true
           else v.hasStoppedJumping) = true then true
       else if v.inputMap.space = some KeyboardEventTypes.keyup then false
       else v.isJumping) ∧
    (updateFromKeyboard sq v now).1.hasUsedDoubleJump =
      (if v.inputMap.space = some KeyboardEventTypes.keydown ∧
          canDoubleJump v now = true then true
       else if areWheelsOnGround v = true then false
       else v.hasUsedDoubleJump) ∧
    (updateFromKeyboard sq v now).1.isSelfRighting =
      (if v.inputMap.space = some KeyboardEventTypes.keydown ∧
          isStuckUpsideDown v = true ∧
          (if v.inputMap.space = some KeyboardEventTypes.keydown ∧
              canDoubleJump v now = true then false
           else if v.inputMap.space = some KeyboardEventTypes.keydown ∧
              areWheelsOnGround v = true ∧
              (if v.inputMap.space = some KeyboardEventTypes.keyup then true
               else v.hasStoppedJumping) = true then false
           else if v.inputMap.space = some KeyboardEventTypes.keyup then true
           else v.hasStoppedJumping) = true ∧
          (v.isSelfRighting && !(isFacingUpwards v)) = false then true
       else (v.isSelfRighting && !(isFacingUpwards v))) ∧
    (updateFromKeyboard sq v now).1.lastJumpTime =
      (if v.inputMap.space = some KeyboardEventTypes.keydown ∧
          isStuckUpsideDown v = true ∧
          (if v.inputMap.space = some KeyboardEventTypes.keydown ∧
              canDoubleJump v now = true then false
           else if v.inputMap.space = some KeyboardEventTypes.keydown ∧
              areWheelsOnGround v = true ∧
              (if v.inputMap.space = some KeyboardEventTypes.keyup then true
               else v.hasStoppedJumping) = true then false
           else if v.inputMap.space = some KeyboardEventTypes.keyup then true
           else v.hasStoppedJumping) = true ∧
          (v.isSelfRighting && !(isFacingUpwards v)) = false then none
       else if v.inputMap.space = some KeyboardEventTypes.keydown ∧
          areWheelsOnGround v = true ∧
          (if v.inputMap.space = some KeyboardEventTypes.keyup then true
           else v.hasStoppedJumping) = true then some now
       else v.lastJumpTime) ∧
    (updateFromKeyboard sq v now).2.selfRightingImpulses =
      (if v.inputMap.space = some KeyboardEventTypes.keydown ∧
          isStuckUpsideDown v = true ∧
          (if v.inputMap.space = some KeyboardEventTypes.keydown ∧
              canDoubleJump v now = true then false
           else if v.inputMap.space = some KeyboardEventTypes.keydown ∧
              areWheelsOnGround v = true ∧
              (if v.inputMap.space = some KeyboardEventTypes.keyup then true
               else v.hasStoppedJumping) = true then false
           else if v.inputMap.space = some KeyboardEventTypes.keyup then true
           else v.hasStoppedJumping) = true ∧
          (v.isSelfRighting && !(isFacingUpwards v)) = false
       then [v.up.scale selfRightingForceAmount] else []) ∧
    (updateFromKeyboard sq v now).2.scheduledSelfRightingTorqueTimes =
      (if v.inputMap.space = some KeyboardEventTypes.keydown ∧
          isStuckUpsideDown v = true ∧
          (if v.inputMap.space = some KeyboardEventTypes.keydown ∧
              canDoubleJump v now = true then false
           else if v.inputMap.space = some KeyboardEventTypes.keydown ∧
              areWheelsOnGround v = true ∧
              (if v.inputMap.space = some KeyboardEventTypes.keyup then true
               else v.hasStoppedJumping) = true then false
           else if v.inputMap.space = some KeyboardEventTypes.keyup then true
           else v.hasStoppedJumping) = true ∧
          (v.isSelfRighting && !(isFacingUpwards v)) = false
       then [now + selfRightingTorqueDelayAmountMilliseconds] else []) := by
  set g := areWheelsOnGround v with hg
  set fUp := isFacingUpwards v with hfUp
  set stuck := isStuckUpsideDown v with hstuck
  set tsf := timeSinceLastFlip v now with htsf
  set tsj := timeSinceLastJump v now with htsj
  set cdj := canDoubleJump v now with hcdj
  set v3 := brakeStep (steerStep (accelStep v)) with hv3
  set p4 := aerialStep v3 TickLog.empty g tsf with hp4
  set q1 := groundRearmBlock p4.1 g with hq1
  set q2 := spaceKeyupBlock q1 with hq2
  set q3 := groundJumpBlock q2 g now with hq3
  set p5 := jumpForceBlock q3 p4.2 tsj with hp5
  set p6 := doubleJumpStep sq p5.1 p5.2 cdj now with hp6
  set p7 := selfRightingStep p6.1 p6.2 fUp stuck now with hp7
  set p8 := boostStep p7.1 p7.2 with hp8
  have h3sp : v3.inputMap.space = v.inputMap.space := by
    rw [hv3, brakeStep_imspace, steerStep_imspace, accelStep_imspace]
  have h3la : v3.hasStoppedJumping = v.hasStoppedJumping := by
    rw [hv3, brakeStep_latch, steerStep_latch, accelStep_latch]
  have h3ij : v3.isJumping = v.isJumping := by
    rw [hv3, brakeStep_isj, steerStep_isj, accelStep_isj]
  have h3lj : v3.lastJumpTime = v.lastJumpTime := by
    rw [hv3, brakeStep_ljt, steerStep_ljt, accelStep_ljt]
  have h3us : v3.hasUsedDoubleJump = v.hasUsedDoubleJump := by
    rw [hv3, brakeStep_used, steerStep_used, accelStep_used]
  have h3sr : v3.isSelfRighting = v.isSelfRighting := by
    rw [hv3, brakeStep_selfr, steerStep_selfr, accelStep_selfr]
  have h3up : v3.up = v.up := by
    rw [hv3, brakeStep_vup, steerStep_vup, accelStep_vup]
  have h4sp : p4.1.inputMap.space = v.inputMap.space := by
    rw [hp4, aerialStep_imspace, h3sp]
  have h4la : p4.1.hasStoppedJumping = v.hasStoppedJumping := by
    rw [hp4, aerialStep_latch, h3la]
  have h4ij : p4.1.isJumping = v.isJumping := by
    rw [hp4, aerialStep_isj, h3ij]
  have h4lj : p4.1.lastJumpTime = v.lastJumpTime := by
    rw [hp4, aerialStep_ljt, h3lj]
  have h4us : p4.1.hasUsedDoubleJump = v.hasUsedDoubleJump := by
    rw [hp4, aerialStep_used, h3us]
  have h4sr : p4.1.isSelfRighting = v.isSelfRighting := by
    rw [hp4, aerialStep_selfr, h3sr]
  have h4up : p4.1.up = v.up := by
    rw [hp4, aerialStep_vup, h3up]
  have hq1sp : q1.inputMap.space = v.inputMap.space := by
    rw [hq1, groundRearmBlock_imspace, h4sp]
  have hq1la : q1.hasStoppedJumping = v.hasStoppedJumping := by
    rw [hq1, groundRearmBlock_latch, h4la]
  have hq1ij : q1.isJumping = v.isJumping := by
    rw [hq1, groundRearmBlock_isj, h4ij]
  have hq1lj : q1.lastJumpTime = v.lastJumpTime := by
    rw [hq1, groundRearmBlock_ljt, h4lj]
  have hq1us : q1.hasUsedDoubleJump =
      (if g = true then false else v.hasUsedDoubleJump) := by
    rw [hq1, groundRearmBlock_used_char, h4us]
  have hq1sr : q1.isSelfRighting = v.isSelfRighting := by
    rw [hq1, groundRearmBlock_selfr, h4sr]
  have hq1up : q1.up = v.up := by
    rw [hq1, groundRearmBlock_vup, h4up]
  have hq2sp : q2.inputMap.space = v.inputMap.space := by
    rw [hq2, spaceKeyupBlock_imspace, hq1sp]
  have hq2la : q2.hasStoppedJumping =
      (if v.inputMap.space = some KeyboardEventTypes.keyup then true
       else v.hasStoppedJumping) := by
    rw [hq2, spaceKeyupBlock_latch_char, hq1sp, hq1la]
  have hq2ij : q2.isJumping =
      (if v.inputMap.space = some KeyboardEventTypes.keyup then false
       else v.isJumping) := by
    rw [hq2, spaceKeyupBlock_isj_char, hq1sp, hq1ij]
  have hq2lj : q2.lastJumpTime = v.lastJumpTime := by
    rw [hq2, spaceKeyupBlock_ljt, hq1lj]
  have hq2us : q2.hasUsedDoubleJump =
      (if g = true then false else v.hasUsedDoubleJump) := by
    rw [hq2, spaceKeyupBlock_used, hq1us]
  have hq2sr : q2.isSelfRighting = v.isSelfRighting := by
    rw [hq2, spaceKeyupBlock_selfr, hq1sr]
  have hq2up : q2.up = v.up := by
    rw [hq2, spaceKeyupBlock_vup, hq1up]
  have hq3sp : q3.inputMap.space = v.inputMap.space := by
    rw [hq3, groundJumpBlock_imspace, hq2sp]
  have hq3la : q3.hasStoppedJumping =
      (if v.inputMap.space = some KeyboardEventTypes.keydown ∧ g = true ∧
          (if v.inputMap.space = some KeyboardEventTypes.keyup then true
           else v.hasStoppedJumping) = true then false
       else if v.inputMap.space = some KeyboardEventTypes.keyup then true
       else v.hasStoppedJumping) := by
    rw [hq3, groundJumpBlock_latch_char, hq2sp, hq2la]
  have hq3ij : q3.isJumping =
      (if v.inputMap.space = some KeyboardEventTypes.keydown ∧ g = true ∧
          (if v.inputMap.space = some KeyboardEventTypes.keyup then true
           else v.hasStoppedJumping) = true then true
       else if v.inputMap.space = some KeyboardEventTypes.keyup then false
       else v.isJumping) := by
    rw [hq3, groundJumpBlock_isj_char, hq2sp, hq2la, hq2ij]
  have hq3lj : q3.lastJumpTime =
      (if v.inputMap.space = some KeyboardEventTypes.keydown ∧ g = true ∧
          (if v.inputMap.space = some KeyboardEventTypes.keyup then true
           else v.hasStoppedJumping) = true then some now
       else v.lastJumpTime) := by
    rw [hq3, groundJumpBlock_ljt_char, hq2sp, hq2la, hq2lj]
  have hq3us : q3.hasUsedDoubleJump =
      (if g = true then false else v.hasUsedDoubleJump) := by
    rw [hq3, groundJumpBlock_used, hq2us]
  have hq3sr : q3.isSelfRighting = v.isSelfRighting := by
    rw [hq3, groundJumpBlock_selfr, hq2sr]
  have hq3up : q3.up = v.up := by
    rw [hq3, groundJumpBlock_vup, hq2up]
  have h5sp : p5.1.inputMap.space = v.inputMap.space := by
    rw [hp5, jumpForceBlock_imspace, hq3sp]
  have h5la : p5.1.hasStoppedJumping = q3.hasStoppedJumping := by
    rw [hp5, jumpForceBlock_latch]
  have h5ij : p5.1.isJumping = q3.isJumping := by
    rw [hp5, jumpForceBlock_isj]
  have h5lj : p5.1.lastJumpTime = q3.lastJumpTime := by
    rw [hp5, jumpForceBlock_ljt]
  have h5us : p5.1.hasUsedDoubleJump = q3.hasUsedDoubleJump := by
    rw [hp5, jumpForceBlock_used]
  have h5sr : p5.1.isSelfRighting = v.isSelfRighting := by
    rw [hp5, jumpForceBlock_selfr, hq3sr]
  have h5up : p5.1.up = v.up := by
    rw [hp5, jumpForceBlock_vup, hq3up]
  have h6sp : p6.1.inputMap.space = v.inputMap.space := by
    rw [hp6, doubleJumpStep_imspace, h5sp]
  have h6la : p6.1.hasStoppedJumping =
      (if v.inputMap.space = some KeyboardEventTypes.keydown ∧ cdj = true
       then false
       else if v.inputMap.space = some KeyboardEventTypes.keydown ∧ g = true ∧
          (if v.inputMap.space = some KeyboardEventTypes.keyup then true
           else v.hasStoppedJumping) = true then false
       else if v.inputMap.space = some KeyboardEventTypes.keyup then true
       else v.hasStoppedJumping) := by
    rw [hp6, doubleJumpStep_latch_char, h5sp, h5la, hq3la]
  have h6ij : p6.1.isJumping = q3.isJumping := by
    rw [hp6, doubleJumpStep_isj, h5ij]
  have h6lj : p6.1.lastJumpTime = q3.lastJumpTime := by
    rw [hp6, doubleJumpStep_ljt, h5lj]
  have h6us : p6.1.hasUsedDoubleJump =
      (if v.inputMap.space = some KeyboardEventTypes.keydown ∧ cdj = true
       then true else if g = true then false else v.hasUsedDoubleJump) := by
    rw [hp6, doubleJumpStep_used_char, h5sp, h5us, hq3us]
  have h6sr : p6.1.isSelfRighting = v.isSelfRighting := by
    rw [hp6, doubleJumpStep_selfr, h5sr]
  have h6up : p6.1.up = v.up := by
    rw [hp6, doubleJumpStep_vup, h5up]
  have h6sri : p6.2.selfRightingImpulses = [] := by
    rw [hp6, doubleJumpStep_lsri, hp5, jumpForceBlock_lsri, hp4, aerialStep_lsri]
    rfl
  have h6sst : p6.2.scheduledSelfRightingTorqueTimes = [] := by
    rw [hp6, doubleJumpStep_lsst, hp5, jumpForceBlock_lsst, hp4, aerialStep_lsst]
    rfl
  have h7la : p7.1.hasStoppedJumping = p6.1.hasStoppedJumping := by
    rw [hp7, selfRightingStep_latch]
  have h7ij : p7.1.isJumping = p6.1.isJumping := by
    rw [hp7, selfRightingStep_isj]
  have h7us : p7.1.hasUsedDoubleJump = p6.1.hasUsedDoubleJump := by
    rw [hp7, selfRightingStep_used]
  have h7sr : p7.1.isSelfRighting =
      (if v.inputMap.space = some KeyboardEventTypes.keydown ∧ stuck = true ∧
          p6.1.hasStoppedJumping = true ∧
          (v.isSelfRighting && !fUp) = false then true
       else (v.isSelfRighting && !fUp)) := by
    rw [hp7, selfRightingStep_selfr_char, h6sp, h6sr]
  have h7lj : p7.1.lastJumpTime =
      (if v.inputMap.space = some KeyboardEventTypes.keydown ∧ stuck = true ∧
          p6.1.hasStoppedJumping = true ∧
          (v.isSelfRighting && !fUp) = false then none
       else q3.lastJumpTime) := by
    rw [hp7, selfRightingStep_ljt_char, h6sp, h6sr, h6lj]
  have h7logs := selfRightingStep_srlogs_char p6.1 p6.2 fUp stuck now
  have h7sri : p7.1.hasStoppedJumping = p6.1.hasStoppedJumping := h7la
  have h8la : p8.1.hasStoppedJumping = p6.1.hasStoppedJumping := by
    rw [hp8, boostStep_latch, h7la]
  have h8ij : p8.1.isJumping = p6.1.isJumping := by
    rw [hp8, boostStep_isj, h7ij]
  have h8us : p8.1.hasUsedDoubleJump = p6.1.hasUsedDoubleJump := by
    rw [hp8, boostStep_used, h7us]
  have h8sr : p8.1.isSelfRighting = p7.1.isSelfRighting := by
    rw [hp8, boostStep_selfr]
  have h8lj : p8.1.lastJumpTime = p7.1.lastJumpTime := by
    rw [hp8, boostStep_ljt]
  have htla : (updateFromKeyboard sq v now).1.hasStoppedJumping =
      p8.1.hasStoppedJumping := rfl
  have htij : (updateFromKeyboard sq v now).1.isJumping = p8.1.isJumping := rfl
  have htus : (updateFromKeyboard sq v now).1.hasUsedDoubleJump =
      p8.1.hasUsedDoubleJump := rfl
  have htsr : (updateFromKeyboard sq v now).1.isSelfRighting =
      p8.1.isSelfRighting := rfl
  have htlj : (updateFromKeyboard sq v now).1.lastJumpTime =
      p8.1.lastJumpTime := rfl
  have htsri : (updateFromKeyboard sq v now).2.selfRightingImpulses =
      p8.2.selfRightingImpulses := rfl
  have htsst : (updateFromKeyboard sq v now).2.scheduledSelfRightingTorqueTimes =
      p8.2.scheduledSelfRightingTorqueTimes := rfl
  have h8sri : p8.2.selfRightingImpulses = p7.2.selfRightingImpulses := by
    rw [hp8, boostStep_lsri]
  have h8sst : p8.2.scheduledSelfRightingTorqueTimes =
      p7.2.scheduledSelfRightingTorqueTimes := by
    rw [hp8, boostStep_lsst]
  refine ⟨?_, ?_, ?_, ?_, ?_, ?_, ?_⟩
  · rw [htla, h8la, h6la]
  · rw [htij, h8ij, h6ij, hq3ij]
  · rw [htus, h8us, h6us]
  · rw [htsr, h8sr, h7sr, h6la]
  · rw [htlj, h8lj, h7lj, h6la, hq3lj]
  · rw [htsri, h8sri, h7logs.1, h6sp, h6sr, h6la, h6up, h6sri]
    simp only [List.nil_append]
  · rw [htsst, h8sst, h7logs.2, h6sp, h6sr, h6la, h6sst]
    simp only [List.nil_append]


/-! Orientation facts: the up-axis cannot be within tolerance of both
world-up and world-down. -/

theorem almostEquals_down_not_up (u : Vec3)
    (h : u.almostEquals ⟨0, -1, 0⟩ (1 / 5) = true) :
    u.almostEquals ⟨0, 1, 0⟩ (1 / 5) = false := by
  unfold Vec3.almostEquals at h ⊢
  simp only [Bool.not_eq_true', Bool.or_eq_false_iff, decide_eq_false_iff_not,
    not_lt] at h
  obtain ⟨⟨hx, hy⟩, hz⟩ := h
  have hy1 : decide (|u.y - 1| > 1 / 5) = true :=
    decide_eq_true (lt_abs.mpr (Or.inr (by linarith [(abs_le.mp hy).2])))
  rw [hy1, Bool.or_true, Bool.true_or, Bool.not_true]

theorem almostEquals_up_not_down (u : Vec3)
    (h : u.almostEquals ⟨0, 1, 0⟩ (1 / 5) = true) :
    u.almostEquals ⟨0, -1, 0⟩ (1 / 5) = false := by
  unfold Vec3.almostEquals at h ⊢
  simp only [Bool.not_eq_true', Bool.or_eq_false_iff, decide_eq_false_iff_not,
    not_lt] at h
  obtain ⟨⟨hx, hy⟩, hz⟩ := h
  have hy1 : decide (|u.y - -1| > 1 / 5) = true :=
    decide_eq_true (lt_abs.mpr (Or.inl (by linarith [(abs_le.mp hy).1])))
  rw [hy1, Bool.or_true, Bool.true_or, Bool.not_true]

theorem stuck_not_facing (v : Vehicle) (h : isStuckUpsideDown v = true) :
    isFacingUpwards v = false := by
  unfold isStuckUpsideDown at h
  unfold isFacingUpwards
  simp only [Bool.and_eq_true] at h
  exact almostEquals_down_not_up v.up h.2

theorem facing_not_stuck (v : Vehicle) (h : isFacingUpwards v = true) :
    isStuckUpsideDown v = false := by
  unfold isStuckUpsideDown
  unfold isFacingUpwards at h
  have hd := almostEquals_up_not_down v.up h
  rw [hd, Bool.and_false]

theorem ground_no_canDoubleJump (v : Vehicle) (now : ℤ)
    (h : areWheelsOnGround v = true) : canDoubleJump v now = false := by
  unfold canDoubleJump
  simp [h]

theorem stuck_no_canDoubleJump (v : Vehicle) (now : ℤ)
    (h : isStuckUpsideDown v = true) : canDoubleJump v now = false := by
  unfold canDoubleJump
  simp [h]

theorem noLastJump_no_canDoubleJump (v : Vehicle) (now : ℤ)
    (h : v.lastJumpTime = none) : canDoubleJump v now = false := by
  unfold canDoubleJump timeSinceLastJump ltTime
  simp [h]

/-- Claim C1: with the jump key in the `down` edge state, the double jump
triggers exactly when the vehicle is airborne, not stuck upside down, the
double jump has not been used this airborne phase, the jump latch is clear,
a last-jump time is recorded, and the elapsed time since it lies strictly
inside the open window `(minDoubleJumpDuration, maxDoubleJumpDuration)`; at
an elapsed time exactly equal to either boundary the double jump does not
trigger; and a tick on which it triggers sets `hasUsedDoubleJump`. -/
theorem doubleJump_trigger_iff (sq : ℚ → ℚ) (v : Vehicle) (now : ℤ)
    (h : v.inputMap.space = some KeyboardEventTypes.keydown) :
    (doubleJumpTriggers v now = true ↔
      (areWheelsOnGround v = false ∧ isStuckUpsideDown v = false ∧
       v.hasUsedDoubleJump = false ∧ v.hasStoppedJumping = true ∧
       ∃ t, v.lastJumpTime = some t ∧
         minDoubleJumpDurationMilliseconds < now - t ∧
         now - t < maxDoubleJumpDurationMilliseconds)) ∧
    (∀ t, v.lastJumpTime = some t →
      (now - t = minDoubleJumpDurationMilliseconds ∨
       now - t = maxDoubleJumpDurationMilliseconds) →
      doubleJumpTriggers v now = false) ∧
    (doubleJumpTriggers v now = true →
      (updateFromKeyboard sq v now).1.hasUsedDoubleJump = true) := by
  have hiff : doubleJumpTriggers v now = true ↔
      (areWheelsOnGround v = false ∧ isStuckUpsideDown v = false ∧
       v.hasUsedDoubleJump = false ∧ v.hasStoppedJumping = true ∧
       ∃ t, v.lastJumpTime = some t ∧
         minDoubleJumpDurationMilliseconds < now - t ∧
         now - t < maxDoubleJumpDurationMilliseconds) := by
    unfold doubleJumpTriggers canDoubleJump timeSinceLastJump
    rcases hjt : v.lastJumpTime with _ | t <;>
      simp [h, hjt, gtTime, ltTime, Bool.and_eq_true, Bool.not_eq_true',
        and_assoc]
  refine ⟨hiff, ?_, ?_⟩
  · intro t ht hb
    rcases hbool : doubleJumpTriggers v now with _ | _
    · rfl
    · exfalso
      obtain ⟨_, _, _, _, t2, ht2, hlo, hhi⟩ := hiff.mp hbool
      rw [ht] at ht2
      injection ht2 with ht2e
      subst ht2e
      rcases hb with hb | hb
      · rw [hb] at hlo; exact lt_irrefl _ hlo
      · rw [hb] at hhi; exact lt_irrefl _ hhi
  · intro htr
    have hcdj : canDoubleJump v now = true := by
      unfold doubleJumpTriggers at htr
      simp only [Bool.and_eq_true, decide_eq_true_eq] at htr
      exact htr.2
    have hm := (tick_state_chars sq v now).2.2.1
    rw [hm, if_pos ⟨h, hcdj⟩]


/-- Witness for C1: at a concrete airborne state 500ms after the jump, the
double jump triggers and the tick consumes it. -/
theorem doubleJump_trigger_iff_witness :
    doubleJumpTriggers c1v 500 = true ∧
    (updateFromKeyboard (fun _ => 0) c1v 500).1.hasUsedDoubleJump = true := by
  have h1 : doubleJumpTriggers c1v 500 = true := by
    unfold doubleJumpTriggers canDoubleJump areWheelsOnGround isStuckUpsideDown
    unfold timeSinceLastJump gtTime ltTime Vec3.almostEquals
    norm_num [c1v, sampleVehicle, samplePV, sampleBody, sampleInput,
      minDoubleJumpDurationMilliseconds, maxDoubleJumpDurationMilliseconds]
  exact ⟨h1, (doubleJump_trigger_iff (fun _ => 0) c1v 500 rfl).2.2 h1⟩

/-- Claim C4 (amended): `hasUsedDoubleJump` is re-armed exactly when all
four wheels are on the ground (`numWheelsOnGround = 4`), not when any single
wheel regains contact; and the ground-contact branch never re-arms the jump
latch — the latch can only become true through a jump-key release. -/
theorem ground_rearm_requires_all_wheels (sq : ℚ → ℚ) (v : Vehicle)
    (now : ℤ) :
    (v.physicsVehicle.numWheelsOnGround = 4 →
      (updateFromKeyboard sq v now).1.hasUsedDoubleJump = false) ∧
    ((updateFromKeyboard sq v now).1.hasStoppedJumping = true →
      v.hasStoppedJumping = true ∨
      v.inputMap.space = some KeyboardEventTypes.keyup) := by
  have hm := tick_state_chars sq v now
  constructor
  · intro h4
    have hg : areWheelsOnGround v = true := by
      unfold areWheelsOnGround; simp [h4]
    have hcdj := ground_no_canDoubleJump v now hg
    have hnd : ¬(v.inputMap.space = some KeyboardEventTypes.keydown ∧
        canDoubleJump v now = true) := by
      intro hc
      rw [hcdj] at hc
      exact absurd hc.2 (by simp)
    rw [hm.2.2.1, if_neg hnd, if_pos hg]
  · intro hl
    rw [hm.1] at hl
    by_cases hup : v.inputMap.space = some KeyboardEventTypes.keyup
    · exact Or.inr hup
    · left
      rw [if_neg hup] at hl
      split_ifs at hl
      all_goals exact hl

/-- Claim C4 counterexample: with exactly one wheel in ground contact (a
wheel has regained contact, but not all four), the tick does not reset
`hasUsedDoubleJump`. -/
theorem partial_contact_no_rearm_cx :
    c4v.physicsVehicle.numWheelsOnGround = 1 ∧
    c4v.hasUsedDoubleJump = true ∧
    (updateFromKeyboard (fun _ => 0) c4v 0).1.hasUsedDoubleJump = true := by
  refine ⟨rfl, rfl, ?_⟩
  rw [(tick_state_chars (fun _ => 0) c4v 0).2.2.1]
  simp [c4v, areWheelsOnGround, samplePV, sampleVehicle, sampleInput]

/-- Witness for C4 at a concrete all-wheels-grounded state. -/
theorem ground_rearm_requires_all_wheels_witness :
    (updateFromKeyboard (fun _ => 0) c4w 0).1.hasUsedDoubleJump = false ∧
    (c4w.hasStoppedJumping = true ∨
      c4w.inputMap.space = some KeyboardEventTypes.keyup) := by
  have hl : (updateFromKeyboard (fun _ => 0) c4w 0).1.hasStoppedJumping = true := by
    rw [(tick_state_chars (fun _ => 0) c4w 0).1]
    simp [c4w, sampleVehicle, sampleInput, samplePV]
  exact ⟨(ground_rearm_requires_all_wheels (fun _ => 0) c4w 0).1 rfl,
    (ground_rearm_requires_all_wheels (fun _ => 0) c4w 0).2 hl⟩

/-- Claim C2 counterexample: the jump key's `up` edge entry is not removed
from the input map by the tick — the `space` entry still holds the `up`
edge afterwards (unlike the w/s/a/d entries, which are deleted). -/
theorem spaceKeyup_edge_not_removed_cx :
    (updateFromKeyboard (fun _ => 0) c2v 0).1.inputMap.space =
      some KeyboardEventTypes.keyup :=
  (updateFromKeyboard_imspace (fun _ => 0) c2v 0).trans rfl

/-- Claim C6 counterexample: with all four of the claim's conditions holding
(jump key down, stuck upside down, latch clear, not already self-righting)
but all wheels on the ground, the same key press starts a ground jump, which
consumes the latch before the self-righting check runs — so self-righting
does not trigger, contradicting the claim's "exactly when". -/
theorem grounded_stuck_selfRight_not_triggered_cx :
    c6v.inputMap.space = some KeyboardEventTypes.keydown ∧
    isStuckUpsideDown c6v = true ∧
    c6v.hasStoppedJumping = true ∧
    c6v.isSelfRighting = false ∧
    (updateFromKeyboard (fun _ => 0) c6v 0).1.isSelfRighting = false ∧
    (updateFromKeyboard (fun _ => 0) c6v 0).2.selfRightingImpulses = [] := by
  have hm := tick_state_chars (fun _ => 0) c6v 0
  have hstuck : isStuckUpsideDown c6v = true := by
    unfold isStuckUpsideDown Vec3.almostEquals
    norm_num [c6v, sampleBody, samplePV, sampleVehicle]
  have hlatchcond :
      (if c6v.inputMap.space = some KeyboardEventTypes.keyup then true
       else c6v.hasStoppedJumping) = true := by
    simp [c6v, sampleVehicle, sampleInput]
  refine ⟨rfl, hstuck, rfl, rfl, ?_, ?_⟩
  · rw [hm.2.2.2.1]
    simp [c6v, canDoubleJump, areWheelsOnGround, samplePV, sampleVehicle,
      sampleInput, hlatchcond]
  · rw [hm.2.2.2.2.2.1]
    simp [c6v, canDoubleJump, areWheelsOnGround, samplePV, sampleVehicle,
      sampleInput, hlatchcond]


/-- The self-righting trigger condition, as evaluated inside the tick,
holds exactly when: jump key down, stuck upside down, latch clear at tick
entry, not already self-righting, and not all wheels on the ground. -/
theorem srFire_iff (v : Vehicle) (now : ℤ) :
    (v.inputMap.space = some KeyboardEventTypes.keydown ∧
     isStuckUpsideDown v = true ∧
     (if v.inputMap.space = some KeyboardEventTypes.keydown ∧
          canDoubleJump v now = true then false
      else if v.inputMap.space = some KeyboardEventTypes.keydown ∧
          areWheelsOnGround v = true ∧
          (if v.inputMap.space = some KeyboardEventTypes.keyup then true
           else v.hasStoppedJumping) = true then false
      else if v.inputMap.space = some KeyboardEventTypes.keyup then true
      else v.hasStoppedJumping) = true ∧
     (v.isSelfRighting && !(isFacingUpwards v)) = false) ↔
    (v.inputMap.space = some KeyboardEventTypes.keydown ∧
     isStuckUpsideDown v = true ∧ v.hasStoppedJumping = true ∧
     v.isSelfRighting = false ∧ areWheelsOnGround v = false) := by
  constructor
  · rintro ⟨hsp, hst, hl6, hsa⟩
    have hfUp := stuck_not_facing v hst
    rw [hfUp] at hsa
    simp only [Bool.not_false, Bool.and_true] at hsa
    have hcdj := stuck_no_canDoubleJump v now hst
    have hc1 : ¬(v.inputMap.space = some KeyboardEventTypes.keydown ∧
        canDoubleJump v now = true) := by
      intro hcc; rw [hcdj] at hcc; exact absurd hcc.2 (by simp)
    have hku : ¬(v.inputMap.space = some KeyboardEventTypes.keyup) := by
      rw [hsp]; simp
    rw [if_neg hc1, if_neg hku] at hl6
    by_cases hg2 : areWheelsOnGround v = true
    · by_cases hlat : v.hasStoppedJumping = true
      · rw [if_pos ⟨hsp, hg2, hlat⟩] at hl6
        exact absurd hl6 (by simp)
      · rw [if_neg (fun hcc => hlat hcc.2.2)] at hl6
        exact absurd hl6 hlat
    · rw [if_neg (fun hcc => hg2 hcc.2.1)] at hl6
      exact ⟨hsp, hst, hl6, hsa, Bool.eq_false_iff.mpr hg2⟩
  · rintro ⟨hsp, hst, hlat, hsr, hg⟩
    have hfUp := stuck_not_facing v hst
    have hcdj := stuck_no_canDoubleJump v now hst
    have hku : ¬(v.inputMap.space = some KeyboardEventTypes.keyup) := by
      rw [hsp]; simp
    refine ⟨hsp, hst, ?_, ?_⟩
    · have hc1 : ¬(v.inputMap.space = some KeyboardEventTypes.keydown ∧
          canDoubleJump v now = true) := by
        intro hcc; rw [hcdj] at hcc; exact absurd hcc.2 (by simp)
      rw [if_neg hc1, if_neg hku,
        if_neg (fun hcc => by rw [hg] at hcc; exact absurd hcc.2.1 (by simp))]
      exact hlat
    · rw [hfUp, hsr]; rfl

/-- Claim C6 (amended): self-righting triggers exactly when the jump key is
down, the vehicle is stuck upside down, the jump latch is clear, it is not
already self-righting, and additionally not all wheels are on the ground
(otherwise the same press starts a ground jump that consumes the latch
before the self-righting check).  On trigger the tick sets `isSelfRighting`,
clears `lastJumpTime` to none, applies the upward impulse of
`selfRightingForceAmount` immediately, and only schedules the forward-axis
torque for `selfRightingTorqueDelayAmountMilliseconds` later — no
self-righting torque is applied on the triggering tick itself. -/
theorem selfRighting_trigger_iff_effects (sq : ℚ → ℚ) (v : Vehicle)
    (now : ℤ) :
    ((updateFromKeyboard sq v now).2.selfRightingImpulses ≠ [] ↔
      (v.inputMap.space = some KeyboardEventTypes.keydown ∧
       isStuckUpsideDown v = true ∧ v.hasStoppedJumping = true ∧
       v.isSelfRighting = false ∧ areWheelsOnGround v = false)) ∧
    (v.inputMap.space = some KeyboardEventTypes.keydown →
     isStuckUpsideDown v = true → v.hasStoppedJumping = true →
     v.isSelfRighting = false → areWheelsOnGround v = false →
      (updateFromKeyboard sq v now).1.isSelfRighting = true ∧
      (updateFromKeyboard sq v now).1.lastJumpTime = none ∧
      (updateFromKeyboard sq v now).2.selfRightingImpulses =
        [v.up.scale selfRightingForceAmount] ∧
      (updateFromKeyboard sq v now).2.scheduledSelfRightingTorqueTimes =
        [now + selfRightingTorqueDelayAmountMilliseconds]) := by
  have hm := tick_state_chars sq v now
  have hiff := srFire_iff v now
  constructor
  · rw [hm.2.2.2.2.2.1]
    constructor
    · intro hne
      by_cases hc : (v.inputMap.space = some KeyboardEventTypes.keydown ∧
          isStuckUpsideDown v = true ∧
          (if v.inputMap.space = some KeyboardEventTypes.keydown ∧
              canDoubleJump v now = true then false
           else if v.inputMap.space = some KeyboardEventTypes.keydown ∧
              areWheelsOnGround v = true ∧
              (if v.inputMap.space = some KeyboardEventTypes.keyup then true
               else v.hasStoppedJumping) = true then false
           else if v.inputMap.space = some KeyboardEventTypes.keyup then true
           else v.hasStoppedJumping) = true ∧
          (v.isSelfRighting && !(isFacingUpwards v)) = false)
      · exact hiff.mp hc
      · rw [if_neg hc] at hne
        exact absurd rfl hne
    · intro h5
      rw [if_pos (hiff.mpr h5)]
      simp
  · intro hsp hst hlat hsr hg
    have hbig := hiff.mpr ⟨hsp, hst, hlat, hsr, hg⟩
    refine ⟨?_, ?_, ?_, ?_⟩
    · rw [hm.2.2.2.1, if_pos hbig]
    · rw [hm.2.2.2.2.1, if_pos hbig]
    · rw [hm.2.2.2.2.2.1, if_pos hbig]
    · rw [hm.2.2.2.2.2.2, if_pos hbig]

/-- Witness for C6 at a concrete airborne stuck-upside-down state. -/
theorem selfRighting_trigger_iff_effects_witness :
    (updateFromKeyboard (fun _ => 0) c6w 5).1.isSelfRighting = true ∧
    (updateFromKeyboard (fun _ => 0) c6w 5).1.lastJumpTime = none ∧
    (updateFromKeyboard (fun _ => 0) c6w 5).2.scheduledSelfRightingTorqueTimes =
      [5 + selfRightingTorqueDelayAmountMilliseconds] := by
  have hstuck : isStuckUpsideDown c6w = true := by
    unfold isStuckUpsideDown Vec3.almostEquals
    norm_num [c6w, sampleBody, samplePV, sampleVehicle]
  have h := (selfRighting_trigger_iff_effects (fun _ => 0) c6w 5).2 rfl hstuck
    rfl rfl rfl
  exact ⟨h.1, h.2.1, h.2.2.2⟩


/-- Claim C7: on a tick where self-righting is active and the up axis has
realigned with world-up within tolerance, the chassis torque and angular
velocity are both set to exactly zero and `isSelfRighting` clears — a hard
stop; on a tick where the up axis has not realigned, `isSelfRighting`
remains true. -/
theorem selfRighting_completion_hard_stop (sq : ℚ → ℚ) (v : Vehicle)
    (now : ℤ) (h : v.isSelfRighting = true) :
    (isFacingUpwards v = true →
      (updateFromKeyboard sq v now).1.isSelfRighting = false ∧
      (updateFromKeyboard sq v now).1.physicsVehicle.chassisBody.torque =
        ⟨0, 0, 0⟩ ∧
      (updateFromKeyboard sq v now).1.physicsVehicle.chassisBody.angularVelocity =
        ⟨0, 0, 0⟩) ∧
    (isFacingUpwards v = false →
      (updateFromKeyboard sq v now).1.isSelfRighting = true) := by
  have hm := tick_state_chars sq v now
  constructor
  · intro hfu
    have hstuckf : isStuckUpsideDown v = false := facing_not_stuck v hfu
    have hsflag : (updateFromKeyboard sq v now).1.isSelfRighting = false := by
      rw [hm.2.2.2.1, h, hfu]
      simp [hstuckf]
    set g := areWheelsOnGround v with hg
    set fUp := isFacingUpwards v with hfUp2
    set stuck := isStuckUpsideDown v with hstuck2
    set tsf := timeSinceLastFlip v now with htsf
    set tsj := timeSinceLastJump v now with htsj
    set cdj := canDoubleJump v now with hcdj
    set v3 := brakeStep (steerStep (accelStep v)) with hv3
    set p4 := aerialStep v3 TickLog.empty g tsf with hp4
    set q1 := groundRearmBlock p4.1 g with hq1
    set q2 := spaceKeyupBlock q1 with hq2
    set q3 := groundJumpBlock q2 g now with hq3
    set p5 := jumpForceBlock q3 p4.2 tsj with hp5
    set p6 := doubleJumpStep sq p5.1 p5.2 cdj now with hp6
    set p7 := selfRightingStep p6.1 p6.2 fUp stuck now with hp7
    set p8 := boostStep p7.1 p7.2 with hp8
    have h6sr : p6.1.isSelfRighting = true := by
      rw [hp6, doubleJumpStep_selfr, hp5, jumpForceBlock_selfr, hq3,
        groundJumpBlock_selfr, hq2, spaceKeyupBlock_selfr, hq1,
        groundRearmBlock_selfr, hp4, aerialStep_selfr, hv3, brakeStep_selfr,
        steerStep_selfr, accelStep_selfr, h]
    have hp7eq : p7 = (selfRightCompletionBlock p6.1 fUp, p6.2) := by
      rw [hp7]
      unfold selfRightingStep
      refine selfRightTriggerBlock_id _ _ _ _ ?_
      intro hc
      have hcs := hc.2.1
      simp [hstuckf] at hcs
    have hcomp := selfRightCompletionBlock_fire p6.1 fUp h6sr
      (by rw [hfUp2]; exact hfu)
    have hrw : (updateFromKeyboard sq v now).1.physicsVehicle.chassisBody =
        limitStep sq p8.1.physicsVehicle.chassisBody := rfl
    have hang0 : p8.1.physicsVehicle.chassisBody.angularVelocity = ⟨0, 0, 0⟩ := by
      rw [hp8, boostStep_bang, hp7eq]
      exact hcomp.2.2
    refine ⟨hsflag, ?_, ?_⟩
    · rw [hrw, limitStep_bbtorque, hp8, boostStep_btorque, hp7eq]
      exact hcomp.2.1
    · rw [hrw]
      exact limitStep_zero_ang sq _ hang0
  · intro hfu
    rw [hm.2.2.2.1, h, hfu]
    simp

/-- Witness for C7 at a concrete self-righting state that has realigned. -/
theorem selfRighting_completion_hard_stop_witness :
    (updateFromKeyboard (fun _ => 0)
        { sampleVehicle with isSelfRighting := true } 0).1.isSelfRighting =
      false ∧
    (updateFromKeyboard (fun _ => 0)
        { sampleVehicle with isSelfRighting := true }
        0).1.physicsVehicle.chassisBody.angularVelocity = ⟨0, 0, 0⟩ := by
  have hfu : isFacingUpwards
      ({ sampleVehicle with isSelfRighting := true } : Vehicle) = true := by
    unfold isFacingUpwards Vec3.almostEquals
    norm_num [sampleVehicle]
  have hcl := (selfRighting_completion_hard_stop (fun _ => 0)
    { sampleVehicle with isSelfRighting := true } 0 rfl).1 hfu
  exact ⟨hcl.1, hcl.2.2⟩



/-- Claim C10 counterexample: re-triggering is not prevented only by the
`isSelfRighting` guard.  At a state exactly as the claim's scenario leaves
it (self-righting flag clear, jump latch still set, jump key still on its
`down` edge, vehicle stuck upside down) but with all four wheels reporting
ground contact, the next tick starts a ground jump that consumes the latch
before the self-righting check runs, so self-righting does not re-trigger:
no impulse and no scheduled torque. -/
theorem selfRighting_grounded_no_retrigger_cx :
    c6v.inputMap.space = some KeyboardEventTypes.keydown ∧
    c6v.hasStoppedJumping = true ∧
    c6v.isSelfRighting = false ∧
    isStuckUpsideDown c6v = true ∧
    (updateFromKeyboard (fun _ => 0) c6v 7).1.isJumping = true ∧
    (updateFromKeyboard (fun _ => 0) c6v 7).1.hasStoppedJumping = false ∧
    (updateFromKeyboard (fun _ => 0) c6v 7).1.isSelfRighting = false ∧
    (updateFromKeyboard (fun _ => 0) c6v 7).2.selfRightingImpulses = [] ∧
    (updateFromKeyboard (fun _ => 0) c6v
      7).2.scheduledSelfRightingTorqueTimes = [] := by
  have hm := tick_state_chars (fun _ => 0) c6v 7
  have hstuck : isStuckUpsideDown c6v = true := by
    unfold isStuckUpsideDown Vec3.almostEquals
    norm_num [c6v, sampleBody, samplePV, sampleVehicle]
  have hlatchcond :
      (if c6v.inputMap.space = some KeyboardEventTypes.keyup then true
       else c6v.hasStoppedJumping) = true := by
    simp [c6v, sampleVehicle, sampleInput]
  refine ⟨rfl, rfl, rfl, hstuck, ?_, ?_, ?_, ?_, ?_⟩
  · rw [hm.2.1]
    simp [c6v, canDoubleJump, areWheelsOnGround, samplePV, sampleVehicle,
      sampleInput, hlatchcond]
  · rw [hm.1]
    simp [c6v, canDoubleJump, areWheelsOnGround, samplePV, sampleVehicle,
      sampleInput, hlatchcond]
  · rw [hm.2.2.2.1]
    simp [c6v, canDoubleJump, areWheelsOnGround, samplePV, sampleVehicle,
      sampleInput, hlatchcond]
  · rw [hm.2.2.2.2.2.1]
    simp [c6v, canDoubleJump, areWheelsOnGround, samplePV, sampleVehicle,
      sampleInput, hlatchcond]
  · rw [hm.2.2.2.2.2.2]
    simp [c6v, canDoubleJump, areWheelsOnGround, samplePV, sampleVehicle,
      sampleInput, hlatchcond]

/-- Claim C10 (amended): triggering self-righting does not consume the jump
latch, and a completing tick (up axis realigned, airborne, latch set, jump
key down, no last-jump time on record — which a self-righting trigger
itself guarantees, having set `lastJumpTime` to `null`) leaves the flag
clear, the latch set, the last-jump time empty and the jump key edge
untouched; any later tick on which the vehicle is again stuck upside down
with the key still down and not all wheels grounded re-triggers
self-righting — a fresh upward impulse and a newly scheduled delayed
torque — without any intervening jump-key release.  The `isSelfRighting`
guard is not the only thing standing in the way: with all wheels grounded
on the stuck tick the same press starts a ground jump that consumes the
latch first, and self-righting does not re-trigger. -/
theorem selfRighting_retrigger_no_release (sq : ℚ → ℚ) (v1 : Vehicle)
    (now1 : ℤ)
    (ha : v1.isSelfRighting = true) (hb : isFacingUpwards v1 = true)
    (hc : v1.hasStoppedJumping = true)
    (hd : v1.inputMap.space = some KeyboardEventTypes.keydown)
    (he : v1.lastJumpTime = none)
    (hf : areWheelsOnGround v1 = false) :
    ((updateFromKeyboard sq v1 now1).1.isSelfRighting = false ∧
     (updateFromKeyboard sq v1 now1).1.hasStoppedJumping = true ∧
     (updateFromKeyboard sq v1 now1).1.lastJumpTime = none ∧
     (updateFromKeyboard sq v1 now1).1.inputMap.space =
       some KeyboardEventTypes.keydown) ∧
    (∀ (v2 : Vehicle) (now2 : ℤ),
      v2.inputMap.space = (updateFromKeyboard sq v1 now1).1.inputMap.space →
      v2.hasStoppedJumping =
        (updateFromKeyboard sq v1 now1).1.hasStoppedJumping →
      v2.lastJumpTime = (updateFromKeyboard sq v1 now1).1.lastJumpTime →
      v2.isSelfRighting = (updateFromKeyboard sq v1 now1).1.isSelfRighting →
      isStuckUpsideDown v2 = true → areWheelsOnGround v2 = false →
      (updateFromKeyboard sq v2 now2).1.isSelfRighting = true ∧
      (updateFromKeyboard sq v2 now2).2.selfRightingImpulses =
        [v2.up.scale selfRightingForceAmount] ∧
      (updateFromKeyboard sq v2 now2).2.scheduledSelfRightingTorqueTimes =
        [now2 + selfRightingTorqueDelayAmountMilliseconds]) := by
  have hm := tick_state_chars sq v1 now1
  have hstuckf := facing_not_stuck v1 hb
  have hcdjf : canDoubleJump v1 now1 = false :=
    noLastJump_no_canDoubleJump v1 now1 he
  have hku : ¬(v1.inputMap.space = some KeyboardEventTypes.keyup) := by
    rw [hd]; simp
  have hc1n : ¬(v1.inputMap.space = some KeyboardEventTypes.keydown ∧
      canDoubleJump v1 now1 = true) := by
    intro hcc; rw [hcdjf] at hcc; exact absurd hcc.2 (by simp)
  have hc2n : ¬(v1.inputMap.space = some KeyboardEventTypes.keydown ∧
      areWheelsOnGround v1 = true ∧
      (if v1.inputMap.space = some KeyboardEventTypes.keyup then true
       else v1.hasStoppedJumping) = true) := by
    intro hcc; rw [hf] at hcc; exact absurd hcc.2.1 (by simp)
  have hsrn : ¬(v1.inputMap.space = some KeyboardEventTypes.keydown ∧
      isStuckUpsideDown v1 = true ∧
      (if v1.inputMap.space = some KeyboardEventTypes.keydown ∧
          canDoubleJump v1 now1 = true then false
       else if v1.inputMap.space = some KeyboardEventTypes.keydown ∧
          areWheelsOnGround v1 = true ∧
          (if v1.inputMap.space = some KeyboardEventTypes.keyup then true
           else v1.hasStoppedJumping) = true then false
       else if v1.inputMap.space = some KeyboardEventTypes.keyup then true
       else v1.hasStoppedJumping) = true ∧
      (v1.isSelfRighting && !(isFacingUpwards v1)) = false) := by
    intro hcc; rw [hstuckf] at hcc; exact absurd hcc.2.1 (by simp)
  have p1a : (updateFromKeyboard sq v1 now1).1.isSelfRighting = false := by
    rw [hm.2.2.2.1, if_neg hsrn, ha, hb]
    rfl
  have p1b : (updateFromKeyboard sq v1 now1).1.hasStoppedJumping = true := by
    rw [hm.1, if_neg hc1n, if_neg hc2n, if_neg hku]
    exact hc
  have p1c : (updateFromKeyboard sq v1 now1).1.lastJumpTime = none := by
    rw [hm.2.2.2.2.1, if_neg hsrn, if_neg hc2n]
    exact he
  have p1d : (updateFromKeyboard sq v1 now1).1.inputMap.space =
      some KeyboardEventTypes.keydown := by
    rw [updateFromKeyboard_imspace]
    exact hd
  refine ⟨⟨p1a, p1b, p1c, p1d⟩, ?_⟩
  intro v2 now2 h2sp h2la h2lj h2sr h2st h2g
  rw [p1d] at h2sp
  rw [p1b] at h2la
  rw [p1c] at h2lj
  rw [p1a] at h2sr
  have hm2 := tick_state_chars sq v2 now2
  have hbig := (srFire_iff v2 now2).mpr ⟨h2sp, h2st, h2la, h2sr, h2g⟩
  exact ⟨by rw [hm2.2.2.2.1, if_pos hbig],
         by rw [hm2.2.2.2.2.2.1, if_pos hbig],
         by rw [hm2.2.2.2.2.2.2, if_pos hbig]⟩

/-- Witness for C10: a concrete completing tick followed by a concrete
stuck-again tick that re-triggers without a key release. -/
theorem selfRighting_retrigger_no_release_witness :
    (updateFromKeyboard (fun _ => 0) c6w 7).1.isSelfRighting = true ∧
    (updateFromKeyboard (fun _ => 0) c6w 7).2.scheduledSelfRightingTorqueTimes =
      [7 + selfRightingTorqueDelayAmountMilliseconds] := by
  have hfu : isFacingUpwards c10v = true := by
    unfold isFacingUpwards Vec3.almostEquals
    norm_num [c10v, sampleVehicle]
  have hthm := selfRighting_retrigger_no_release (fun _ => 0) c10v 0 rfl hfu
    rfl rfl rfl rfl
  have hstuck : isStuckUpsideDown c6w = true := by
    unfold isStuckUpsideDown Vec3.almostEquals
    norm_num [c6w, sampleBody, samplePV, sampleVehicle]
  have h := hthm.2 c6w 7 (by rw [hthm.1.2.2.2]; rfl) (by rw [hthm.1.2.1]; rfl)
    (by rw [hthm.1.2.2.1]; rfl) (by rw [hthm.1.1]; rfl) hstuck rfl
  exact ⟨h.1, h.2.2⟩


theorem flipIf_id (p : Vehicle × TickLog) (c : Prop) [Decidable c]
    (i t : Vec3) (now : ℤ) (h : ¬c) : flipIf p c i t now = p := by
  unfold flipIf; rw [if_neg h]

theorem flipIf_lft_char (p : Vehicle × TickLog) (c : Prop) [Decidable c]
    (i t : Vec3) (now : ℤ) :
    (flipIf p c i t now).1.lastFlipTime =
      if c then some now else p.1.lastFlipTime := by
  unfold flipIf; split_ifs <;> rfl

theorem flipIf_lft2_char (p : Vehicle × TickLog) (c : Prop) [Decidable c]
    (i t : Vec3) (now : ℤ) :
    (flipIf p c i t now).2.flipTorques =
      if c then p.2.flipTorques ++ [t] else p.2.flipTorques := by
  unfold flipIf; split_ifs <;> rfl

theorem neutralImpulseBlock_id (p : Vehicle × TickLog)
    (h : ¬(p.1.inputMap.w ≠ some KeyboardEventTypes.keydown ∧
        p.1.inputMap.s ≠ some KeyboardEventTypes.keydown ∧
        p.1.inputMap.a ≠ some KeyboardEventTypes.keydown ∧
        p.1.inputMap.d ≠ some KeyboardEventTypes.keydown)) :
    neutralImpulseBlock p = p := by
  unfold neutralImpulseBlock; rw [if_neg h]

theorem neutralImpulseBlock_fire (p : Vehicle × TickLog)
    (h : p.1.inputMap.w ≠ some KeyboardEventTypes.keydown ∧
        p.1.inputMap.s ≠ some KeyboardEventTypes.keydown ∧
        p.1.inputMap.a ≠ some KeyboardEventTypes.keydown ∧
        p.1.inputMap.d ≠ some KeyboardEventTypes.keydown) :
    (neutralImpulseBlock p).2.neutralDoubleJumpImpulses =
      p.2.neutralDoubleJumpImpulses ++ [p.1.up.scale doubleJumpForceAmount] := by
  unfold neutralImpulseBlock; rw [if_pos h]

/-- The double-jump body with no directional key held: the neutral impulse
fires, no flip branch fires. -/
theorem doubleJumpBody_neutral (sq : ℚ → ℚ) (v : Vehicle) (log : TickLog)
    (now : ℤ)
    (hw : v.inputMap.w ≠ some KeyboardEventTypes.keydown)
    (hs : v.inputMap.s ≠ some KeyboardEventTypes.keydown)
    (ha : v.inputMap.a ≠ some KeyboardEventTypes.keydown)
    (hd : v.inputMap.d ≠ some KeyboardEventTypes.keydown) :
    (doubleJumpBody sq v log now).2.neutralDoubleJumpImpulses =
      log.neutralDoubleJumpImpulses ++ [v.up.scale doubleJumpForceAmount] ∧
    (doubleJumpBody sq v log now).2.flipImpulses = log.flipImpulses ∧
    (doubleJumpBody sq v log now).2.flipTorques = log.flipTorques ∧
    (doubleJumpBody sq v log now).1.lastFlipTime = v.lastFlipTime := by
  have hfire := neutralImpulseBlock_fire
    ({ v with hasUsedDoubleJump := true, hasStoppedJumping := false }, log)
    ⟨hw, hs, ha, hd⟩
  simp only [doubleJumpBody]
  rw [flipIf_id _ _ _ _ _ hd, flipIf_id _ _ _ _ _ ha, flipIf_id _ _ _ _ _ hs,
    flipIf_id _ _ _ _ _ hw]
  exact ⟨hfire, by simp only [neutralImpulseBlock_lfi],
    by simp only [neutralImpulseBlock_lft2],
    by simp only [neutralImpulseBlock_lft]⟩

/-- The double-jump body with a directional key held: the neutral impulse
does not fire, the flip time is recorded and a flip torque is issued. -/
theorem doubleJumpBody_dir (sq : ℚ → ℚ) (v : Vehicle) (log : TickLog)
    (now : ℤ)
    (hdir : v.inputMap.w = some KeyboardEventTypes.keydown ∨
      v.inputMap.s = some KeyboardEventTypes.keydown ∨
      v.inputMap.a = some KeyboardEventTypes.keydown ∨
      v.inputMap.d = some KeyboardEventTypes.keydown)
    (hlog : log.flipTorques = []) :
    (doubleJumpBody sq v log now).2.neutralDoubleJumpImpulses =
      log.neutralDoubleJumpImpulses ∧
    (doubleJumpBody sq v log now).1.lastFlipTime = some now ∧
    (doubleJumpBody sq v log now).2.flipTorques ≠ [] := by
  have hno := neutralImpulseBlock_id
    ({ v with hasUsedDoubleJump := true, hasStoppedJumping := false }, log)
    (fun hcc => by
      rcases hdir with h | h | h | h
      exacts [hcc.1 h, hcc.2.1 h, hcc.2.2.1 h, hcc.2.2.2 h])
  refine ⟨?_, ?_, ?_⟩
  · simp only [doubleJumpBody, flipIf_lnd]
    rw [hno]
  · simp only [doubleJumpBody, flipIf_lft_char, neutralImpulseBlock_lft]
    split_ifs <;> first | rfl | tauto
  · simp only [doubleJumpBody, flipIf_lft2_char, neutralImpulseBlock_lft2, hlog]
    split_ifs <;> simp_all


theorem keyupErase_kd_iff (o : Option KeyboardEventTypes) :
    (if o = some KeyboardEventTypes.keyup then (none : Option KeyboardEventTypes)
     else o) = some KeyboardEventTypes.keydown ↔
      o = some KeyboardEventTypes.keydown := by
  split_ifs with h
  · simp [h]
  · exact Iff.rfl

/-- Claim C5: on a tick where the double jump triggers (jump key on its
`down` edge and `canDoubleJump` holding), `hasUsedDoubleJump` is set, the
latch-clear flag is re-armed, and exactly one of two mutually exclusive
effects occurs per press: with no directional key held, the single neutral
upward impulse `up * doubleJumpForceAmount` is applied and no flip impulse
or torque is issued; with a directional key held, no neutral impulse is
applied, the flip time is recorded and a flip torque is issued. -/
theorem doubleJump_effects (sq : ℚ → ℚ) (v : Vehicle) (now : ℤ)
    (h1 : v.inputMap.space = some KeyboardEventTypes.keydown)
    (h2 : canDoubleJump v now = true) :
    (updateFromKeyboard sq v now).1.hasUsedDoubleJump = true ∧
    (updateFromKeyboard sq v now).1.hasStoppedJumping = false ∧
    ((v.inputMap.w ≠ some KeyboardEventTypes.keydown ∧
      v.inputMap.s ≠ some KeyboardEventTypes.keydown ∧
      v.inputMap.a ≠ some KeyboardEventTypes.keydown ∧
      v.inputMap.d ≠ some KeyboardEventTypes.keydown) →
      (updateFromKeyboard sq v now).2.neutralDoubleJumpImpulses =
        [v.up.scale doubleJumpForceAmount] ∧
      (updateFromKeyboard sq v now).2.flipImpulses = [] ∧
      (updateFromKeyboard sq v now).2.flipTorques = [] ∧
      (updateFromKeyboard sq v now).1.lastFlipTime = v.lastFlipTime) ∧
    ((v.inputMap.w = some KeyboardEventTypes.keydown ∨
      v.inputMap.s = some KeyboardEventTypes.keydown ∨
      v.inputMap.a = some KeyboardEventTypes.keydown ∨
      v.inputMap.d = some KeyboardEventTypes.keydown) →
      (updateFromKeyboard sq v now).2.neutralDoubleJumpImpulses = [] ∧
      (updateFromKeyboard sq v now).2.flipTorques ≠ [] ∧
      (updateFromKeyboard sq v now).1.lastFlipTime = some now) := by
  have hused := (tick_state_chars sq v now).2.2.1
  have hlatch := (tick_state_chars sq v now).1
  rw [if_pos ⟨h1, h2⟩] at hused hlatch
  set g := areWheelsOnGround v with hg
  set fUp := isFacingUpwards v with hfUp
  set stuck := isStuckUpsideDown v with hstuck
  set tsf := timeSinceLastFlip v now with htsf
  set tsj := timeSinceLastJump v now with htsj
  set cdj := canDoubleJump v now with hcdj
  set v3 := brakeStep (steerStep (accelStep v)) with hv3
  set p4 := aerialStep v3 TickLog.empty g tsf with hp4
  set q1 := groundRearmBlock p4.1 g with hq1
  set q2 := spaceKeyupBlock q1 with hq2
  set q3 := groundJumpBlock q2 g now with hq3
  set p5 := jumpForceBlock q3 p4.2 tsj with hp5
  set p6 := doubleJumpStep sq p5.1 p5.2 cdj now with hp6
  set p7 := selfRightingStep p6.1 p6.2 fUp stuck now with hp7
  set p8 := boostStep p7.1 p7.2 with hp8
  have h5sp : p5.1.inputMap.space = v.inputMap.space := by
    rw [hp5, jumpForceBlock_imspace, hq3, groundJumpBlock_imspace, hq2,
      spaceKeyupBlock_imspace, hq1, groundRearmBlock_imspace, hp4,
      aerialStep_imspace, hv3, brakeStep_imspace, steerStep_imspace,
      accelStep_imspace]
  have h5up : p5.1.up = v.up := by
    rw [hp5, jumpForceBlock_vup, hq3, groundJumpBlock_vup, hq2,
      spaceKeyupBlock_vup, hq1, groundRearmBlock_vup, hp4, aerialStep_vup,
      hv3, brakeStep_vup, steerStep_vup, accelStep_vup]
  have h5lft : p5.1.lastFlipTime = v.lastFlipTime := by
    rw [hp5, jumpForceBlock_lft, hq3, groundJumpBlock_lft, hq2,
      spaceKeyupBlock_lft, hq1, groundRearmBlock_lft, hp4, aerialStep_lft,
      hv3, brakeStep_lft, steerStep_lft, accelStep_lft]
  have h5w : p5.1.inputMap.w =
      (if v.inputMap.w = some KeyboardEventTypes.keyup then none
       else v.inputMap.w) := by
    rw [hp5, jumpForceBlock_imw, hq3, groundJumpBlock_imw, hq2,
      spaceKeyupBlock_imw, hq1, groundRearmBlock_imw, hp4, aerialStep_imw,
      hv3, brakeStep_imw, steerStep_imw, accelStep_imw_char]
  have h5s : p5.1.inputMap.s =
      (if v.inputMap.s = some KeyboardEventTypes.keyup then none
       else v.inputMap.s) := by
    rw [hp5, jumpForceBlock_ims, hq3, groundJumpBlock_ims, hq2,
      spaceKeyupBlock_ims, hq1, groundRearmBlock_ims, hp4, aerialStep_ims,
      hv3, brakeStep_ims, steerStep_ims, accelStep_ims_char]
  have h5a : p5.1.inputMap.a =
      (if v.inputMap.a = some KeyboardEventTypes.keyup then none
       else v.inputMap.a) := by
    rw [hp5, jumpForceBlock_ima, hq3, groundJumpBlock_ima, hq2,
      spaceKeyupBlock_ima, hq1, groundRearmBlock_ima, hp4, aerialStep_ima,
      hv3, brakeStep_ima, steerStep_ima_char, accelStep_ima]
  have h5d : p5.1.inputMap.d =
      (if v.inputMap.d = some KeyboardEventTypes.keyup then none
       else v.inputMap.d) := by
    rw [hp5, jumpForceBlock_imd, hq3, groundJumpBlock_imd, hq2,
      spaceKeyupBlock_imd, hq1, groundRearmBlock_imd, hp4, aerialStep_imd,
      hv3, brakeStep_imd, steerStep_imd_char, accelStep_imd]
  have hwiff : p5.1.inputMap.w = some KeyboardEventTypes.keydown ↔
      v.inputMap.w = some KeyboardEventTypes.keydown := by
    rw [h5w]; exact keyupErase_kd_iff _
  have hsiff : p5.1.inputMap.s = some KeyboardEventTypes.keydown ↔
      v.inputMap.s = some KeyboardEventTypes.keydown := by
    rw [h5s]; exact keyupErase_kd_iff _
  have haiff : p5.1.inputMap.a = some KeyboardEventTypes.keydown ↔
      v.inputMap.a = some KeyboardEventTypes.keydown := by
    rw [h5a]; exact keyupErase_kd_iff _
  have hdiff : p5.1.inputMap.d = some KeyboardEventTypes.keydown ↔
      v.inputMap.d = some KeyboardEventTypes.keydown := by
    rw [h5d]; exact keyupErase_kd_iff _
  have hp6body : p6 = doubleJumpBody sq p5.1 p5.2 now := by
    rw [hp6]; unfold doubleJumpStep
    rw [if_pos ⟨h5sp.trans h1, h2⟩]
  have h5lnd : p5.2.neutralDoubleJumpImpulses = [] := by
    rw [hp5, jumpForceBlock_lnd, hp4, aerialStep_lnd]; rfl
  have h5lfi : p5.2.flipImpulses = [] := by
    rw [hp5, jumpForceBlock_lfi, hp4, aerialStep_lfi]; rfl
  have h5lft2 : p5.2.flipTorques = [] := by
    rw [hp5, jumpForceBlock_lft2, hp4, aerialStep_lft2]; rfl
  have hfin_lnd : (updateFromKeyboard sq v now).2.neutralDoubleJumpImpulses =
      p6.2.neutralDoubleJumpImpulses := by
    have ht : (updateFromKeyboard sq v now).2.neutralDoubleJumpImpulses =
        p8.2.neutralDoubleJumpImpulses := rfl
    rw [ht, hp8, boostStep_lnd, hp7, selfRightingStep_lnd]
  have hfin_lfi : (updateFromKeyboard sq v now).2.flipImpulses =
      p6.2.flipImpulses := by
    have ht : (updateFromKeyboard sq v now).2.flipImpulses =
        p8.2.flipImpulses := rfl
    rw [ht, hp8, boostStep_lfi, hp7, selfRightingStep_lfi]
  have hfin_lft2 : (updateFromKeyboard sq v now).2.flipTorques =
      p6.2.flipTorques := by
    have ht : (updateFromKeyboard sq v now).2.flipTorques =
        p8.2.flipTorques := rfl
    rw [ht, hp8, boostStep_lft2, hp7, selfRightingStep_lft2]
  have hfin_lft : (updateFromKeyboard sq v now).1.lastFlipTime =
      p6.1.lastFlipTime := by
    have ht : (updateFromKeyboard sq v now).1.lastFlipTime =
        p8.1.lastFlipTime := rfl
    rw [ht, hp8, boostStep_lft, hp7, selfRightingStep_lft]
  refine ⟨hused, hlatch, ?_, ?_⟩
  · rintro ⟨hw, hs, ha, hd⟩
    have hn := doubleJumpBody_neutral sq p5.1 p5.2 now
      (fun hc => hw (hwiff.mp hc)) (fun hc => hs (hsiff.mp hc))
      (fun hc => ha (haiff.mp hc)) (fun hc => hd (hdiff.mp hc))
    rw [← hp6body] at hn
    refine ⟨?_, ?_, ?_, ?_⟩
    · rw [hfin_lnd, hn.1, h5lnd, h5up]
      simp only [List.nil_append]
    · rw [hfin_lfi, hn.2.1, h5lfi]
    · rw [hfin_lft2, hn.2.2.1, h5lft2]
    · rw [hfin_lft, hn.2.2.2, h5lft]
  · intro hdir
    have hdir2 : p5.1.inputMap.w = some KeyboardEventTypes.keydown ∨
        p5.1.inputMap.s = some KeyboardEventTypes.keydown ∨
        p5.1.inputMap.a = some KeyboardEventTypes.keydown ∨
        p5.1.inputMap.d = some KeyboardEventTypes.keydown := by
      rcases hdir with h | h | h | h
      exacts [Or.inl (hwiff.mpr h), Or.inr (Or.inl (hsiff.mpr h)),
        Or.inr (Or.inr (Or.inl (haiff.mpr h))),
        Or.inr (Or.inr (Or.inr (hdiff.mpr h)))]
    have hdn := doubleJumpBody_dir sq p5.1 p5.2 now hdir2 h5lft2
    rw [← hp6body] at hdn
    exact ⟨by rw [hfin_lnd, hdn.1, h5lnd],
      by rw [hfin_lft2]; exact hdn.2.2,
      by rw [hfin_lft, hdn.2.1]⟩

/-- Witness for C5: at a concrete airborne state 500ms after the jump with
only the jump key held, the tick consumes the double jump, re-arms the
latch-clear flag, applies exactly the neutral upward impulse and issues no
flip torque. -/
theorem doubleJump_effects_witness :
    (updateFromKeyboard (fun _ => 0) c1v 500).1.hasUsedDoubleJump = true ∧
    (updateFromKeyboard (fun _ => 0) c1v 500).1.hasStoppedJumping = false ∧
    (updateFromKeyboard (fun _ => 0) c1v 500).2.neutralDoubleJumpImpulses =
      [c1v.up.scale doubleJumpForceAmount] ∧
    (updateFromKeyboard (fun _ => 0) c1v 500).2.flipTorques = [] := by
  have hcdj : canDoubleJump c1v 500 = true := by
    unfold canDoubleJump areWheelsOnGround isStuckUpsideDown
    unfold timeSinceLastJump gtTime ltTime Vec3.almostEquals
    norm_num [c1v, sampleVehicle, samplePV, sampleBody, sampleInput,
      minDoubleJumpDurationMilliseconds, maxDoubleJumpDurationMilliseconds]
  have h := doubleJump_effects (fun _ => 0) c1v 500 rfl hcdj
  have hn := h.2.2.1 ⟨by decide, by decide, by decide, by decide⟩
  exact ⟨h.1, h.2.1, hn.1, hn.2.2.1⟩


theorem Vec3.normSq_scale (a : Vec3) (k : ℚ) :
    (a.scale k).normSq = k ^ 2 * a.normSq := by
  unfold Vec3.scale Vec3.normSq; ring

theorem Vec3.scale_scale (a : Vec3) (k m : ℚ) :
    (a.scale k).scale m = a.scale (k * m) := by
  unfold Vec3.scale
  simp only [Vec3.mk.injEq]
  refine ⟨by ring, by ring, by ring⟩

theorem Vec3.scale_one (a : Vec3) : a.scale 1 = a := by
  cases a; unfold Vec3.scale; simp

theorem aerialTorqueIf_id (p : Vehicle × TickLog) (c : Prop) [Decidable c]
    (t : Vec3) (h : ¬c) : aerialTorqueIf p c t = p := by
  unfold aerialTorqueIf; rw [if_neg h]

theorem jumpForceBlock_id (v : Vehicle) (log : TickLog) (tsj : Option ℤ)
    (h : ¬(v.isJumping = true ∧
        ltTime tsj maxjumpDurationMilliseconds = true)) :
    jumpForceBlock v log tsj = (v, log) := by
  unfold jumpForceBlock; rw [if_neg h]

theorem boostStep_id (v : Vehicle) (log : TickLog)
    (h : v.inputMap.arrowUp ≠ some KeyboardEventTypes.keydown) :
    boostStep v log = (v, log) := by
  unfold boostStep; rw [if_neg h]

/-- A tick with no key edges, no jump in progress, no self-righting in
progress and no ground contact changes nothing before the limiters. -/
theorem tick_id (sq : ℚ → ℚ) (v : Vehicle) (now : ℤ)
    (hw : v.inputMap.w = none) (hs : v.inputMap.s = none)
    (ha : v.inputMap.a = none) (hd : v.inputMap.d = none)
    (hsp : v.inputMap.space = none) (hau : v.inputMap.arrowUp = none)
    (hal : v.inputMap.arrowLeft = none) (har : v.inputMap.arrowRight = none)
    (hsh : v.inputMap.shiftKey = none) (hij : v.isJumping = false)
    (hsr : v.isSelfRighting = false) (hg : areWheelsOnGround v = false) :
    updateFromKeyboardPreLimit sq v now = (v, TickLog.empty) := by
  have ha1 : accelStep v = v := by
    unfold accelStep
    rw [accelDriveBlock_id v (by simp [hw]) (by simp [hs]),
      accelWKeyupBlock_id v (by simp [hw]), accelSKeyupBlock_id v (by simp [hs])]
  have ha2 : steerStep v = v := by
    unfold steerStep
    rw [steerBlock_id v (by simp [ha]) (by simp [hd]),
      steerAKeyupBlock_id v (by simp [ha]), steerDKeyupBlock_id v (by simp [hd])]
  have ha3 : brakeStep v = v := by
    unfold brakeStep
    rw [brakeOnBlock_id v (by simp [hsh]), brakeOffBlock_id v (by simp [hsh])]
  have ha4 : aerialStep v TickLog.empty (areWheelsOnGround v)
      (timeSinceLastFlip v now) = (v, TickLog.empty) := by
    simp only [aerialStep]
    rw [aerialTorqueIf_id _ _ _ (by simp [har]),
      aerialTorqueIf_id _ _ _ (by simp [hal]),
      aerialTorqueIf_id _ _ _ (by simp [hd]),
      aerialTorqueIf_id _ _ _ (by simp [ha]),
      aerialTorqueIf_id _ _ _ (by simp [hs]),
      aerialTorqueIf_id _ _ _ (by simp [hw])]
  have ha5 : jumpStep v TickLog.empty (areWheelsOnGround v)
      (timeSinceLastJump v now) now = (v, TickLog.empty) := by
    unfold jumpStep
    rw [hg, groundRearmBlock_id, spaceKeyupBlock_id v (by simp [hsp]),
      groundJumpBlock_id v false now (by simp [hsp]),
      jumpForceBlock_id v TickLog.empty (timeSinceLastJump v now)
        (by simp [hij])]
  have ha6 : doubleJumpStep sq v TickLog.empty (canDoubleJump v now) now =
      (v, TickLog.empty) :=
    doubleJumpStep_id sq v TickLog.empty (canDoubleJump v now) now
      (by simp [hsp])
  have ha7 : selfRightingStep v TickLog.empty (isFacingUpwards v)
      (isStuckUpsideDown v) now = (v, TickLog.empty) := by
    unfold selfRightingStep
    rw [selfRightCompletionBlock_id v (isFacingUpwards v) (by simp [hsr]),
      selfRightTriggerBlock_id v TickLog.empty (isStuckUpsideDown v) now
        (by simp [hsp])]
  have ha8 : boostStep v TickLog.empty = (v, TickLog.empty) :=
    boostStep_id v TickLog.empty (by simp [hau])
  simp only [updateFromKeyboardPreLimit, ha1, ha2, ha3, ha4, ha5, ha6, ha7,
    ha8]

theorem limitAngularBlock_ang_char (sq : ℚ → ℚ) (b : Body) :
    (limitAngularBlock sq b).angularVelocity =
      if maxAngularVelocity < b.angularVelocity.length sq then
        (b.angularVelocity.unit sq).scale maxAngularVelocity
      else b.angularVelocity := by
  unfold limitAngularBlock; split_ifs <;> rfl

theorem limitLinearBlock_vel_char (sq : ℚ → ℚ) (b : Body) :
    (limitLinearBlock sq b).velocity =
      if maxVelocity < b.velocity.length sq then
        (b.velocity.unit sq).scale maxVelocity
      else b.velocity := by
  unfold limitLinearBlock; split_ifs <;> rfl

/-- The cap-and-rescale pattern shared by both limiters: with an exact
square root, the result's squared magnitude is at most the squared cap and
the result is a nonnegative multiple of the input. -/
theorem capScale_spec (sq : ℚ → ℚ) (cap : ℚ) (w : Vec3) (hcap : 0 < cap)
    (h : IsSqrtOf sq w.normSq) :
    (if cap < Vec3.length sq w then (w.unit sq).scale cap else w).normSq ≤
      cap ^ 2 ∧
    ∃ c : ℚ, 0 ≤ c ∧
      (if cap < Vec3.length sq w then (w.unit sq).scale cap else w) =
        w.scale c := by
  obtain ⟨hn0, hn2⟩ := h
  unfold Vec3.length
  set S := sq w.normSq with hS
  split_ifs with hlt
  · have hnpos : 0 < S := lt_trans hcap hlt
    have hne : S ≠ 0 := ne_of_gt hnpos
    have hunit : w.unit sq = w.scale (1 / S) := by
      simp only [Vec3.unit]
      rw [← hS, if_pos hnpos]
    constructor
    · rw [hunit, Vec3.scale_scale, Vec3.normSq_scale, ← hn2]
      have he : (1 / S * cap) ^ 2 * S ^ 2 = cap ^ 2 := by
        field_simp
      exact he.le
    · exact ⟨1 / S * cap, by positivity,
        by rw [hunit, Vec3.scale_scale]⟩
  · constructor
    · have hle : S ≤ cap := not_lt.mp hlt
      calc w.normSq = S ^ 2 := hn2.symm
        _ ≤ cap ^ 2 := by nlinarith
    · exact ⟨1, zero_le_one, (Vec3.scale_one w).symm⟩

/-- Claim C8: on every tick, independently of ground contact, the final
statements rescale an over-cap linear velocity to magnitude `maxVelocity`
and an over-cap angular velocity to `maxAngularVelocity`, preserving
direction; with an exact square root, after the tick neither squared
magnitude exceeds its squared cap and each final velocity is a nonnegative
multiple of its pre-limit value. -/
theorem velocity_caps (sq : ℚ → ℚ) (v : Vehicle) (now : ℤ)
    (hA : IsSqrtOf sq
      (updateFromKeyboardPreLimit sq v now).1.physicsVehicle.chassisBody.angularVelocity.normSq)
    (hV : IsSqrtOf sq
      (updateFromKeyboardPreLimit sq v now).1.physicsVehicle.chassisBody.velocity.normSq) :
    (updateFromKeyboard sq v now).1.physicsVehicle.chassisBody =
      limitStep sq
        (updateFromKeyboardPreLimit sq v now).1.physicsVehicle.chassisBody ∧
    (updateFromKeyboard sq v now).1.physicsVehicle.chassisBody.angularVelocity.normSq ≤
      maxAngularVelocity ^ 2 ∧
    (updateFromKeyboard sq v now).1.physicsVehicle.chassisBody.velocity.normSq ≤
      maxVelocity ^ 2 ∧
    (∃ c : ℚ, 0 ≤ c ∧
      (updateFromKeyboard sq v now).1.physicsVehicle.chassisBody.angularVelocity =
        ((updateFromKeyboardPreLimit sq v now).1.physicsVehicle.chassisBody.angularVelocity).scale
          c) ∧
    (∃ c : ℚ, 0 ≤ c ∧
      (updateFromKeyboard sq v now).1.physicsVehicle.chassisBody.velocity =
        ((updateFromKeyboardPreLimit sq v now).1.physicsVehicle.chassisBody.velocity).scale
          c) := by
  set b := (updateFromKeyboardPreLimit sq v now).1.physicsVehicle.chassisBody
    with hb
  have hteq : (updateFromKeyboard sq v now).1.physicsVehicle.chassisBody =
      limitStep sq b := rfl
  have hla : (limitStep sq b).angularVelocity =
      (if maxAngularVelocity < Vec3.length sq b.angularVelocity then
        (b.angularVelocity.unit sq).scale maxAngularVelocity
      else b.angularVelocity) := by
    unfold limitStep
    rw [limitLinearBlock_bbang, limitAngularBlock_ang_char]
  have hlv : (limitStep sq b).velocity =
      (if maxVelocity < Vec3.length sq b.velocity then
        (b.velocity.unit sq).scale maxVelocity
      else b.velocity) := by
    unfold limitStep
    rw [limitLinearBlock_vel_char, limitAngularBlock_bbvel]
  have hAng := capScale_spec sq maxAngularVelocity b.angularVelocity
    (by norm_num [maxAngularVelocity]) hA
  have hVel := capScale_spec sq maxVelocity b.velocity
    (by norm_num [maxVelocity]) hV
  refine ⟨hteq, ?_, ?_, ?_, ?_⟩
  · rw [hteq, hla]; exact hAng.1
  · rw [hteq, hlv]; exact hVel.1
  · rw [hteq, hla]; exact hAng.2
  · rw [hteq, hlv]; exact hVel.2

/-- Witness for C8: at a concrete quiescent airborne state with speed 200
(cap 150) and angular speed 6 (cap 11/2), the square-root hypotheses hold
exactly and the tick leaves both squared magnitudes at or below their
squared caps. -/
theorem velocity_caps_witness :
    IsSqrtOf c8sq
      (updateFromKeyboardPreLimit c8sq c8v 0).1.physicsVehicle.chassisBody.angularVelocity.normSq ∧
    IsSqrtOf c8sq
      (updateFromKeyboardPreLimit c8sq c8v 0).1.physicsVehicle.chassisBody.velocity.normSq ∧
    (updateFromKeyboard c8sq c8v 0).1.physicsVehicle.chassisBody.angularVelocity.normSq ≤
      maxAngularVelocity ^ 2 ∧
    (updateFromKeyboard c8sq c8v 0).1.physicsVehicle.chassisBody.velocity.normSq ≤
      maxVelocity ^ 2 := by
  have hpre : updateFromKeyboardPreLimit c8sq c8v 0 = (c8v, TickLog.empty) :=
    tick_id c8sq c8v 0 rfl rfl rfl rfl rfl rfl rfl rfl rfl rfl rfl (by decide)
  have hang : (updateFromKeyboardPreLimit c8sq c8v
      0).1.physicsVehicle.chassisBody.angularVelocity = ⟨0, 6, 0⟩ := by
    rw [hpre]; rfl
  have hvel : (updateFromKeyboardPreLimit c8sq c8v
      0).1.physicsVehicle.chassisBody.velocity = ⟨200, 0, 0⟩ := by
    rw [hpre]; rfl
  have h36 : (Vec3.mk 0 6 0).normSq = 36 := by
    unfold Vec3.normSq; norm_num
  have h40k : (Vec3.mk 200 0 0).normSq = 40000 := by
    unfold Vec3.normSq; norm_num
  have hA : IsSqrtOf c8sq
      (updateFromKeyboardPreLimit c8sq c8v
        0).1.physicsVehicle.chassisBody.angularVelocity.normSq := by
    rw [hang, h36]
    constructor
    · show (0 : ℚ) ≤ c8sq 36
      norm_num [c8sq]
    · show c8sq 36 ^ 2 = 36
      norm_num [c8sq]
  have hV : IsSqrtOf c8sq
      (updateFromKeyboardPreLimit c8sq c8v
        0).1.physicsVehicle.chassisBody.velocity.normSq := by
    rw [hvel, h40k]
    constructor
    · show (0 : ℚ) ≤ c8sq 40000
      norm_num [c8sq]
    · show c8sq 40000 ^ 2 = 40000
      norm_num [c8sq]
  have h := velocity_caps c8sq c8v 0 hA hV
  exact ⟨hA, hV, h.2.1, h.2.2.1⟩


theorem keyupErase_none (o : Option KeyboardEventTypes)
    (h : o ≠ some KeyboardEventTypes.keydown) :
    (if o = some KeyboardEventTypes.keyup then (none : Option KeyboardEventTypes)
     else o) = none := by
  rcases o with _ | e
  · simp
  · cases e
    · exact absurd rfl h
    · simp

theorem accelStep_zero_of_wkeyup (v : Vehicle)
    (hw : v.inputMap.w = some KeyboardEventTypes.keyup) :
    (accelStep v).physicsVehicle.wheel0.engineForce = 0 ∧
    (accelStep v).physicsVehicle.wheel1.engineForce = 0 ∧
    (accelStep v).physicsVehicle.wheel2.engineForce = 0 ∧
    (accelStep v).physicsVehicle.wheel3.engineForce = 0 ∧
    (accelStep v).inputMap.w = none := by
  unfold accelStep
  have hdw : (accelDriveBlock v).inputMap.w = some KeyboardEventTypes.keyup := by
    rw [accelDriveBlock_imw, hw]
  have hfw := accelWKeyupBlock_fire (accelDriveBlock v) hdw
  by_cases hsu : (accelWKeyupBlock (accelDriveBlock v)).inputMap.s =
      some KeyboardEventTypes.keyup
  · have hfs := accelSKeyupBlock_fire _ hsu
    refine ⟨hfs.1, hfs.2.1, hfs.2.2.1, hfs.2.2.2.1, ?_⟩
    rw [accelSKeyupBlock_imw, hfw.2.2.2.2]
  · rw [accelSKeyupBlock_id _ hsu]
    exact hfw

theorem accelStep_zero_of_skeyup (v : Vehicle)
    (hs : v.inputMap.s = some KeyboardEventTypes.keyup) :
    (accelStep v).physicsVehicle.wheel0.engineForce = 0 ∧
    (accelStep v).physicsVehicle.wheel1.engineForce = 0 ∧
    (accelStep v).physicsVehicle.wheel2.engineForce = 0 ∧
    (accelStep v).physicsVehicle.wheel3.engineForce = 0 ∧
    (accelStep v).inputMap.s = none := by
  unfold accelStep
  have hds : (accelWKeyupBlock (accelDriveBlock v)).inputMap.s =
      some KeyboardEventTypes.keyup := by
    rw [accelWKeyupBlock_ims, accelDriveBlock_ims, hs]
  exact accelSKeyupBlock_fire _ hds

theorem steerStep_zero_of_akeyup (v : Vehicle)
    (ha : v.inputMap.a = some KeyboardEventTypes.keyup) :
    (steerStep v).physicsVehicle.wheel0.steering = 0 ∧
    (steerStep v).physicsVehicle.wheel1.steering = 0 ∧
    (steerStep v).inputMap.a = none := by
  unfold steerStep
  have hba : (steerBlock v).inputMap.a = some KeyboardEventTypes.keyup := by
    rw [steerBlock_ima, ha]
  have hfa := steerAKeyupBlock_fire (steerBlock v) hba
  by_cases hdu : (steerAKeyupBlock (steerBlock v)).inputMap.d =
      some KeyboardEventTypes.keyup
  · have hfd := steerDKeyupBlock_fire _ hdu
    refine ⟨hfd.1, hfd.2.1, ?_⟩
    rw [steerDKeyupBlock_ima, hfa.2.2]
  · rw [steerDKeyupBlock_id _ hdu]
    exact hfa

theorem steerStep_zero_of_dkeyup (v : Vehicle)
    (hd : v.inputMap.d = some KeyboardEventTypes.keyup) :
    (steerStep v).physicsVehicle.wheel0.steering = 0 ∧
    (steerStep v).physicsVehicle.wheel1.steering = 0 ∧
    (steerStep v).inputMap.d = none := by
  unfold steerStep
  have hbd : (steerAKeyupBlock (steerBlock v)).inputMap.d =
      some KeyboardEventTypes.keyup := by
    rw [steerAKeyupBlock_imd, steerBlock_imd, hd]
  exact steerDKeyupBlock_fire _ hbd


theorem brakeStep_wl0_char (v : Vehicle) :
    (brakeStep v).physicsVehicle.wheel0 =
      if v.inputMap.shiftKey = some true then
        { v.physicsVehicle.wheel0 with brake := brakeForceAmount }
      else if v.inputMap.shiftKey = some false then
        { v.physicsVehicle.wheel0 with brake := 0 }
      else v.physicsVehicle.wheel0 := by
  unfold brakeStep brakeOnBlock brakeOffBlock
  split_ifs <;> first | rfl | simp_all

theorem brakeStep_wl1_char (v : Vehicle) :
    (brakeStep v).physicsVehicle.wheel1 =
      if v.inputMap.shiftKey = some true then
        { v.physicsVehicle.wheel1 with brake := brakeForceAmount }
      else if v.inputMap.shiftKey = some false then
        { v.physicsVehicle.wheel1 with brake := 0 }
      else v.physicsVehicle.wheel1 := by
  unfold brakeStep brakeOnBlock brakeOffBlock
  split_ifs <;> first | rfl | simp_all

theorem brakeStep_wl2_char (v : Vehicle) :
    (brakeStep v).physicsVehicle.wheel2 =
      if v.inputMap.shiftKey = some true then
        { v.physicsVehicle.wheel2 with brake := brakeForceAmount }
      else if v.inputMap.shiftKey = some false then
        { v.physicsVehicle.wheel2 with brake := 0 }
      else v.physicsVehicle.wheel2 := by
  unfold brakeStep brakeOnBlock brakeOffBlock
  split_ifs <;> first | rfl | simp_all

theorem brakeStep_wl3_char (v : Vehicle) :
    (brakeStep v).physicsVehicle.wheel3 =
      if v.inputMap.shiftKey = some true then
        { v.physicsVehicle.wheel3 with brake := brakeForceAmount }
      else if v.inputMap.shiftKey = some false then
        { v.physicsVehicle.wheel3 with brake := 0 }
      else v.physicsVehicle.wheel3 := by
  unfold brakeStep brakeOnBlock brakeOffBlock
  split_ifs <;> first | rfl | simp_all

/-- The brake statements assign constants, so applying them a second time to
wheels they already produced (under the same shift flag) changes nothing. -/
theorem brakeStep_wheel_idem (p u : Vehicle)
    (hsh : p.inputMap.shiftKey = u.inputMap.shiftKey)
    (h0 : p.physicsVehicle.wheel0 = (brakeStep u).physicsVehicle.wheel0)
    (h1 : p.physicsVehicle.wheel1 = (brakeStep u).physicsVehicle.wheel1)
    (h2 : p.physicsVehicle.wheel2 = (brakeStep u).physicsVehicle.wheel2)
    (h3 : p.physicsVehicle.wheel3 = (brakeStep u).physicsVehicle.wheel3) :
    (brakeStep p).physicsVehicle.wheel0 = p.physicsVehicle.wheel0 ∧
    (brakeStep p).physicsVehicle.wheel1 = p.physicsVehicle.wheel1 ∧
    (brakeStep p).physicsVehicle.wheel2 = p.physicsVehicle.wheel2 ∧
    (brakeStep p).physicsVehicle.wheel3 = p.physicsVehicle.wheel3 := by
  rcases hv : u.inputMap.shiftKey with _ | b
  · have hid : brakeStep p = p := by
      unfold brakeStep
      rw [brakeOnBlock_id p (by rw [hsh, hv]; simp),
        brakeOffBlock_id p (by rw [hsh, hv]; simp)]
    rw [hid]
    exact ⟨rfl, rfl, rfl, rfl⟩
  · have hpsh : p.inputMap.shiftKey = some b := by rw [hsh, hv]
    cases b
    · refine ⟨?_, ?_, ?_, ?_⟩
      · rw [brakeStep_wl0_char, hpsh, if_neg (by simp), if_pos rfl, h0,
          brakeStep_wl0_char, hv, if_neg (by simp), if_pos rfl]
      · rw [brakeStep_wl1_char, hpsh, if_neg (by simp), if_pos rfl, h1,
          brakeStep_wl1_char, hv, if_neg (by simp), if_pos rfl]
      · rw [brakeStep_wl2_char, hpsh, if_neg (by simp), if_pos rfl, h2,
          brakeStep_wl2_char, hv, if_neg (by simp), if_pos rfl]
      · rw [brakeStep_wl3_char, hpsh, if_neg (by simp), if_pos rfl, h3,
          brakeStep_wl3_char, hv, if_neg (by simp), if_pos rfl]
    · refine ⟨?_, ?_, ?_, ?_⟩
      · rw [brakeStep_wl0_char, hpsh, if_pos rfl, h0,
          brakeStep_wl0_char, hv, if_pos rfl]
      · rw [brakeStep_wl1_char, hpsh, if_pos rfl, h1,
          brakeStep_wl1_char, hv, if_pos rfl]
      · rw [brakeStep_wl2_char, hpsh, if_pos rfl, h2,
          brakeStep_wl2_char, hv, if_pos rfl]
      · rw [brakeStep_wl3_char, hpsh, if_pos rfl, h3,
          brakeStep_wl3_char, hv, if_pos rfl]

/-- Claim C2 (amended): a drive or steering key on its `up` edge has its
commanded output zeroed on that tick and its map entry deleted; the jump
key's `up` edge re-arms the latch and ends the jump but its map entry is
NOT deleted.  Once no key is on its `down` edge, a second tick issues no
further change to the wheel commands, the cleared entries, the jump-key
entry or the jump flags. -/
theorem keyup_edges_zero_and_clear (sq : ℚ → ℚ) (v : Vehicle) (now : ℤ) :
    (v.inputMap.w = some KeyboardEventTypes.keyup →
      (updateFromKeyboard sq v now).1.physicsVehicle.wheel0.engineForce = 0 ∧
      (updateFromKeyboard sq v now).1.physicsVehicle.wheel1.engineForce = 0 ∧
      (updateFromKeyboard sq v now).1.physicsVehicle.wheel2.engineForce = 0 ∧
      (updateFromKeyboard sq v now).1.physicsVehicle.wheel3.engineForce = 0 ∧
      (updateFromKeyboard sq v now).1.inputMap.w = none) ∧
    (v.inputMap.s = some KeyboardEventTypes.keyup →
      (updateFromKeyboard sq v now).1.physicsVehicle.wheel0.engineForce = 0 ∧
      (updateFromKeyboard sq v now).1.physicsVehicle.wheel1.engineForce = 0 ∧
      (updateFromKeyboard sq v now).1.physicsVehicle.wheel2.engineForce = 0 ∧
      (updateFromKeyboard sq v now).1.physicsVehicle.wheel3.engineForce = 0 ∧
      (updateFromKeyboard sq v now).1.inputMap.s = none) ∧
    (v.inputMap.a = some KeyboardEventTypes.keyup →
      (updateFromKeyboard sq v now).1.physicsVehicle.wheel0.steering = 0 ∧
      (updateFromKeyboard sq v now).1.physicsVehicle.wheel1.steering = 0 ∧
      (updateFromKeyboard sq v now).1.inputMap.a = none) ∧
    (v.inputMap.d = some KeyboardEventTypes.keyup →
      (updateFromKeyboard sq v now).1.physicsVehicle.wheel0.steering = 0 ∧
      (updateFromKeyboard sq v now).1.physicsVehicle.wheel1.steering = 0 ∧
      (updateFromKeyboard sq v now).1.inputMap.d = none) ∧
    (v.inputMap.space = some KeyboardEventTypes.keyup →
      (updateFromKeyboard sq v now).1.hasStoppedJumping = true ∧
      (updateFromKeyboard sq v now).1.isJumping = false ∧
      (updateFromKeyboard sq v now).1.inputMap.space =
        some KeyboardEventTypes.keyup) ∧
    ((v.inputMap.w ≠ some KeyboardEventTypes.keydown ∧
      v.inputMap.s ≠ some KeyboardEventTypes.keydown ∧
      v.inputMap.a ≠ some KeyboardEventTypes.keydown ∧
      v.inputMap.d ≠ some KeyboardEventTypes.keydown ∧
      v.inputMap.space ≠ some KeyboardEventTypes.keydown) →
      ∀ now2 : ℤ,
        (updateFromKeyboard sq (updateFromKeyboard sq v now).1
            now2).1.physicsVehicle.wheel0 =
          (updateFromKeyboard sq v now).1.physicsVehicle.wheel0 ∧
        (updateFromKeyboard sq (updateFromKeyboard sq v now).1
            now2).1.physicsVehicle.wheel1 =
          (updateFromKeyboard sq v now).1.physicsVehicle.wheel1 ∧
        (updateFromKeyboard sq (updateFromKeyboard sq v now).1
            now2).1.physicsVehicle.wheel2 =
          (updateFromKeyboard sq v now).1.physicsVehicle.wheel2 ∧
        (updateFromKeyboard sq (updateFromKeyboard sq v now).1
            now2).1.physicsVehicle.wheel3 =
          (updateFromKeyboard sq v now).1.physicsVehicle.wheel3 ∧
        (updateFromKeyboard sq (updateFromKeyboard sq v now).1
            now2).1.inputMap.w = none ∧
        (updateFromKeyboard sq (updateFromKeyboard sq v now).1
            now2).1.inputMap.s = none ∧
        (updateFromKeyboard sq (updateFromKeyboard sq v now).1
            now2).1.inputMap.a = none ∧
        (updateFromKeyboard sq (updateFromKeyboard sq v now).1
            now2).1.inputMap.d = none ∧
        (updateFromKeyboard sq (updateFromKeyboard sq v now).1
            now2).1.inputMap.space =
          (updateFromKeyboard sq v now).1.inputMap.space ∧
        (updateFromKeyboard sq (updateFromKeyboard sq v now).1
            now2).1.hasStoppedJumping =
          (updateFromKeyboard sq v now).1.hasStoppedJumping ∧
        (updateFromKeyboard sq (updateFromKeyboard sq v now).1
            now2).1.isJumping =
          (updateFromKeyboard sq v now).1.isJumping) := by
  refine ⟨?_, ?_, ?_, ?_, ?_, ?_⟩
  · intro hw
    have hz := accelStep_zero_of_wkeyup v hw
    exact ⟨(tick_e0 sq v now).trans hz.1, (tick_e1 sq v now).trans hz.2.1,
      (tick_e2 sq v now).trans hz.2.2.1, (tick_e3 sq v now).trans hz.2.2.2.1,
      (tick_imw sq v now).trans hz.2.2.2.2⟩
  · intro hs
    have hz := accelStep_zero_of_skeyup v hs
    exact ⟨(tick_e0 sq v now).trans hz.1, (tick_e1 sq v now).trans hz.2.1,
      (tick_e2 sq v now).trans hz.2.2.1, (tick_e3 sq v now).trans hz.2.2.2.1,
      (tick_ims sq v now).trans hz.2.2.2.2⟩
  · intro ha
    have hz := steerStep_zero_of_akeyup (accelStep v)
      (by rw [accelStep_ima]; exact ha)
    exact ⟨(tick_st0 sq v now).trans hz.1, (tick_st1 sq v now).trans hz.2.1,
      (tick_ima sq v now).trans hz.2.2⟩
  · intro hd
    have hz := steerStep_zero_of_dkeyup (accelStep v)
      (by rw [accelStep_imd]; exact hd)
    exact ⟨(tick_st0 sq v now).trans hz.1, (tick_st1 sq v now).trans hz.2.1,
      (tick_imd sq v now).trans hz.2.2⟩
  · intro hsp
    have hl := (tick_state_chars sq v now).1
    have hj := (tick_state_chars sq v now).2.1
    rw [hsp] at hl hj
    simp at hl hj
    exact ⟨hl, hj, (updateFromKeyboard_imspace sq v now).trans hsp⟩
  · rintro ⟨hw, hs, ha, hd, hsp⟩ now2
    set P := (updateFromKeyboard sq v now).1 with hP
    have hPw : P.inputMap.w = none := by
      have h1 := tick_imw sq v now
      rw [accelStep_imw_char] at h1
      rw [hP, h1]
      exact keyupErase_none _ hw
    have hPs : P.inputMap.s = none := by
      have h1 := tick_ims sq v now
      rw [accelStep_ims_char] at h1
      rw [hP, h1]
      exact keyupErase_none _ hs
    have hPa : P.inputMap.a = none := by
      have h1 := tick_ima sq v now
      rw [steerStep_ima_char, accelStep_ima] at h1
      rw [hP, h1]
      exact keyupErase_none _ ha
    have hPd : P.inputMap.d = none := by
      have h1 := tick_imd sq v now
      rw [steerStep_imd_char, accelStep_imd] at h1
      rw [hP, h1]
      exact keyupErase_none _ hd
    have hPsp : P.inputMap.space = v.inputMap.space := by
      rw [hP]; exact updateFromKeyboard_imspace sq v now
    have hacc : accelStep P = P := by
      unfold accelStep
      rw [accelDriveBlock_id P (by simp [hPw]) (by simp [hPs]),
        accelWKeyupBlock_id P (by simp [hPw]),
        accelSKeyupBlock_id P (by simp [hPs])]
    have hsteer : steerStep P = P := by
      unfold steerStep
      rw [steerBlock_id P (by simp [hPa]) (by simp [hPd]),
        steerAKeyupBlock_id P (by simp [hPa]),
        steerDKeyupBlock_id P (by simp [hPd])]
    have hP0 : P.physicsVehicle.wheel0 =
        (brakeStep (steerStep (accelStep v))).physicsVehicle.wheel0 := by
      rw [hP]
      simp only [updateFromKeyboard, updateFromKeyboardPreLimit, boostStep_wl0,
        selfRightingStep_wl0, doubleJumpStep_wl0, jumpStep_wl0, aerialStep_wl0]
    have hP1 : P.physicsVehicle.wheel1 =
        (brakeStep (steerStep (accelStep v))).physicsVehicle.wheel1 := by
      rw [hP]
      simp only [updateFromKeyboard, updateFromKeyboardPreLimit, boostStep_wl1,
        selfRightingStep_wl1, doubleJumpStep_wl1, jumpStep_wl1, aerialStep_wl1]
    have hP2 : P.physicsVehicle.wheel2 =
        (brakeStep (steerStep (accelStep v))).physicsVehicle.wheel2 := by
      rw [hP]
      simp only [updateFromKeyboard, updateFromKeyboardPreLimit, boostStep_wl2,
        selfRightingStep_wl2, doubleJumpStep_wl2, jumpStep_wl2, aerialStep_wl2]
    have hP3 : P.physicsVehicle.wheel3 =
        (brakeStep (steerStep (accelStep v))).physicsVehicle.wheel3 := by
      rw [hP]
      simp only [updateFromKeyboard, updateFromKeyboardPreLimit, boostStep_wl3,
        selfRightingStep_wl3, doubleJumpStep_wl3, jumpStep_wl3, aerialStep_wl3]
    have hshPU : P.inputMap.shiftKey =
        (steerStep (accelStep v)).inputMap.shiftKey := by
      rw [hP, updateFromKeyboard_imshift, steerStep_imshift, accelStep_imshift]
    obtain ⟨hbw0, hbw1, hbw2, hbw3⟩ :=
      brakeStep_wheel_idem P (steerStep (accelStep v)) hshPU hP0 hP1 hP2 hP3
    have hwl0 : (updateFromKeyboard sq P now2).1.physicsVehicle.wheel0 =
        P.physicsVehicle.wheel0 := by
      simp only [updateFromKeyboard, updateFromKeyboardPreLimit, boostStep_wl0,
        selfRightingStep_wl0, doubleJumpStep_wl0, jumpStep_wl0, aerialStep_wl0,
        hacc, hsteer, hbw0]
    have hwl1 : (updateFromKeyboard sq P now2).1.physicsVehicle.wheel1 =
        P.physicsVehicle.wheel1 := by
      simp only [updateFromKeyboard, updateFromKeyboardPreLimit, boostStep_wl1,
        selfRightingStep_wl1, doubleJumpStep_wl1, jumpStep_wl1, aerialStep_wl1,
        hacc, hsteer, hbw1]
    have hwl2 : (updateFromKeyboard sq P now2).1.physicsVehicle.wheel2 =
        P.physicsVehicle.wheel2 := by
      simp only [updateFromKeyboard, updateFromKeyboardPreLimit, boostStep_wl2,
        selfRightingStep_wl2, doubleJumpStep_wl2, jumpStep_wl2, aerialStep_wl2,
        hacc, hsteer, hbw2]
    have hwl3 : (updateFromKeyboard sq P now2).1.physicsVehicle.wheel3 =
        P.physicsVehicle.wheel3 := by
      simp only [updateFromKeyboard, updateFromKeyboardPreLimit, boostStep_wl3,
        selfRightingStep_wl3, doubleJumpStep_wl3, jumpStep_wl3, aerialStep_wl3,
        hacc, hsteer, hbw3]
    have hQw : (updateFromKeyboard sq P now2).1.inputMap.w = none := by
      have h1 := tick_imw sq P now2
      rw [accelStep_imw_char, hPw] at h1
      simpa using h1
    have hQs : (updateFromKeyboard sq P now2).1.inputMap.s = none := by
      have h1 := tick_ims sq P now2
      rw [accelStep_ims_char, hPs] at h1
      simpa using h1
    have hQa : (updateFromKeyboard sq P now2).1.inputMap.a = none := by
      have h1 := tick_ima sq P now2
      rw [steerStep_ima_char, accelStep_ima, hPa] at h1
      simpa using h1
    have hQd : (updateFromKeyboard sq P now2).1.inputMap.d = none := by
      have h1 := tick_imd sq P now2
      rw [steerStep_imd_char, accelStep_imd, hPd] at h1
      simpa using h1
    have hQsp : (updateFromKeyboard sq P now2).1.inputMap.space =
        P.inputMap.space := updateFromKeyboard_imspace sq P now2
    have hQl := (tick_state_chars sq P now2).1
    have hQj := (tick_state_chars sq P now2).2.1
    rw [hPsp] at hQl hQj
    have hPl := (tick_state_chars sq v now).1
    have hPj := (tick_state_chars sq v now).2.1
    have hlj : (updateFromKeyboard sq P now2).1.hasStoppedJumping =
        P.hasStoppedJumping ∧
        (updateFromKeyboard sq P now2).1.isJumping = P.isJumping := by
      rcases hspc : v.inputMap.space with _ | e
      · rw [hspc] at hQl hQj
        simp at hQl hQj
        exact ⟨hQl, hQj⟩
      · cases e
        · exact absurd hspc hsp
        · rw [hspc] at hQl hQj hPl hPj
          simp at hQl hQj hPl hPj
          rw [hP] at hQl hQj ⊢
          rw [hQl, hQj, hPl, hPj]
          exact ⟨rfl, rfl⟩
    exact ⟨hwl0, hwl1, hwl2, hwl3, hQw, hQs, hQa, hQd, hQsp, hlj.1, hlj.2⟩

/-- Witness for C2 (amended): with every control key on its `up` edge, one
tick zeroes the wheel commands, deletes the four drive/steer entries, keeps
the jump-key entry, and a second tick changes none of them. -/
theorem keyup_edges_zero_and_clear_witness :
    (updateFromKeyboard (fun _ => 0) c2full 0).1.physicsVehicle.wheel0.engineForce = 0 ∧
    (updateFromKeyboard (fun _ => 0) c2full 0).1.inputMap.w = none ∧
    (updateFromKeyboard (fun _ => 0) c2full 0).1.physicsVehicle.wheel0.steering = 0 ∧
    (updateFromKeyboard (fun _ => 0) c2full 0).1.inputMap.a = none ∧
    (updateFromKeyboard (fun _ => 0) c2full 0).1.hasStoppedJumping = true ∧
    (updateFromKeyboard (fun _ => 0) c2full 0).1.inputMap.space =
      some KeyboardEventTypes.keyup ∧
    (updateFromKeyboard (fun _ => 0) (updateFromKeyboard (fun _ => 0) c2full
        0).1 7).1.isJumping =
      (updateFromKeyboard (fun _ => 0) c2full 0).1.isJumping := by
  have h := keyup_edges_zero_and_clear (fun _ => 0) c2full 0
  have h1 := h.1 rfl
  have h3 := h.2.2.1 rfl
  have h5 := h.2.2.2.2.1 rfl
  have h6 := h.2.2.2.2.2 ⟨by decide, by decide, by decide, by decide,
    by decide⟩ 7
  exact ⟨h1.1, h1.2.2.2.2, h3.1, h3.2.2, h5.1, h5.2.2,
    h6.2.2.2.2.2.2.2.2.2.2⟩

end CarBall
